import Mathlib

/-!
# Redland storage registry, projection iterators and Virtuoso query results

A shallow embedding of `librdf/rdf_storage.c` (storage factory registry, storage
handle dispatch and the generic stream-to-node iterator behind
`librdf_storage_get_sources` / `get_arcs` / `get_targets`) and of
`src/rdf_query_virtuoso.c` (query classification, the result accessors, the boolean
and graph views and the termination of the Virtuoso query context, over an abstract
driver), followed by the theorems that settle the specification claims against
these definitions.

Conventions of the embedding.

* C strings are `String` (registry and column names) or `List Char` (texts that
  are scanned character by character); the terminating NUL is the end of the list.
* A pointer that may be `NULL` is an `Option`.
* External callbacks (factory builders, backend methods) are state passing
  functions over a world type `W` chosen by the caller of the model, so that
  "the callback was not invoked" is the statement that the world is unchanged.
* `abort()` and `LIBRDF_FATAL` end the process: the registry records this in its
  `fatal` field, value returning functions answer `Outcome.aborted`.
* Memory allocation results are explicit boolean arguments (`true`: the block was
  obtained), one per allocation site, named after the allocated object.
-/

namespace Librdf

/-! ## Outcomes -/

/-- Result of a C function that may end the process instead of returning. -/
inductive Outcome (α : Type) where
  /-- the function returned normally -/
  | returned (a : α)
  /-- the process was ended by `abort()` -/
  | aborted
  /-- a null pointer was dereferenced or called -/
  | undefined
  deriving DecidableEq

/-! ## Nodes, statements, streams -/

/-- An RDF term: a resource, a blank node or a literal with optional datatype and
language (the `librdf_node` of the library; its lexical rules are not needed here). -/
inductive librdf_node where
  | resource (uri : String)
  | blank (identifier : String)
  | literal (value : String) (datatype : Option String) (language : Option String)
  deriving DecidableEq

/-- Modelled from the spec: the statement of `rdf_statement.c` (not among the
sources): three optional node slots, an absent slot being a wildcard. -/
structure librdf_statement where
  subject : Option librdf_node
  predicate : Option librdf_node
  object : Option librdf_node
  deriving DecidableEq

/-- Modelled from the spec: `librdf_new_statement` gives a statement with three
absent slots. -/
def librdf_new_statement : librdf_statement :=
  { subject := none, predicate := none, object := none }

def librdf_statement_get_subject (s : librdf_statement) : Option librdf_node := s.subject

def librdf_statement_get_predicate (s : librdf_statement) : Option librdf_node := s.predicate

def librdf_statement_get_object (s : librdf_statement) : Option librdf_node := s.object

def librdf_statement_set_subject (s : librdf_statement) (n : Option librdf_node) :
    librdf_statement :=
  { s with subject := n }

def librdf_statement_set_predicate (s : librdf_statement) (n : Option librdf_node) :
    librdf_statement :=
  { s with predicate := n }

def librdf_statement_set_object (s : librdf_statement) (n : Option librdf_node) :
    librdf_statement :=
  { s with object := n }

/-- Modelled from the spec: the statement stream of `rdf_stream.c` (not among the
sources): a forward-only sequence, represented by the statements it has still to
produce, in the order in which it will produce them. -/
structure librdf_stream where
  statements : List librdf_statement
  deriving DecidableEq

/-- Modelled from the spec: `librdf_stream_end` is non-zero when the stream is
exhausted. -/
def librdf_stream_end (s : librdf_stream) : Bool := s.statements.isEmpty

/-- Modelled from the spec: `librdf_stream_next` hands out the next statement (owned
by the caller) and advances, or gives `NULL` on an exhausted stream. -/
def librdf_stream_next (s : librdf_stream) : Option librdf_statement × librdf_stream :=
  match s.statements with
  | [] => (none, s)
  | x :: rest => (some x, { statements := rest })

/-- One release of an owned object, in the order in which the code performs them. -/
inductive Released where
  | node (n : librdf_node)
  | statement (s : librdf_statement)
  | stream (s : librdf_stream)
  | iterator_context
  | storage_context
  | storage
  | column_name (name : String)
  | column_names
  | column_values
  | query_string (s : List Char)
  | uri (u : String)
  | rasqal_query_results (handle : Nat)
  | storage_reference (handle : Nat)
  | stream_context
  | command
  deriving DecidableEq

/-- Nodes held in the slots of a statement, subject first. -/
def librdf_statement.nodes (s : librdf_statement) : List librdf_node :=
  s.subject.toList ++ s.predicate.toList ++ s.object.toList

/-- Modelled from the spec: `librdf_free_statement` releases the nodes still held in
the three slots and then the statement itself. -/
def librdf_free_statement (s : librdf_statement) (log : List Released) : List Released :=
  log ++ s.nodes.map Released.node ++ [Released.statement s]

/-- Modelled from the spec: `librdf_free_stream` disposes of the stream. -/
def librdf_free_stream (s : librdf_stream) (log : List Released) : List Released :=
  log ++ [Released.stream s]

/-! ## Storage factories and the registry -/

/-- The context of the generic stream-to-node iterator
(`librdf_storage_stream_to_node_iterator_context`). -/
structure librdf_storage_stream_to_node_iterator_context where
  stream : Option librdf_stream
  partial_statement : Option librdf_statement
  want : Nat
  deriving DecidableEq

def LIBRDF_STREAM_TO_NODE_ITERATOR_WANT_SOURCES : Nat := 0

def LIBRDF_STREAM_TO_NODE_ITERATOR_WANT_ARCS : Nat := 1

def LIBRDF_STREAM_TO_NODE_ITERATOR_WANT_TARGETS : Nat := 2

/-- An iterator of nodes: either the generic one built by `librdf_new_iterator` over
the three stream-to-node callbacks of `rdf_storage.c`, or whatever a backend's
specialised projection returned (of a type `I` chosen by the backend). -/
inductive librdf_iterator (I : Type) where
  | stream_to_node (context : librdf_storage_stream_to_node_iterator_context)
  | backend (iterator : I)

/-- The storage factory (backend descriptor). Every member but `name` and
`context_length` is a function pointer, `none` being `NULL` as left by `calloc`.
The storage handle argument of the C callbacks is represented by the world `W`,
which holds the backend's private state. Only the members used by the modelled
functions are listed. -/
structure librdf_storage_factory (W I : Type) where
  name : String
  context_length : Nat
  terminate : Option (W → W)
  clone : Option (W → Bool × W)
  find_statements : Option (librdf_statement → W → Option librdf_stream × W)
  find_sources :
    Option (Option librdf_node → Option librdf_node → W → Option (librdf_iterator I) × W)
  find_arcs :
    Option (Option librdf_node → Option librdf_node → W → Option (librdf_iterator I) × W)
  find_targets :
    Option (Option librdf_node → Option librdf_node → W → Option (librdf_iterator I) × W)

/-- A factory block as `calloc` returns it, with the copied name stored in it. -/
def librdf_storage_factory.zeroed (W I : Type) (name : String) : librdf_storage_factory W I :=
  { name := name, context_length := 0, terminate := none, clone := none,
    find_statements := none, find_sources := none, find_arcs := none, find_targets := none }

/-- A factory builder, the `void (*factory)(librdf_storage_factory*)` argument of
registration: it rewrites the block it is given and may act on the world. -/
abbrev FactoryBuilder (W I : Type) : Type :=
  librdf_storage_factory W I → W → librdf_storage_factory W I × W

/-- The storage module: the static list `storages` (head first, linked by `next`),
the world seen by the builders, and whether `LIBRDF_FATAL` has ended the process
(with its message). -/
structure StorageModule (W I : Type) where
  storages : List (librdf_storage_factory W I)
  env : W
  fatal : Option String

/-- The module before any registration. -/
def StorageModule.initial (W I : Type) (env : W) : StorageModule W I :=
  { storages := [], env := env, fatal := none }

/-- The loop `for(h = storages; h; h = h->next) if(!strcmp(h->name, name_copy))`
of registration: the first registered factory with this name, if any. -/
def registered_with_name {W I : Type} :
    List (librdf_storage_factory W I) → String → Option (librdf_storage_factory W I)
  | [], _ => none
  | h :: next, name => if h.name = name then some h else registered_with_name next name

/-- `librdf_storage_register_factory`. `calloc_storage` and `calloc_name` tell
whether the two allocations succeed. -/
def librdf_storage_register_factory {W I : Type} (m : StorageModule W I) (name : String)
    (factory : FactoryBuilder W I) (calloc_storage calloc_name : Bool) : StorageModule W I :=
  match m.fatal with
  | some _ => m
  | none =>
    if !calloc_storage then { m with fatal := some "Out of memory\n" }
    else if !calloc_name then { m with fatal := some "Out of memory\n" }
    else
      let storage := librdf_storage_factory.zeroed W I name
      match registered_with_name m.storages name with
      | some h => { m with fatal := some ("storage " ++ h.name ++ " already registered\n") }
      | none =>
        let built := factory storage m.env
        { storages := built.1 :: m.storages, env := built.2, fatal := none }

/-- `librdf_get_storage_factory`: `name = none` is the `NULL` name. -/
def librdf_get_storage_factory {W I : Type} (storages : List (librdf_storage_factory W I))
    (name : Option String) : Option (librdf_storage_factory W I) :=
  match name with
  | none =>
    match storages with
    | [] => none
    | factory :: _ => some factory
  | some n => registered_with_name storages n

/-- A builder keeps to its contract when it fills in the capability table and the
context size but leaves the name of the block alone. -/
def FactoryBuilder.KeepsName {W I : Type} (factory : FactoryBuilder W I) : Prop :=
  ∀ (storage : librdf_storage_factory W I) (env : W), (factory storage env).1.name = storage.name

/-- Module states reachable from the empty registry by registrations that do not
abort, made with builders that keep to their contract. -/
inductive StorageModule.Reachable {W I : Type} : StorageModule W I → Prop where
  | initial (env : W) : StorageModule.Reachable (StorageModule.initial W I env)
  | register (m : StorageModule W I) (name : String) (factory : FactoryBuilder W I)
      (calloc_storage calloc_name : Bool) :
      StorageModule.Reachable m → factory.KeepsName →
      (librdf_storage_register_factory m name factory calloc_storage calloc_name).fatal = none →
      StorageModule.Reachable
        (librdf_storage_register_factory m name factory calloc_storage calloc_name)

/-! ## Storage handles and the generic projection -/

/-- The storage handle: its factory (absent until construction has committed it) and
its private context block (represented by its size; the backend's data is in `W`). -/
structure librdf_storage (W I : Type) where
  factory : Option (librdf_storage_factory W I)
  context : Option Nat

/-- `librdf_storage_stream_to_node_iterator_have_elements`. -/
def librdf_storage_stream_to_node_iterator_have_elements
    (context : librdf_storage_stream_to_node_iterator_context) : Outcome Bool :=
  match context.stream with
  | none => Outcome.undefined
  | some stream => Outcome.returned (!librdf_stream_end stream)

/-- `librdf_storage_stream_to_node_iterator_get_next`: the node handed out (or
`NULL`), the context afterwards and the releases made. -/
def librdf_storage_stream_to_node_iterator_get_next
    (context : librdf_storage_stream_to_node_iterator_context) (log : List Released) :
    Outcome (Option librdf_node × librdf_storage_stream_to_node_iterator_context ×
      List Released) :=
  match context.stream with
  | none => Outcome.undefined
  | some stream =>
    let next := librdf_stream_next stream
    let context1 := { context with stream := some next.2 }
    match next.1 with
    | none => Outcome.returned (none, context1, log)
    | some statement =>
      if context.want = LIBRDF_STREAM_TO_NODE_ITERATOR_WANT_SOURCES then
        let node := librdf_statement_get_subject statement
        let statement1 := librdf_statement_set_subject statement none
        Outcome.returned (node, context1, librdf_free_statement statement1 log)
      else if context.want = LIBRDF_STREAM_TO_NODE_ITERATOR_WANT_ARCS then
        let node := librdf_statement_get_predicate statement
        let statement1 := librdf_statement_set_predicate statement none
        Outcome.returned (node, context1, librdf_free_statement statement1 log)
      else if context.want = LIBRDF_STREAM_TO_NODE_ITERATOR_WANT_TARGETS then
        let node := librdf_statement_get_object statement
        let statement1 := librdf_statement_set_object statement none
        Outcome.returned (node, context1, librdf_free_statement statement1 log)
      else Outcome.aborted

/-- `librdf_storage_stream_to_node_iterator_finished`: the releases made when the
iterator context is disposed of. -/
def librdf_storage_stream_to_node_iterator_finished
    (context : librdf_storage_stream_to_node_iterator_context) (log : List Released) :
    List Released :=
  let log1 :=
    match context.partial_statement with
    | some partial_statement =>
      librdf_free_statement
        (librdf_statement_set_object
          (librdf_statement_set_predicate
            (librdf_statement_set_subject partial_statement none) none) none) log
    | none => log
  let log2 :=
    match context.stream with
    | some stream => librdf_free_stream stream log1
    | none => log1
  log2 ++ [Released.iterator_context]

/-- The context block as `calloc` returns it. -/
def librdf_storage_stream_to_node_iterator_context.zeroed :
    librdf_storage_stream_to_node_iterator_context :=
  { stream := none, partial_statement := none, want := 0 }

/-- `librdf_storage_get_sources`. The three booleans tell whether
`librdf_new_statement`, the `calloc` of the context and `librdf_new_iterator`
succeed. The result is the iterator (or `NULL`), the world and the release log. -/
def librdf_storage_get_sources {W I : Type} (storage : librdf_storage W I)
    (arc target : Option librdf_node) (new_statement calloc_context new_iterator : Bool)
    (w : W) (log : List Released) : Outcome (Option (librdf_iterator I) × W × List Released) :=
  match storage.factory with
  | none => Outcome.undefined
  | some factory =>
    match factory.find_sources with
    | some find_sources =>
      let r := find_sources arc target w
      Outcome.returned (r.1, r.2, log)
    | none =>
      if !new_statement then Outcome.returned (none, w, log)
      else
        let partial_statement := librdf_new_statement
        if !calloc_context then
          Outcome.returned (none, w, librdf_free_statement partial_statement log)
        else
          let context := librdf_storage_stream_to_node_iterator_context.zeroed
          let partial_statement1 := librdf_statement_set_predicate partial_statement arc
          let partial_statement2 := librdf_statement_set_object partial_statement1 target
          match factory.find_statements with
          | none => Outcome.undefined
          | some find_statements =>
            let found := find_statements partial_statement2 w
            match found.1 with
            | none =>
              Outcome.returned
                (none, found.2, librdf_storage_stream_to_node_iterator_finished context log)
            | some stream =>
              let context1 : librdf_storage_stream_to_node_iterator_context :=
                { partial_statement := some partial_statement2, stream := some stream,
                  want := LIBRDF_STREAM_TO_NODE_ITERATOR_WANT_SOURCES }
              if !new_iterator then
                Outcome.returned
                  (none, found.2, librdf_storage_stream_to_node_iterator_finished context1 log)
              else Outcome.returned (some (librdf_iterator.stream_to_node context1), found.2, log)

/-- `librdf_storage_get_arcs`. Arguments and result as for
`librdf_storage_get_sources`. -/
def librdf_storage_get_arcs {W I : Type} (storage : librdf_storage W I)
    (source target : Option librdf_node) (new_statement calloc_context new_iterator : Bool)
    (w : W) (log : List Released) : Outcome (Option (librdf_iterator I) × W × List Released) :=
  match storage.factory with
  | none => Outcome.undefined
  | some factory =>
    match factory.find_arcs with
    | some find_arcs =>
      let r := find_arcs source target w
      Outcome.returned (r.1, r.2, log)
    | none =>
      if !new_statement then Outcome.returned (none, w, log)
      else
        let partial_statement := librdf_new_statement
        if !calloc_context then
          Outcome.returned (none, w, librdf_free_statement partial_statement log)
        else
          let context := librdf_storage_stream_to_node_iterator_context.zeroed
          let partial_statement1 := librdf_statement_set_subject partial_statement source
          let partial_statement2 := librdf_statement_set_object partial_statement1 target
          match factory.find_statements with
          | none => Outcome.undefined
          | some find_statements =>
            let found := find_statements partial_statement2 w
            match found.1 with
            | none =>
              Outcome.returned
                (none, found.2, librdf_storage_stream_to_node_iterator_finished context log)
            | some stream =>
              let context1 : librdf_storage_stream_to_node_iterator_context :=
                { partial_statement := some partial_statement2, stream := some stream,
                  want := LIBRDF_STREAM_TO_NODE_ITERATOR_WANT_ARCS }
              if !new_iterator then
                Outcome.returned
                  (none, found.2, librdf_storage_stream_to_node_iterator_finished context1 log)
              else Outcome.returned (some (librdf_iterator.stream_to_node context1), found.2, log)

/-- `librdf_storage_get_targets`. Arguments and result as for
`librdf_storage_get_sources`. -/
def librdf_storage_get_targets {W I : Type} (storage : librdf_storage W I)
    (source arc : Option librdf_node) (new_statement calloc_context new_iterator : Bool)
    (w : W) (log : List Released) : Outcome (Option (librdf_iterator I) × W × List Released) :=
  match storage.factory with
  | none => Outcome.undefined
  | some factory =>
    match factory.find_targets with
    | some find_targets =>
      let r := find_targets source arc w
      Outcome.returned (r.1, r.2, log)
    | none =>
      if !new_statement then Outcome.returned (none, w, log)
      else
        let partial_statement := librdf_new_statement
        if !calloc_context then
          Outcome.returned (none, w, librdf_free_statement partial_statement log)
        else
          let context := librdf_storage_stream_to_node_iterator_context.zeroed
          let partial_statement1 := librdf_statement_set_subject partial_statement source
          let partial_statement2 := librdf_statement_set_predicate partial_statement1 arc
          match factory.find_statements with
          | none => Outcome.undefined
          | some find_statements =>
            let found := find_statements partial_statement2 w
            match found.1 with
            | none =>
              Outcome.returned
                (none, found.2, librdf_storage_stream_to_node_iterator_finished context log)
            | some stream =>
              let context1 : librdf_storage_stream_to_node_iterator_context :=
                { partial_statement := some partial_statement2, stream := some stream,
                  want := LIBRDF_STREAM_TO_NODE_ITERATOR_WANT_TARGETS }
              if !new_iterator then
                Outcome.returned
                  (none, found.2, librdf_storage_stream_to_node_iterator_finished context1 log)
              else Outcome.returned (some (librdf_iterator.stream_to_node context1), found.2, log)

/-- Pulling an iterator built on the stream-to-node callbacks until
`have_elements` answers no, at most `fuel` times: the nodes handed out in order,
the context and release log at the end. -/
def stream_to_node_iterator_drain :
    Nat → librdf_storage_stream_to_node_iterator_context → List Released →
    Outcome (List (Option librdf_node) × librdf_storage_stream_to_node_iterator_context ×
      List Released)
  | 0, context, log => Outcome.returned ([], context, log)
  | fuel + 1, context, log =>
    match librdf_storage_stream_to_node_iterator_have_elements context with
    | Outcome.returned true =>
      match librdf_storage_stream_to_node_iterator_get_next context log with
      | Outcome.returned (node, context1, log1) =>
        match stream_to_node_iterator_drain fuel context1 log1 with
        | Outcome.returned (nodes, context2, log2) =>
          Outcome.returned (node :: nodes, context2, log2)
        | Outcome.aborted => Outcome.aborted
        | Outcome.undefined => Outcome.undefined
      | Outcome.aborted => Outcome.aborted
      | Outcome.undefined => Outcome.undefined
    | Outcome.returned false => Outcome.returned ([], context, log)
    | Outcome.aborted => Outcome.aborted
    | Outcome.undefined => Outcome.undefined

/-! ## Reference semantics of the projections -/

/-- A triple of the dataset: all three terms are present. -/
structure Triple where
  subject : librdf_node
  predicate : librdf_node
  object : librdf_node
  deriving DecidableEq

/-- The statement holding a triple. -/
def Triple.toStatement (t : Triple) : librdf_statement :=
  { subject := some t.subject, predicate := some t.predicate, object := some t.object }

/-- Modelled from the spec: a triple matches a pattern when every bound slot of the
pattern holds the triple's term; an absent slot matches anything. -/
def Triple.matches (pattern : librdf_statement) (t : Triple) : Bool :=
  (pattern.subject = none || pattern.subject = some t.subject) &&
  (pattern.predicate = none || pattern.predicate = some t.predicate) &&
  (pattern.object = none || pattern.object = some t.object)

/-- The backend's find-by-pattern serves the dataset: for every pattern it returns
a stream of exactly the dataset's triples matching the pattern, each once, in an
order of its choosing. -/
def ServesDataset {W : Type}
    (find_statements : librdf_statement → W → Option librdf_stream × W)
    (dataset : List Triple) : Prop :=
  ∀ (pattern : librdf_statement) (w : W), ∃ stream : librdf_stream,
    (find_statements pattern w).1 = some stream ∧
    List.Perm stream.statements ((dataset.filter (Triple.matches pattern)).map Triple.toStatement)

/-- Reference for sources: all triples, those with the given predicate and object,
their subjects. -/
def reference_sources (dataset : List Triple) (arc target : librdf_node) : List librdf_node :=
  (dataset.filter (fun t => t.predicate = arc ∧ t.object = target)).map Triple.subject

/-- Reference for arcs: all triples, those with the given subject and object, their
predicates. -/
def reference_arcs (dataset : List Triple) (source target : librdf_node) : List librdf_node :=
  (dataset.filter (fun t => t.subject = source ∧ t.object = target)).map Triple.predicate

/-- Reference for targets: all triples, those with the given subject and predicate,
their objects. -/
def reference_targets (dataset : List Triple) (source arc : librdf_node) : List librdf_node :=
  (dataset.filter (fun t => t.subject = source ∧ t.predicate = arc)).map Triple.object

/-! ## Query classification (`rdf_query_virtuoso.c`) -/

/-- The `isspace` of the C library in the "C" locale: space, `\t`, `\n`, `\v`, `\f`,
`\r`. -/
def isspace (c : Char) : Bool :=
  c = ' ' || c = '\t' || c = '\n' || c = '\x0b' || c = '\x0c' || c = '\r'

/-- The `toupper` of the C library in the "C" locale. -/
def toupper (c : Char) : Char :=
  if 'a'.toNat ≤ c.toNat ∧ c.toNat ≤ 'z'.toNat then Char.ofNat (c.toNat - 32) else c

/-- The loop `while(*keyword && (toupper(*keyword) == toupper(*source)))` of
`strexpect`: what is left of the keyword and of the source when it stops. -/
def strexpect_match : List Char → List Char → List Char × List Char
  | k :: keyword, c :: source =>
    if toupper k = toupper c then strexpect_match keyword source else (k :: keyword, c :: source)
  | keyword, source => (keyword, source)

/-- `strexpect`: `none` is `NULL`, otherwise the position in the source after the
keyword and the white space following it. -/
def strexpect (keyword source : List Char) : Option (List Char) :=
  let source1 := source.dropWhile isspace
  let stopped := strexpect_match keyword source1
  match stopped.1 with
  | _ :: _ => none
  | [] =>
    match stopped.2 with
    | [] => some []
    | c :: rest => if isspace c then some ((c :: rest).dropWhile isspace) else none

/-- The separators of `librdf_query_virtuoso_init`: `" \t\n\r\f"`. -/
def seps : List Char := [' ', '\t', '\n', '\r', '\x0c']

/-- The `strtok` of the C library, on the text that is left to scan: `none` when no
token is left, otherwise the token and the text after the separator that ended it. -/
def strtok (s seps : List Char) : Option (List Char × List Char) :=
  match s.dropWhile (fun c => seps.contains c) with
  | [] => none
  | c :: rest =>
    some ((c :: rest).takeWhile (fun c => !seps.contains c),
          ((c :: rest).dropWhile (fun c => !seps.contains c)).drop 1)

/-- Modelled from the spec: the result shape flags of
`rdf_storage_virtuoso_internal.h` (not among the sources): `UNKNOWN` is no flag, the
others are distinct bits that can be combined. -/
def VQUERY_RESULTS_UNKNOWN : Nat := 0

/-- Modelled from the spec: the BINDINGS shape flag. -/
def VQUERY_RESULTS_BINDINGS : Nat := 1

/-- Modelled from the spec: the BOOLEAN shape flag. -/
def VQUERY_RESULTS_BOOLEAN : Nat := 2

/-- Modelled from the spec: the GRAPH shape flag. -/
def VQUERY_RESULTS_GRAPH : Nat := 4

/-- Modelled from the spec: the SYNTAX shape flag. -/
def VQUERY_RESULTS_SYNTAX : Nat := 8

/-- The token loop of `librdf_query_virtuoso_init`: `s` is the text `strtok` has
still to scan, `result_type` the shape so far; at most `fuel` tokens are taken. -/
def librdf_query_virtuoso_init_tokens : Nat → List Char → Nat → Nat
  | 0, _, result_type => result_type
  | fuel + 1, s, result_type =>
    match strtok s seps with
    | none => result_type
    | some (token, rest) =>
      if (strexpect "SELECT".toList token).isSome then VQUERY_RESULTS_BINDINGS
      else if (strexpect "ASK".toList token).isSome then VQUERY_RESULTS_BOOLEAN
      else if (strexpect "CONSTRUCT".toList token).isSome then
        VQUERY_RESULTS_GRAPH ||| VQUERY_RESULTS_BINDINGS
      else if (strexpect "DESCRIBE".toList token).isSome then
        VQUERY_RESULTS_GRAPH ||| VQUERY_RESULTS_BINDINGS
      else librdf_query_virtuoso_init_tokens fuel rest result_type

/-- The query context (`librdf_query_virtuoso_context`, declared in
`rdf_storage_virtuoso_internal.h`), with the members the modelled functions use.
`colNames` and `colValues` are the arrays of `numCols + 1` pointers: `colNames` is
represented by its leading non-`NULL` entries (the entries after them, the
terminator included, are `NULL`), `colValues` by all its entries. The connection,
the storage, the model and the rasqal results are external objects known by a
handle. -/
structure librdf_query_virtuoso_context where
  query_string : Option (List Char)
  uri : Option String
  language : Option String
  result_type : Nat
  numCols : Int
  colNames : Option (List String)
  colValues : Option (List (Option librdf_node))
  failed : Bool
  eof : Bool
  row_count : Int
  limit : Int
  offset : Int
  results : Option Nat
  vc : Option Nat
  storage : Option Nat
  model : Option Nat
  deriving DecidableEq

/-- The context block as the query constructor allocates it (zero filled). -/
def librdf_query_virtuoso_context.zeroed : librdf_query_virtuoso_context :=
  { query_string := none, uri := none, language := none, result_type := 0, numCols := 0,
    colNames := none, colValues := none, failed := false, eof := false, row_count := 0,
    limit := 0, offset := 0, results := none, vc := none, storage := none, model := none }

/-- `librdf_query_virtuoso_init`: the return value and the context afterwards.
`factory_name` is the name of the query factory, `malloc_query_string` tells
whether the copy of the query text could be allocated. -/
def librdf_query_virtuoso_init (context : librdf_query_virtuoso_context)
    (factory_name : String) (query_string : List Char) (base_uri : Option String)
    (malloc_query_string : Bool) : Int × librdf_query_virtuoso_context :=
  let context1 : librdf_query_virtuoso_context :=
    { context with
      language := some factory_name, offset := 0, colNames := none, colValues := none,
      numCols := 0, failed := false, eof := true, row_count := 0,
      result_type := VQUERY_RESULTS_UNKNOWN, results := none }
  if !malloc_query_string then (1, context1)
  else
    let result_type :=
      librdf_query_virtuoso_init_tokens (query_string.length + 1) query_string
        context1.result_type
    let context2 : librdf_query_virtuoso_context :=
      { context1 with result_type := result_type, query_string := some query_string }
    match base_uri with
    | some u => (0, { context2 with uri := some u })
    | none => (0, context2)

/-! ## Result accessors (`rdf_query_virtuoso.c`) -/

/-- The loop of `librdf_query_virtuoso_results_get_bindings` from column `col` on,
with `remaining` columns to go: every cell is moved into the caller's array. -/
def librdf_query_virtuoso_results_get_bindings_move :
    Nat → Nat → List (Option librdf_node) → List (Option librdf_node) →
    List (Option librdf_node) × List (Option librdf_node)
  | 0, _, colValues, values => (colValues, values)
  | remaining + 1, col, colValues, values =>
    librdf_query_virtuoso_results_get_bindings_move remaining (col + 1)
      (colValues.set col none) (values.set col (colValues.getD col none))

/-- What `librdf_query_virtuoso_results_get_bindings` leaves behind: its return
value, the context, the pointer stored through `names` (when `names` was given and
`colNames` is not `NULL`) and the caller's value array. -/
structure get_bindings_result where
  rc : Int
  context : librdf_query_virtuoso_context
  names : Option (List String)
  values : Option (List (Option librdf_node))
  deriving DecidableEq

/-- `librdf_query_virtuoso_results_get_bindings`. `names` tells whether the caller
passed a place for the names, `values` is the caller's array (`none`: `NULL`). -/
def librdf_query_virtuoso_results_get_bindings (context : librdf_query_virtuoso_context)
    (names : Bool) (values : Option (List (Option librdf_node))) :
    Outcome get_bindings_result :=
  if context.failed || decide (context.numCols ≤ 0) then
    Outcome.returned { rc := 1, context := context, names := none, values := values }
  else
    let names1 := if names then context.colNames else none
    match values with
    | none => Outcome.returned { rc := 0, context := context, names := names1, values := none }
    | some array =>
      if context.eof then
        Outcome.returned { rc := 0, context := context, names := names1, values := some array }
      else
        match context.colValues with
        | none => Outcome.undefined
        | some colValues =>
          let moved :=
            librdf_query_virtuoso_results_get_bindings_move context.numCols.toNat 0
              colValues array
          Outcome.returned
            { rc := 0, context := { context with colValues := some moved.1 }, names := names1,
              values := some moved.2 }

/-- `librdf_query_virtuoso_results_get_binding_value`: the node returned (`none`:
`NULL`) and the context afterwards. -/
def librdf_query_virtuoso_results_get_binding_value (context : librdf_query_virtuoso_context)
    (offset : Int) : Option librdf_node × librdf_query_virtuoso_context :=
  if context.failed || decide (context.numCols ≤ 0) then (none, context)
  else if decide (offset < 0) || decide (offset > context.numCols - 1) then (none, context)
  else
    match context.colValues with
    | none => (none, context)
    | some colValues =>
      (colValues.getD offset.toNat none,
       { context with colValues := some (colValues.set offset.toNat none) })

/-- The loop of `librdf_query_virtuoso_results_get_binding_value_by_name` from column
`col` on, with `remaining` columns to go. Reading a name that is `NULL` is a null
pointer handed to `strcmp`. -/
def librdf_query_virtuoso_results_get_binding_value_by_name_scan (name : String)
    (colNames : List String) (colValues : List (Option librdf_node)) :
    Nat → Nat → Outcome (Option librdf_node)
  | 0, _ => Outcome.returned none
  | remaining + 1, col =>
    match colNames[col]? with
    | none => Outcome.undefined
    | some colName =>
      if name = colName then Outcome.returned (colValues.getD col none)
      else
        librdf_query_virtuoso_results_get_binding_value_by_name_scan name colNames colValues
          remaining (col + 1)

/-- `librdf_query_virtuoso_results_get_binding_value_by_name`: the node returned
(`none`: `NULL`) and the context afterwards. -/
def librdf_query_virtuoso_results_get_binding_value_by_name
    (context : librdf_query_virtuoso_context) (name : String) :
    Outcome (Option librdf_node × librdf_query_virtuoso_context) :=
  if context.failed || decide (context.numCols ≤ 0) then Outcome.returned (none, context)
  else
    match context.colNames, context.colValues with
    | some colNames, some colValues =>
      match librdf_query_virtuoso_results_get_binding_value_by_name_scan name colNames colValues
          context.numCols.toNat 0 with
      | Outcome.returned node => Outcome.returned (node, context)
      | Outcome.aborted => Outcome.aborted
      | Outcome.undefined => Outcome.undefined
    | _, _ => Outcome.returned (none, context)

/-! ## Storage handle construction and destruction (`rdf_storage.c`) -/

/-- `librdf_free_storage`: the world after the backend's `terminate` (called only
when the handle has a factory) and the releases made. Calling through a `terminate`
pointer that is `NULL` is undefined. -/
def librdf_free_storage {W I : Type} (storage : librdf_storage W I) (w : W)
    (log : List Released) : Outcome (W × List Released) :=
  let terminated : Outcome W :=
    match storage.factory with
    | some factory =>
      match factory.terminate with
      | some terminate => Outcome.returned (terminate w)
      | none => Outcome.undefined
    | none => Outcome.returned w
  match terminated with
  | Outcome.returned w1 =>
    let log1 :=
      match storage.context with
      | some _ => log ++ [Released.storage_context]
      | none => log
    Outcome.returned (w1, log1 ++ [Released.storage])
  | Outcome.aborted => Outcome.aborted
  | Outcome.undefined => Outcome.undefined

/-- `librdf_new_storage_from_storage`. The backend's `clone` answers `true` for a
non-zero return (failure). `calloc_storage` and `calloc_context` tell whether the two
allocations succeed. The result is the new handle (or `NULL`), the world and the
release log. -/
def librdf_new_storage_from_storage {W I : Type} (old_storage : librdf_storage W I)
    (calloc_storage calloc_context : Bool) (w : W) (log : List Released) :
    Outcome (Option (librdf_storage W I) × W × List Released) :=
  match old_storage.factory with
  | none => Outcome.undefined
  | some factory =>
    match factory.clone with
    | none => Outcome.aborted
    | some clone =>
      if !calloc_storage then Outcome.returned (none, w, log)
      else
        let new_storage : librdf_storage W I := { factory := none, context := none }
        if !calloc_context then
          match librdf_free_storage new_storage w log with
          | Outcome.returned freed => Outcome.returned (none, freed.1, freed.2)
          | Outcome.aborted => Outcome.aborted
          | Outcome.undefined => Outcome.undefined
        else
          let new_storage1 : librdf_storage W I :=
            { new_storage with context := some factory.context_length }
          let cloned := clone w
          if cloned.1 then
            match librdf_free_storage new_storage1 cloned.2 log with
            | Outcome.returned freed => Outcome.returned (none, freed.1, freed.2)
            | Outcome.aborted => Outcome.aborted
            | Outcome.undefined => Outcome.undefined
          else
            Outcome.returned (some { new_storage1 with factory := some factory }, cloned.2, log)

/-! ## The driver behind a query context -/

/-- The ODBC return code `SQL_SUCCESS` of `sql.h`. -/
def SQL_SUCCESS : Int := 0

/-- The ODBC return code `SQL_SUCCESS_WITH_INFO` of `sql.h`. -/
def SQL_SUCCESS_WITH_INFO : Int := 1

/-- The ODBC return code `SQL_NO_DATA_FOUND` of `sql.h`. -/
def SQL_NO_DATA_FOUND : Int := 100

/-- The ODBC return code `SQL_ERROR` of `sql.h`. -/
def SQL_ERROR : Int := -1

/-- The macro `SQL_SUCCEEDED` of `sqlext.h`: `(rc & ~1) == 0`. -/
def SQL_SUCCEEDED (rc : Int) : Bool := decide (rc = 0) || decide (rc = 1)

/-- The external driver calls made on the connection of a query context, as state
passing functions over the driver's world `D` (the statement handle, its cursor and
the connection pool live there).

* `SQLExecDirect text`, `SQLNumResultCols` (return code and column count),
  `SQLColAttributes icol` (return code and label), `SQLFetch`, `SQLCloseCursor`;
* `SQLError_records location`: the diagnostic records popped with `SQLError` and
  logged by `rdf_virtuoso_ODBC_Errors`;
* `v_GetDataCHAR col`: the data (`none`: `NULL`) and the null indicator;
* `v_GetDataINT col`: the return code, the null indicator and the integer stored;
* `v_rdf2node col data`: the node decoded from the data (`none`: `NULL`);
* `v_release_connection`: the connection goes back to its pool. -/
structure virtuoso_driver (D : Type) where
  SQLExecDirect : List Char → D → Int × D
  SQLNumResultCols : D → (Int × Int) × D
  SQLColAttributes : Int → D → (Int × String) × D
  SQLFetch : D → Int × D
  SQLCloseCursor : D → D
  SQLError_records : String → D → D
  v_GetDataCHAR : Int → D → (Option String × Bool) × D
  v_GetDataINT : Int → D → (Int × Bool × Int) × D
  v_rdf2node : Int → String → D → Option librdf_node × D
  v_release_connection : D → D

/-- `rdf_virtuoso_ODBC_Errors`: its three loops pop the diagnostic records of the
statement, of the connection and of the environment and log them, which is one step
of the driver's world; the return value is always -1. -/
def rdf_virtuoso_ODBC_Errors {D : Type} (drv : virtuoso_driver D) (location : String)
    (d : D) : Int × D :=
  (-1, drv.SQLError_records location d)

/-! ## Releasing and closing a query context (`rdf_query_virtuoso.c`) -/

/-- The loop `for(i = 0; i < numCols; i++) if(colNames[i]) LIBRDF_FREE(colNames[i])`
of `virtuoso_free_result` from entry `i` on, with `remaining` entries to go. -/
def virtuoso_free_result_names (colNames : List String) :
    Nat → Nat → List Released → List Released
  | 0, _, log => log
  | remaining + 1, i, log =>
    match colNames[i]? with
    | some name =>
      virtuoso_free_result_names colNames remaining (i + 1) (log ++ [Released.column_name name])
    | none => virtuoso_free_result_names colNames remaining (i + 1) log

/-- The loop `for(i = 0; i < numCols; i++) if(colValues[i]) librdf_free_node(colValues[i])`
of `virtuoso_free_result` from entry `i` on, with `remaining` entries to go. -/
def virtuoso_free_result_values (colValues : List (Option librdf_node)) :
    Nat → Nat → List Released → List Released
  | 0, _, log => log
  | remaining + 1, i, log =>
    match colValues.getD i none with
    | some node =>
      virtuoso_free_result_values colValues remaining (i + 1) (log ++ [Released.node node])
    | none => virtuoso_free_result_values colValues remaining (i + 1) log

/-- `virtuoso_free_result`: the context afterwards and the releases made. -/
def virtuoso_free_result (context : librdf_query_virtuoso_context) (log : List Released) :
    librdf_query_virtuoso_context × List Released :=
  let log1 :=
    match context.colNames with
    | some colNames =>
      virtuoso_free_result_names colNames context.numCols.toNat 0 log ++ [Released.column_names]
    | none => log
  let log2 :=
    match context.colValues with
    | some colValues =>
      virtuoso_free_result_values colValues context.numCols.toNat 0 log1 ++
        [Released.column_values]
    | none => log1
  ({ context with colNames := none, colValues := none }, log2)

/-- `librdf_query_virtuoso_terminate`: the context, the driver's world and the
release log afterwards. The cursor is closed through `context->vc` before `vc` is
tested, which is undefined without a connection. -/
def librdf_query_virtuoso_terminate {D : Type} (drv : virtuoso_driver D)
    (context : librdf_query_virtuoso_context) (d : D) (log : List Released) :
    Outcome (librdf_query_virtuoso_context × D × List Released) :=
  let log1 :=
    match context.results with
    | some results => log ++ [Released.rasqal_query_results results]
    | none => log
  let freed := virtuoso_free_result context log1
  match freed.1.vc with
  | none => Outcome.undefined
  | some _ =>
    let d1 := drv.SQLCloseCursor d
    let log2 :=
      match freed.1.query_string with
      | some query_string => freed.2 ++ [Released.query_string query_string]
      | none => freed.2
    let log3 :=
      match freed.1.uri with
      | some uri => log2 ++ [Released.uri uri]
      | none => log2
    let d2 := drv.v_release_connection d1
    let log4 :=
      match freed.1.storage with
      | some storage => log3 ++ [Released.storage_reference storage]
      | none => log3
    Outcome.returned (freed.1, d2, log4)

/-! ## Rows and counts (`rdf_query_virtuoso.c`) -/

/-- `librdf_query_virtuoso_results_get_count`. -/
def librdf_query_virtuoso_results_get_count (context : librdf_query_virtuoso_context) : Int :=
  if context.failed || decide (context.numCols ≤ 0) then -1
  else if decide (context.numCols ≤ 0) then -1
  else context.row_count

/-- The loop of `librdf_query_virtuoso_results_next` that releases the nodes left in
the cells, from cell `col` on with `remaining` cells to go. -/
def librdf_query_virtuoso_results_next_release :
    Nat → Nat → List (Option librdf_node) → List Released →
    List (Option librdf_node) × List Released
  | 0, _, colValues, log => (colValues, log)
  | remaining + 1, col, colValues, log =>
    match colValues.getD col none with
    | some node =>
      librdf_query_virtuoso_results_next_release remaining (col + 1) (colValues.set col none)
        (log ++ [Released.node node])
    | none => librdf_query_virtuoso_results_next_release remaining (col + 1) colValues log

/-- The loop of `librdf_query_virtuoso_results_next` that decodes the fetched row,
from column `col` (counted from 1) on with `remaining` columns to go: whether the
row was decoded to its end (`false`: the function returns 2), the cells and the
driver's world. -/
def librdf_query_virtuoso_results_next_decode {D : Type} (drv : virtuoso_driver D) :
    Nat → Int → List (Option librdf_node) → D → Bool × List (Option librdf_node) × D
  | 0, _, colValues, d => (true, colValues, d)
  | remaining + 1, col, colValues, d =>
    let got := drv.v_GetDataCHAR col d
    match got.1.1, got.1.2 with
    | none, false => (false, colValues, got.2)
    | some data, false =>
      let decoded := drv.v_rdf2node col data got.2
      match decoded.1 with
      | none => (false, colValues, decoded.2)
      | some node =>
        librdf_query_virtuoso_results_next_decode drv remaining (col + 1)
          (colValues.set (col - 1).toNat (some node)) decoded.2
    | _, true =>
      librdf_query_virtuoso_results_next_decode drv remaining (col + 1)
        (colValues.set (col - 1).toNat none) got.2

/-- `librdf_query_virtuoso_results_next`: the return value, the context, the driver's
world and the release log afterwards. The source initialises its local `numCols`
from `context->numCols` before `context` is assigned; the model takes the value of
that local as the argument `numCols`, whatever it is. It bounds the loop that
releases the cells, the decoding loop is bounded by `context->numCols`. The loops
go through `colValues` and the calls through `context->vc` and `context->storage`:
where one of them is `NULL` when it is needed the outcome is undefined. -/
def librdf_query_virtuoso_results_next {D : Type} (drv : virtuoso_driver D)
    (context : librdf_query_virtuoso_context) (numCols : Int) (d : D) (log : List Released) :
    Outcome (Int × librdf_query_virtuoso_context × D × List Released) :=
  if context.failed || context.eof then Outcome.returned (1, context, d, log)
  else
    let released : Outcome (Option (List (Option librdf_node)) × List Released) :=
      if numCols ≤ 0 then Outcome.returned (context.colValues, log)
      else
        match context.colValues with
        | none => Outcome.undefined
        | some colValues =>
          let r := librdf_query_virtuoso_results_next_release numCols.toNat 0 colValues log
          Outcome.returned (some r.1, r.2)
    match released with
    | Outcome.aborted => Outcome.aborted
    | Outcome.undefined => Outcome.undefined
    | Outcome.returned (colValues1, log1) =>
      let context1 := { context with colValues := colValues1 }
      match context.vc with
      | none => Outcome.undefined
      | some _ =>
        let fetched := drv.SQLFetch d
        if fetched.1 = SQL_NO_DATA_FOUND then
          Outcome.returned (1, { context1 with eof := true }, fetched.2, log1)
        else if fetched.1 ≠ SQL_SUCCESS ∧ fetched.1 ≠ SQL_SUCCESS_WITH_INFO then
          match context.storage with
          | none => Outcome.undefined
          | some _ =>
            Outcome.returned
              (2, context1, (rdf_virtuoso_ODBC_Errors drv "SQLFetch" fetched.2).2, log1)
        else if context.numCols ≤ 0 then
          Outcome.returned
            (0, { context1 with row_count := context.row_count + 1 }, fetched.2, log1)
        else
          match context.storage, colValues1 with
          | some _, some colValues =>
            let decoded :=
              librdf_query_virtuoso_results_next_decode drv context.numCols.toNat 1 colValues
                fetched.2
            if decoded.1 then
              Outcome.returned
                (0, { context1 with
                      colValues := some decoded.2.1, row_count := context.row_count + 1 },
                 decoded.2.2, log1)
            else
              Outcome.returned
                (2, { context1 with colValues := some decoded.2.1 }, decoded.2.2, log1)
          | _, _ => Outcome.undefined

/-- `librdf_query_virtuoso_results_finished`. -/
def librdf_query_virtuoso_results_finished (context : librdf_query_virtuoso_context) : Int :=
  if context.failed || context.eof then 1 else 0

/-- `librdf_query_virtuoso_results_get_binding_name`: the name returned (`none`:
`NULL`). -/
def librdf_query_virtuoso_results_get_binding_name (context : librdf_query_virtuoso_context)
    (offset : Int) : Option String :=
  if context.failed || decide (context.numCols ≤ 0) then none
  else if decide (offset < 0) || decide (offset > context.numCols - 1) then none
  else
    match context.colNames with
    | none => none
    | some colNames => colNames[offset.toNat]?

/-- `librdf_query_virtuoso_results_get_bindings_count`. -/
def librdf_query_virtuoso_results_get_bindings_count
    (context : librdf_query_virtuoso_context) : Int :=
  if context.failed || decide (context.numCols ≤ 0) then -1
  else
    match context.colNames, context.colValues with
    | some _, some _ => context.numCols
    | _, _ => -1

/-- `librdf_query_virtuoso_results_get_boolean`: the return value, the context and
the driver's world afterwards. -/
def librdf_query_virtuoso_results_get_boolean {D : Type} (drv : virtuoso_driver D)
    (context : librdf_query_virtuoso_context) (d : D) :
    Outcome (Int × librdf_query_virtuoso_context × D) :=
  if context.failed || decide (context.numCols ≤ 0) then Outcome.returned (-1, context, d)
  else
    match context.vc with
    | none => Outcome.undefined
    | some _ =>
      let fetched := drv.SQLFetch d
      if fetched.1 = SQL_NO_DATA_FOUND then
        Outcome.returned (0, { context with eof := true }, fetched.2)
      else
        match context.storage with
        | none => Outcome.undefined
        | some _ =>
          if fetched.1 ≠ SQL_SUCCESS ∧ fetched.1 ≠ SQL_SUCCESS_WITH_INFO then
            Outcome.returned
              (-1, context, (rdf_virtuoso_ODBC_Errors drv "SQLFetch" fetched.2).2)
          else
            let got := drv.v_GetDataINT 1 fetched.2
            if got.1.1 = -1 then Outcome.returned (-1, { context with eof := true }, got.2)
            else Outcome.returned (got.1.2.2, { context with eof := true }, got.2)

/-! ## The graph view (`rdf_query_virtuoso.c`) -/

/-- The context of the graph stream (`librdf_query_virtuoso_stream_context`); the
query and its context, which the C structure points to, are passed alongside. -/
structure librdf_query_virtuoso_stream_context where
  statement : Option librdf_statement
  graph : Option librdf_node
  finished : Bool
  numCols : Int
  deriving DecidableEq

/-- The stream context block as `calloc` returns it. -/
def librdf_query_virtuoso_stream_context.zeroed : librdf_query_virtuoso_stream_context :=
  { statement := none, graph := none, finished := false, numCols := 0 }

/-- The iterator get-method flag `LIBRDF_ITERATOR_GET_METHOD_GET_OBJECT` of
`rdf_iterator.h`. -/
def LIBRDF_ITERATOR_GET_METHOD_GET_OBJECT : Int := 0

/-- The iterator get-method flag `LIBRDF_ITERATOR_GET_METHOD_GET_CONTEXT` of
`rdf_iterator.h`. -/
def LIBRDF_ITERATOR_GET_METHOD_GET_CONTEXT : Int := 1

/-- What the get method of the graph stream hands out through its `void*`. -/
inductive stream_object where
  | statement (s : librdf_statement)
  | node (n : librdf_node)
  deriving DecidableEq

/-- `librdf_query_virtuoso_query_results_end_of_stream`. -/
def librdf_query_virtuoso_query_results_end_of_stream
    (scontext : librdf_query_virtuoso_stream_context) : Bool :=
  scontext.finished

/-- The step of `librdf_query_virtuoso_query_results_update_statement` that is
written out for each column: get the data of column `colNum`, go to `fail` (`none`)
when there is no data or the cell is null, decode the data, go to `fail` when there
is no node. -/
def librdf_query_virtuoso_query_results_update_statement_cell {D : Type}
    (drv : virtuoso_driver D) (colNum : Int) (d : D) : Option librdf_node × D :=
  let got := drv.v_GetDataCHAR colNum d
  match got.1.1, got.1.2 with
  | some data, false => drv.v_rdf2node colNum data got.2
  | _, _ => (none, got.2)

/-- The label `fail` of `librdf_query_virtuoso_query_results_update_statement`. -/
def librdf_query_virtuoso_query_results_update_statement_fail {D : Type}
    (scontext : librdf_query_virtuoso_stream_context) (statement : librdf_statement) (d : D)
    (log : List Released) : Int × librdf_query_virtuoso_stream_context × D × List Released :=
  (1, { scontext with statement := none }, d, librdf_free_statement statement log)

/-- `librdf_query_virtuoso_query_results_update_statement`: the return value, the
stream context, the driver's world and the release log afterwards. `new_statement`
tells whether `librdf_new_statement` succeeds. -/
def librdf_query_virtuoso_query_results_update_statement {D : Type} (drv : virtuoso_driver D)
    (scontext : librdf_query_virtuoso_stream_context)
    (qcontext : librdf_query_virtuoso_context) (new_statement : Bool) (d : D)
    (log : List Released) :
    Outcome (Int × librdf_query_virtuoso_stream_context × D × List Released) :=
  if !new_statement then Outcome.returned (1, { scontext with statement := none }, d, log)
  else
    let statement := librdf_new_statement
    let log1 :=
      match scontext.graph with
      | some graph => log ++ [Released.node graph]
      | none => log
    let scontext1 := { scontext with statement := some statement, graph := none }
    if qcontext.result_type &&& VQUERY_RESULTS_GRAPH = 0 then
      Outcome.returned
        (librdf_query_virtuoso_query_results_update_statement_fail scontext1 statement d log1)
    else if 1 > scontext.numCols then
      Outcome.returned
        (librdf_query_virtuoso_query_results_update_statement_fail scontext1 statement d log1)
    else
      match qcontext.vc with
      | none => Outcome.undefined
      | some _ =>
        let graph_step : Option (librdf_query_virtuoso_stream_context × Int × D) :=
          if scontext.numCols > 3 then
            let cell := librdf_query_virtuoso_query_results_update_statement_cell drv 1 d
            match cell.1 with
            | none => none
            | some node => some ({ scontext1 with graph := some node }, 2, cell.2)
          else some (scontext1, 1, d)
        match graph_step with
        | none =>
          Outcome.returned
            (librdf_query_virtuoso_query_results_update_statement_fail scontext1 statement
              (librdf_query_virtuoso_query_results_update_statement_cell drv 1 d).2 log1)
        | some (scontext2, colNum, d2) =>
          let subject := librdf_query_virtuoso_query_results_update_statement_cell drv colNum d2
          match subject.1 with
          | none =>
            Outcome.returned
              (librdf_query_virtuoso_query_results_update_statement_fail scontext2 statement
                subject.2 log1)
          | some s =>
            let statement1 := librdf_statement_set_subject statement (some s)
            if colNum + 1 > scontext.numCols then
              Outcome.returned
                (librdf_query_virtuoso_query_results_update_statement_fail scontext2 statement1
                  subject.2 log1)
            else
              let predicate :=
                librdf_query_virtuoso_query_results_update_statement_cell drv (colNum + 1)
                  subject.2
              match predicate.1 with
              | none =>
                Outcome.returned
                  (librdf_query_virtuoso_query_results_update_statement_fail scontext2
                    statement1 predicate.2 log1)
              | some p =>
                let statement2 := librdf_statement_set_predicate statement1 (some p)
                if colNum + 2 > scontext.numCols then
                  Outcome.returned
                    (librdf_query_virtuoso_query_results_update_statement_fail scontext2
                      statement2 predicate.2 log1)
                else
                  let object :=
                    librdf_query_virtuoso_query_results_update_statement_cell drv (colNum + 2)
                      predicate.2
                  match object.1 with
                  | none =>
                    Outcome.returned
                      (librdf_query_virtuoso_query_results_update_statement_fail scontext2
                        statement2 object.2 log1)
                  | some o =>
                    Outcome.returned
                      (0, { scontext2 with
                            statement := some (librdf_statement_set_object statement2 (some o)) },
                       object.2, log1)

/-- `librdf_query_virtuoso_query_results_next_statement`: the return value, the
stream context, the driver's world and the release log afterwards. -/
def librdf_query_virtuoso_query_results_next_statement {D : Type} (drv : virtuoso_driver D)
    (scontext : librdf_query_virtuoso_stream_context)
    (qcontext : librdf_query_virtuoso_context) (new_statement : Bool) (d : D)
    (log : List Released) :
    Outcome (Int × librdf_query_virtuoso_stream_context × D × List Released) :=
  if scontext.finished then Outcome.returned (1, scontext, d, log)
  else
    let log1 :=
      match scontext.statement with
      | some statement => librdf_free_statement statement log
      | none => log
    let scontext1 := { scontext with statement := none }
    match qcontext.vc with
    | none => Outcome.undefined
    | some _ =>
      let fetched := drv.SQLFetch d
      if fetched.1 = SQL_NO_DATA_FOUND then
        Outcome.returned (1, { scontext1 with finished := true }, fetched.2, log1)
      else if fetched.1 ≠ SQL_SUCCESS ∧ fetched.1 ≠ SQL_SUCCESS_WITH_INFO then
        Outcome.returned
          (1, { scontext1 with finished := true },
           (rdf_virtuoso_ODBC_Errors drv "SQLFetch" fetched.2).2, log1)
      else
        match librdf_query_virtuoso_query_results_update_statement drv scontext1 qcontext
            new_statement fetched.2 log1 with
        | Outcome.returned updated =>
          Outcome.returned
            ((if updated.2.1.finished then 1 else 0), updated.2.1, updated.2.2.1, updated.2.2.2)
        | Outcome.aborted => Outcome.aborted
        | Outcome.undefined => Outcome.undefined

/-- `librdf_query_virtuoso_query_results_get_statement`: `none` is `NULL`. -/
def librdf_query_virtuoso_query_results_get_statement
    (scontext : librdf_query_virtuoso_stream_context) (flags : Int) : Option stream_object :=
  if flags = LIBRDF_ITERATOR_GET_METHOD_GET_OBJECT then
    scontext.statement.map stream_object.statement
  else if flags = LIBRDF_ITERATOR_GET_METHOD_GET_CONTEXT then
    scontext.graph.map stream_object.node
  else none

/-- `librdf_query_virtuoso_query_results_finished`: the releases made when the stream
context (`none`: `NULL`) is disposed of. -/
def librdf_query_virtuoso_query_results_finished
    (scontext : Option librdf_query_virtuoso_stream_context) (log : List Released) :
    List Released :=
  match scontext with
  | none => log
  | some scontext =>
    let log1 :=
      match scontext.statement with
      | some statement => librdf_free_statement statement log
      | none => log
    let log2 :=
      match scontext.graph with
      | some graph => log1 ++ [Released.node graph]
      | none => log1
    log2 ++ [Released.stream_context]

/-- The label `fail` of `librdf_query_virtuoso_results_as_stream`. -/
def librdf_query_virtuoso_results_as_stream_fail
    (scontext : librdf_query_virtuoso_stream_context) (statement : librdf_statement)
    (context : librdf_query_virtuoso_context) (log : List Released) :
    Option librdf_query_virtuoso_stream_context × librdf_query_virtuoso_context ×
      List Released :=
  (none, context,
   librdf_query_virtuoso_query_results_finished (some { scontext with statement := none })
     (librdf_free_statement statement log))

/-- `librdf_query_virtuoso_results_as_stream`: the stream (represented by its
context, `none`: `NULL`), the query context and the release log afterwards. The
three booleans tell whether the `calloc` of the stream context,
`librdf_new_statement` and `librdf_new_stream` succeed. -/
def librdf_query_virtuoso_results_as_stream (context : librdf_query_virtuoso_context)
    (calloc_scontext new_statement new_stream : Bool) (log : List Released) :
    Outcome (Option librdf_query_virtuoso_stream_context × librdf_query_virtuoso_context ×
      List Released) :=
  if context.failed || decide (context.numCols < 3) || context.eof then
    Outcome.returned (none, context, log)
  else if context.result_type &&& VQUERY_RESULTS_GRAPH = 0 then
    Outcome.returned (none, context, log)
  else if !calloc_scontext then Outcome.returned (none, context, log)
  else
    let scontext : librdf_query_virtuoso_stream_context :=
      { librdf_query_virtuoso_stream_context.zeroed with numCols := context.numCols }
    if !new_statement then Outcome.returned (none, context, log)
    else
      let statement := librdf_new_statement
      match context.colValues with
      | none => Outcome.undefined
      | some colValues =>
        let graph_step : librdf_query_virtuoso_stream_context × List (Option librdf_node) × Nat :=
          if scontext.numCols > 3 then
            ({ scontext with graph := colValues.getD 0 none }, colValues.set 0 none, 1)
          else (scontext, colValues, 0)
        let scontext1 := graph_step.1
        let col := graph_step.2.2
        let statement1 := librdf_statement_set_subject statement (graph_step.2.1.getD col none)
        let colValues1 := graph_step.2.1.set col none
        if ((col + 1 : Nat) : Int) > scontext.numCols then
          Outcome.returned
            (librdf_query_virtuoso_results_as_stream_fail scontext1 statement1
              { context with colValues := some colValues1 } log)
        else
          let statement2 :=
            librdf_statement_set_predicate statement1 (colValues1.getD (col + 1) none)
          let colValues2 := colValues1.set (col + 1) none
          if ((col + 2 : Nat) : Int) > scontext.numCols then
            Outcome.returned
              (librdf_query_virtuoso_results_as_stream_fail scontext1 statement2
                { context with colValues := some colValues2 } log)
          else
            let statement3 :=
              librdf_statement_set_object statement2 (colValues2.getD (col + 2) none)
            let colValues3 := colValues2.set (col + 2) none
            if ((col + 3 : Nat) : Int) > scontext.numCols then
              Outcome.returned
                (librdf_query_virtuoso_results_as_stream_fail scontext1 statement3
                  { context with colValues := some colValues3 } log)
            else
              let scontext2 := { scontext1 with statement := some statement3 }
              if !new_stream then
                Outcome.returned
                  (none, { context with colValues := some colValues3 },
                   librdf_query_virtuoso_query_results_finished (some scontext2) log)
              else
                Outcome.returned
                  (some scontext2, { context with colValues := some colValues3 }, log)

/-! ## Executing a query (`rdf_query_virtuoso.c`) -/

/-- The prefix `pref` that `librdf_query_virtuoso_execute` puts before the query text. -/
def pref : List Char := "sparql define output:format '_JAVA_' ".toList

/-- The loop of `librdf_query_virtuoso_execute` that asks the driver for the label of
each column, from column `icol` (counted from 1) on with `remaining` columns to go:
whether all labels were stored (`false`: the function goes to `error`), the labels
stored so far and the driver's world. `calloc_name icol` tells whether the buffer for
the label of column `icol` is allocated. The error report goes through
`context->storage`, which is undefined when it is `NULL`. -/
def librdf_query_virtuoso_execute_names {D : Type} (drv : virtuoso_driver D)
    (storage : Option Nat) (calloc_name : Int → Bool) :
    Nat → Int → List String → D → Outcome (Bool × List String × D)
  | 0, _, colNames, d => Outcome.returned (true, colNames, d)
  | remaining + 1, icol, colNames, d =>
    let got := drv.SQLColAttributes icol d
    if !SQL_SUCCEEDED got.1.1 then
      match storage with
      | none => Outcome.undefined
      | some _ =>
        Outcome.returned
          (false, colNames, (rdf_virtuoso_ODBC_Errors drv "SQLColAttributes()" got.2).2)
    else if !calloc_name icol then Outcome.returned (false, colNames, got.2)
    else
      librdf_query_virtuoso_execute_names drv storage calloc_name remaining (icol + 1)
        (colNames ++ [got.1.2]) got.2

/-- The label `error` of `librdf_query_virtuoso_execute`; `cmd` tells whether the
command buffer was allocated. The function returns `NULL` (`false`). -/
def librdf_query_virtuoso_execute_error {D : Type} (context : librdf_query_virtuoso_context)
    (cmd : Bool) (d : D) (log : List Released) :
    Outcome (Bool × librdf_query_virtuoso_context × D × List Released) :=
  let log1 := if cmd then log ++ [Released.command] else log
  let freed := virtuoso_free_result { context with failed := true } log1
  Outcome.returned (false, freed.1, d, freed.2)

/-- The block of `librdf_query_virtuoso_execute` that runs after the columns were
counted: with at least one column the two arrays are allocated, the labels are
stored, BINDINGS is added to the shape flags and the end-of-rows flag is cleared.
Whether the block ran to its end (`false`: the function goes to `error`), the
context and the driver's world. -/
def librdf_query_virtuoso_execute_columns {D : Type} (drv : virtuoso_driver D)
    (context : librdf_query_virtuoso_context) (calloc_colNames calloc_colValues : Bool)
    (calloc_name : Int → Bool) (d : D) :
    Outcome (Bool × librdf_query_virtuoso_context × D) :=
  if context.numCols > 0 then
    if !calloc_colNames then Outcome.returned (false, context, d)
    else if !calloc_colValues then
      Outcome.returned (false, { context with colNames := some [] }, d)
    else
      let context1 :=
        { context with
          colNames := some [],
          colValues := some (List.replicate (context.numCols + 1).toNat none) }
      match librdf_query_virtuoso_execute_names drv context.storage calloc_name
          context.numCols.toNat 1 [] d with
      | Outcome.returned (true, colNames, d1) =>
        Outcome.returned
          (true,
           { context1 with
             colNames := some colNames,
             result_type := context1.result_type ||| VQUERY_RESULTS_BINDINGS,
             eof := false }, d1)
      | Outcome.returned (false, colNames, d1) =>
        Outcome.returned (false, { context1 with colNames := some colNames }, d1)
      | Outcome.aborted => Outcome.aborted
      | Outcome.undefined => Outcome.undefined
  else Outcome.returned (true, context, d)

/-- `librdf_query_virtuoso_execute`: whether a results object is returned (`false`:
`NULL`), the context, the driver's world and the release log afterwards.
`malloc_cmd`, `calloc_colNames`, `calloc_colValues`, `calloc_name` and
`malloc_results` tell whether the allocations succeed, `rasqal_results` is what
`rasqal_new_query_results` returns, and `numCols` is the value of the local of that
name in the call of `librdf_query_virtuoso_results_next` that ends the function.
That call is made also when the results object is `NULL`, which is undefined. -/
def librdf_query_virtuoso_execute {D : Type} (drv : virtuoso_driver D)
    (context : librdf_query_virtuoso_context) (model : Option Nat)
    (malloc_cmd calloc_colNames calloc_colValues : Bool) (calloc_name : Int → Bool)
    (rasqal_results : Option Nat) (malloc_results : Bool) (numCols : Int) (d : D)
    (log : List Released) :
    Outcome (Bool × librdf_query_virtuoso_context × D × List Released) :=
  let freed :=
    virtuoso_free_result
      { context with
        model := model, numCols := 0, failed := false, eof := true, row_count := 0,
        limit := -1, offset := -1 } log
  match freed.1.vc with
  | none => Outcome.undefined
  | some _ =>
    let d1 := drv.SQLCloseCursor d
    match freed.1.query_string with
    | none => Outcome.undefined
    | some query_string =>
      if !malloc_cmd then librdf_query_virtuoso_execute_error freed.1 false d1 freed.2
      else
        let executed := drv.SQLExecDirect (pref ++ query_string) d1
        if !SQL_SUCCEEDED executed.1 then
          match freed.1.storage with
          | none => Outcome.undefined
          | some _ =>
            librdf_query_virtuoso_execute_error
              { freed.1 with result_type := VQUERY_RESULTS_SYNTAX } true
              (rdf_virtuoso_ODBC_Errors drv "SQLExecDirect()" executed.2).2 freed.2
        else
          let counted := drv.SQLNumResultCols executed.2
          let context1 := { freed.1 with numCols := counted.1.2 }
          if !SQL_SUCCEEDED counted.1.1 then
            match freed.1.storage with
            | none => Outcome.undefined
            | some _ =>
              librdf_query_virtuoso_execute_error context1 true
                (rdf_virtuoso_ODBC_Errors drv "SQLNumResultCols()" counted.2).2 freed.2
          else
            match librdf_query_virtuoso_execute_columns drv context1 calloc_colNames
                calloc_colValues calloc_name counted.2 with
            | Outcome.returned (false, context2, d2) =>
              librdf_query_virtuoso_execute_error context2 true d2 freed.2
            | Outcome.returned (true, context2, d2) =>
              if !malloc_results then Outcome.undefined
              else
                match librdf_query_virtuoso_results_next drv
                    { context2 with results := rasqal_results } numCols d2 freed.2 with
                | Outcome.returned (rc, context3, d3, log3) =>
                  if rc = 2 then librdf_query_virtuoso_execute_error context3 true d3 log3
                  else Outcome.returned (true, context3, d3, log3 ++ [Released.command])
                | Outcome.aborted => Outcome.aborted
                | Outcome.undefined => Outcome.undefined
            | Outcome.aborted => Outcome.aborted
            | Outcome.undefined => Outcome.undefined

/-- `librdf_query_virtuoso_get_limit`. -/
def librdf_query_virtuoso_get_limit (context : librdf_query_virtuoso_context) : Int :=
  context.limit

/-- `librdf_query_virtuoso_set_limit`: the return value and the context afterwards. -/
def librdf_query_virtuoso_set_limit (context : librdf_query_virtuoso_context) (limit : Int) :
    Int × librdf_query_virtuoso_context :=
  (0, { context with limit := limit })

/-- `librdf_query_virtuoso_get_offset`. -/
def librdf_query_virtuoso_get_offset (context : librdf_query_virtuoso_context) : Int :=
  context.offset

/-- `librdf_query_virtuoso_set_offset`: the return value and the context afterwards. -/
def librdf_query_virtuoso_set_offset (context : librdf_query_virtuoso_context) (offset : Int) :
    Int × librdf_query_virtuoso_context :=
  (0, { context with offset := offset })

/-- `librdf_query_virtuoso_free_results`: the context, the driver's world and the
release log afterwards. The cursor is closed through `context->vc`, which is
undefined when it is `NULL`. -/
def librdf_query_virtuoso_free_results {D : Type} (drv : virtuoso_driver D)
    (context : librdf_query_virtuoso_context) (d : D) (log : List Released) :
    Outcome (librdf_query_virtuoso_context × D × List Released) :=
  let closed : Outcome D :=
    if !context.failed && decide (context.numCols ≠ 0) then
      match context.vc with
      | none => Outcome.undefined
      | some _ => Outcome.returned (drv.SQLCloseCursor d)
    else Outcome.returned d
  match closed with
  | Outcome.returned d1 =>
    let freed := virtuoso_free_result context log
    Outcome.returned
      ({ freed.1 with
         eof := true, numCols := 0, row_count := 0, result_type := VQUERY_RESULTS_UNKNOWN },
       d1, freed.2)
  | Outcome.aborted => Outcome.aborted
  | Outcome.undefined => Outcome.undefined

/-- `librdf_query_virtuoso_results_is_bindings`. -/
def librdf_query_virtuoso_results_is_bindings (context : librdf_query_virtuoso_context) :
    Int :=
  if context.numCols ≤ 0 then 0
  else ((context.result_type &&& VQUERY_RESULTS_BINDINGS : Nat) : Int)

/-- `librdf_query_virtuoso_results_is_boolean`. -/
def librdf_query_virtuoso_results_is_boolean (context : librdf_query_virtuoso_context) :
    Int :=
  if context.numCols ≤ 0 then 0
  else ((context.result_type &&& VQUERY_RESULTS_BOOLEAN : Nat) : Int)

/-- `librdf_query_virtuoso_results_is_graph`. -/
def librdf_query_virtuoso_results_is_graph (context : librdf_query_virtuoso_context) : Int :=
  if context.numCols ≤ 0 then 0
  else ((context.result_type &&& VQUERY_RESULTS_GRAPH : Nat) : Int)

/-- `librdf_query_virtuoso_results_is_syntax`. -/
def librdf_query_virtuoso_results_is_syntax (context : librdf_query_virtuoso_context) : Int :=
  if context.numCols ≤ 0 then 0
  else ((context.result_type &&& VQUERY_RESULTS_SYNTAX : Nat) : Int)

/-! ## Definitions used to state the claims -/

/-- The slot of a statement that an iterator wanting `want` hands out. -/
def wanted_slot (want : Nat) (s : librdf_statement) : Option librdf_node :=
  if want = LIBRDF_STREAM_TO_NODE_ITERATOR_WANT_SOURCES then s.subject
  else if want = LIBRDF_STREAM_TO_NODE_ITERATOR_WANT_ARCS then s.predicate
  else s.object

/-- Draining the iterator context with `fuel` pulls allowed ends with an exhausted
iterator and has handed out, as a multiset, exactly the nodes of `reference`. -/
def DrainsTo (context : librdf_storage_stream_to_node_iterator_context) (fuel : Nat)
    (log : List Released) (reference : List librdf_node) : Prop :=
  ∃ nodes context1 log1,
    stream_to_node_iterator_drain fuel context log = Outcome.returned (nodes, context1, log1) ∧
    librdf_storage_stream_to_node_iterator_have_elements context1 = Outcome.returned false ∧
    (Multiset.ofList nodes) = Multiset.ofList (reference.map some)

/-- The text has `keyword` as its leading token: after the leading white space come
the characters of the keyword, in either case, followed by white space or by the end
of the text. -/
def leading_token_is (keyword text : List Char) : Bool :=
  decide (((text.dropWhile isspace).take keyword.length).map toupper = keyword.map toupper) &&
  (match (text.dropWhile isspace).drop keyword.length with
   | [] => true
   | c :: _ => isspace c)

/-- The tokens of a text: the text split at the separators of the classification,
empty pieces dropped. -/
def tokens (text : List Char) : List (List Char) :=
  (text.splitOnP (fun c => seps.contains c)).filter (fun token => !token.isEmpty)

/-- The four keywords that the classification looks for. -/
def keywords : List (List Char) :=
  ["SELECT".toList, "ASK".toList, "CONSTRUCT".toList, "DESCRIBE".toList]

/-- The shape that a token stands for: `none` when it is none of the keywords. -/
def shape_of_token (token : List Char) : Option Nat :=
  if leading_token_is "SELECT".toList token then some VQUERY_RESULTS_BINDINGS
  else if leading_token_is "ASK".toList token then some VQUERY_RESULTS_BOOLEAN
  else if leading_token_is "CONSTRUCT".toList token then
    some (VQUERY_RESULTS_GRAPH ||| VQUERY_RESULTS_BINDINGS)
  else if leading_token_is "DESCRIBE".toList token then
    some (VQUERY_RESULTS_GRAPH ||| VQUERY_RESULTS_BINDINGS)
  else none

/-- Two calls of `librdf_query_virtuoso_terminate` in a row, the second on what the
first left. -/
def terminate_twice {D : Type} (drv : virtuoso_driver D)
    (context : librdf_query_virtuoso_context) (d : D) (log : List Released) :
    Outcome (librdf_query_virtuoso_context × D × List Released) :=
  match librdf_query_virtuoso_terminate drv context d log with
  | Outcome.returned (context1, d1, log1) => librdf_query_virtuoso_terminate drv context1 d1 log1
  | Outcome.aborted => Outcome.aborted
  | Outcome.undefined => Outcome.undefined

/-- The releases that every call of `librdf_query_virtuoso_terminate` makes for the
members it does not reset: the rasqal results, the query text, the base URI and the
storage reference. -/
def terminate_releases (context : librdf_query_virtuoso_context) : List Released :=
  context.results.toList.map Released.rasqal_query_results ++
  context.query_string.toList.map Released.query_string ++
  context.uri.toList.map Released.uri ++
  context.storage.toList.map Released.storage_reference

/-- The release log after `librdf_query_virtuoso_execute` has released, on entry, the
two arrays of an earlier execution; the column count is 0 by then, so no name and no
node is released with them. -/
def librdf_query_virtuoso_execute_entry_log (context : librdf_query_virtuoso_context)
    (log : List Released) : List Released :=
  log ++ context.colNames.toList.map (fun _ => Released.column_names) ++
    context.colValues.toList.map (fun _ => Released.column_values)

/-- The context as `librdf_query_virtuoso_execute` has set it up when it fetches the
first row of a result of `numCols` columns with labels `colNames`. -/
def librdf_query_virtuoso_execute_ready (context : librdf_query_virtuoso_context)
    (model : Option Nat) (numCols : Int) (colNames : List String)
    (rasqal_results : Option Nat) : librdf_query_virtuoso_context :=
  { context with
    model := model, numCols := numCols, failed := false, eof := false, row_count := 0,
    limit := -1, offset := -1, colNames := some colNames,
    colValues := some (List.replicate (numCols + 1).toNat none),
    result_type := context.result_type ||| VQUERY_RESULTS_BINDINGS,
    results := rasqal_results }

/-- Whether `strexpect` accepts the token for one of the four keywords. -/
def accepted (token : List Char) : Bool :=
  keywords.any (fun keyword => (strexpect keyword token).isSome)

/-- The shape flags of the keyword for which `strexpect` accepts the token, unknown
when it accepts the token for none. -/
def accepted_shape (token : List Char) : Nat :=
  if (strexpect "SELECT".toList token).isSome then VQUERY_RESULTS_BINDINGS
  else if (strexpect "ASK".toList token).isSome then VQUERY_RESULTS_BOOLEAN
  else if (strexpect "CONSTRUCT".toList token).isSome then
    VQUERY_RESULTS_GRAPH ||| VQUERY_RESULTS_BINDINGS
  else if (strexpect "DESCRIBE".toList token).isSome then
    VQUERY_RESULTS_GRAPH ||| VQUERY_RESULTS_BINDINGS
  else VQUERY_RESULTS_UNKNOWN

/-! ## Example values -/

/-- A builder as the backends write them: it sets the context size and counts its
invocations in the world. -/
def example_builder : FactoryBuilder Nat Unit :=
  fun storage calls => ({ storage with context_length := 8 }, calls + 1)

/-- The module after registering `hashes` and then `list`, as `librdf_init_storage`
does. -/
def example_module : StorageModule Nat Unit :=
  librdf_storage_register_factory
    (librdf_storage_register_factory (StorageModule.initial Nat Unit 0) "hashes"
      example_builder true true)
    "list" example_builder true true

/-- A dataset of three triples, two of them with predicate `p` and object `o`. -/
def example_dataset : List Triple :=
  [ { subject := librdf_node.resource "s1", predicate := librdf_node.resource "p",
      object := librdf_node.resource "o" },
    { subject := librdf_node.resource "s2", predicate := librdf_node.resource "p",
      object := librdf_node.resource "o" },
    { subject := librdf_node.resource "s1", predicate := librdf_node.resource "q",
      object := librdf_node.literal "o" none none } ]

/-- A find-by-pattern over `example_dataset` that produces the matching triples last
first. -/
def example_find_statements (pattern : librdf_statement) (w : Unit) :
    Option librdf_stream × Unit :=
  (some { statements :=
      ((example_dataset.filter (Triple.matches pattern)).map Triple.toStatement).reverse }, w)

/-- A factory with find-by-pattern and no specialised projection. -/
def example_factory : librdf_storage_factory Unit Unit :=
  { librdf_storage_factory.zeroed Unit Unit "list" with
    find_statements := some example_find_statements }

/-- A storage handle bound to `example_factory`. -/
def example_storage : librdf_storage Unit Unit :=
  { factory := some example_factory, context := some 0 }

/-- A context on a row of two columns `s` and `o`. -/
def example_context : librdf_query_virtuoso_context :=
  { librdf_query_virtuoso_context.zeroed with
    numCols := 2, colNames := some ["s", "o"],
    colValues := some [some (librdf_node.resource "a"), some (librdf_node.blank "b"), none],
    result_type := VQUERY_RESULTS_BINDINGS }

/-- A context on a row of two columns both named `x`, holding two different nodes. -/
def example_context_same_names : librdf_query_virtuoso_context :=
  { librdf_query_virtuoso_context.zeroed with
    numCols := 2, colNames := some ["x", "x"],
    colValues := some [some (librdf_node.resource "a"), some (librdf_node.resource "b"), none],
    result_type := VQUERY_RESULTS_BINDINGS }

/-- A cell of a row in the cursor of the example driver: SQL null, character data,
an integer, or a cell for which the driver has no data. -/
inductive cursor_cell where
  | null
  | chars (data : String)
  | int (value : Int)
  | no_data
  deriving DecidableEq

/-- The world of the example driver: the column labels, the rows the cursor has
still to deliver (`none`: the fetch reports a driver error), the row fetched last,
and counters of the calls made. -/
structure cursor_state where
  labels : List String
  rows : List (Option (List cursor_cell))
  current : List cursor_cell
  fetch_calls : Nat
  close_calls : Nat
  release_calls : Nat
  error_reports : Nat
  deriving DecidableEq

/-- An example driver over `cursor_state`. Character data decodes to the resource of
that name, except the empty string, which does not decode. -/
def cursor_driver : virtuoso_driver cursor_state :=
  { SQLExecDirect := fun _ d => (SQL_SUCCESS, d)
    SQLNumResultCols := fun d => ((SQL_SUCCESS, (d.labels.length : Int)), d)
    SQLColAttributes := fun icol d =>
      match d.labels[(icol - 1).toNat]? with
      | some label => ((SQL_SUCCESS, label), d)
      | none => ((SQL_ERROR, ""), d)
    SQLFetch := fun d =>
      match d.rows with
      | [] => (SQL_NO_DATA_FOUND, { d with fetch_calls := d.fetch_calls + 1 })
      | none :: rest => (SQL_ERROR, { d with rows := rest, fetch_calls := d.fetch_calls + 1 })
      | some row :: rest =>
        (SQL_SUCCESS, { d with rows := rest, current := row, fetch_calls := d.fetch_calls + 1 })
    SQLCloseCursor := fun d => { d with close_calls := d.close_calls + 1 }
    SQLError_records := fun _ d => { d with error_reports := d.error_reports + 1 }
    v_GetDataCHAR := fun col d =>
      match d.current[(col - 1).toNat]? with
      | some (cursor_cell.chars data) => ((some data, false), d)
      | some cursor_cell.null => ((none, true), d)
      | _ => ((none, false), d)
    v_GetDataINT := fun col d =>
      match d.current[(col - 1).toNat]? with
      | some (cursor_cell.int value) => ((0, false, value), d)
      | some cursor_cell.null => ((0, true, 0), d)
      | _ => ((-1, false, 0), d)
    v_rdf2node := fun _ data d =>
      (if data = "" then none else some (librdf_node.resource data), d)
    v_release_connection := fun d => { d with release_calls := d.release_calls + 1 } }

/-- The example driver's world on a cursor with the given labels and rows, before any
call. -/
def cursor_state.start (labels : List String) (rows : List (Option (List cursor_cell))) :
    cursor_state :=
  { labels := labels, rows := rows, current := [], fetch_calls := 0, close_calls := 0,
    release_calls := 0, error_reports := 0 }

/-- A context of a boolean result with one column, holding a connection and a
storage. -/
def example_boolean_context : librdf_query_virtuoso_context :=
  { librdf_query_virtuoso_context.zeroed with
    numCols := 1, colNames := some ["ask"], colValues := some [none, none],
    result_type := VQUERY_RESULTS_BOOLEAN ||| VQUERY_RESULTS_BINDINGS,
    vc := some 1, storage := some 1, query_string := some "ASK \x7b\x7d".toList }

/-- A context of a graph result with four columns on its first row, holding a
connection and a storage. -/
def example_graph_context : librdf_query_virtuoso_context :=
  { librdf_query_virtuoso_context.zeroed with
    numCols := 4, colNames := some ["g", "s", "p", "o"],
    colValues := some [some (librdf_node.resource "g1"), some (librdf_node.resource "s1"),
      some (librdf_node.resource "p1"), some (librdf_node.resource "o1"), none],
    result_type := VQUERY_RESULTS_GRAPH ||| VQUERY_RESULTS_BINDINGS,
    vc := some 1, storage := some 1, row_count := 1 }

/-- A context of a graph result with three columns on its first row. -/
def example_triple_context : librdf_query_virtuoso_context :=
  { librdf_query_virtuoso_context.zeroed with
    numCols := 3, colNames := some ["s", "p", "o"],
    colValues := some [some (librdf_node.resource "s1"), some (librdf_node.resource "p1"),
      some (librdf_node.resource "o1"), none],
    result_type := VQUERY_RESULTS_GRAPH ||| VQUERY_RESULTS_BINDINGS,
    vc := some 1, storage := some 1, row_count := 1 }

/-- An iterator context over a stream of one statement, with the pattern of a
sources projection. -/
def example_iterator_context : librdf_storage_stream_to_node_iterator_context :=
  { stream := some
      { statements :=
          [{ subject := some (librdf_node.resource "s1"),
             predicate := some (librdf_node.resource "p"),
             object := some (librdf_node.resource "o") }] },
    partial_statement := some
      { subject := none, predicate := some (librdf_node.resource "p"),
        object := some (librdf_node.resource "o") },
    want := LIBRDF_STREAM_TO_NODE_ITERATOR_WANT_SOURCES }

/-- A factory over a counting world: the specialised sources projection adds 1 to the
world, find-by-pattern adds 100, clone adds 10 and fails exactly on an odd world,
terminate adds 1000. -/
def example_counting_factory : librdf_storage_factory Nat Unit :=
  { librdf_storage_factory.zeroed Nat Unit "counting" with
    context_length := 8
    terminate := some (fun w => w + 1000)
    clone := some (fun w => (decide (w % 2 = 1), w + 10))
    find_statements := some (fun _ w => (some { statements := [] }, w + 100))
    find_sources := some (fun _ _ w => (some (librdf_iterator.backend ()), w + 1)) }

/-- A storage handle bound to `example_counting_factory`. -/
def example_counting_storage : librdf_storage Nat Unit :=
  { factory := some example_counting_factory, context := some 8 }

/-- The example driver on a server that rejects every command. -/
def rejecting_driver : virtuoso_driver cursor_state :=
  { cursor_driver with SQLExecDirect := fun _ d => (SQL_ERROR, d) }

/-- The example driver with integer cells that can also be read as characters: they
read as the text `int`. -/
def integer_text_driver : virtuoso_driver cursor_state :=
  { cursor_driver with
    v_GetDataCHAR := fun col d =>
      match d.current[(col - 1).toNat]? with
      | some (cursor_cell.int _) => ((some "int", false), d)
      | _ => cursor_driver.v_GetDataCHAR col d }

/-- The context of a query on `text` as `librdf_query_virtuoso_init` leaves it, bound
to a connection and to a storage. -/
def example_query (text : String) : librdf_query_virtuoso_context :=
  (librdf_query_virtuoso_init
    { librdf_query_virtuoso_context.zeroed with vc := some 1, storage := some 1 }
    "vsparql" text.toList none true).2

/-! ## The generic projection (C1) -/

theorem stream_to_node_iterator_drain_eq (statements : List librdf_statement) :
    ∀ (fuel : Nat) (partial_statement : Option librdf_statement) (want : Nat)
      (log : List Released),
      statements.length ≤ fuel → want ≤ 2 →
      ∃ log1,
        stream_to_node_iterator_drain fuel
          { stream := some { statements := statements },
            partial_statement := partial_statement, want := want } log
        = Outcome.returned
            (statements.map (wanted_slot want),
             { stream := some { statements := [] },
               partial_statement := partial_statement, want := want }, log1) := by
  induction statements with
  | nil =>
    intro fuel partial_statement want log _ _
    cases fuel with
    | zero => exact ⟨log, rfl⟩
    | succ n =>
      exact ⟨log, by simp [stream_to_node_iterator_drain,
        librdf_storage_stream_to_node_iterator_have_elements, librdf_stream_end]⟩
  | cons x rest ih =>
    intro fuel partial_statement want log hfuel hwant
    cases fuel with
    | zero => simp at hfuel
    | succ n =>
      have hn : rest.length ≤ n := by simpa using hfuel
      have hw : want = 0 ∨ want = 1 ∨ want = 2 := by omega
      rcases hw with h | h | h <;> subst h
      all_goals
        simp only [stream_to_node_iterator_drain,
          librdf_storage_stream_to_node_iterator_have_elements, librdf_stream_end,
          librdf_storage_stream_to_node_iterator_get_next, librdf_stream_next,
          LIBRDF_STREAM_TO_NODE_ITERATOR_WANT_SOURCES, LIBRDF_STREAM_TO_NODE_ITERATOR_WANT_ARCS,
          LIBRDF_STREAM_TO_NODE_ITERATOR_WANT_TARGETS, List.isEmpty_cons, Bool.not_false,
          if_true, one_ne_zero, if_false, OfNat.ofNat_ne_zero, OfNat.ofNat_ne_one]
        generalize librdf_free_statement _ log = log0
        obtain ⟨log1, h1⟩ := ih n partial_statement _ log0 hn hwant
        refine ⟨log1, ?_⟩
        rw [h1]
        simp [wanted_slot, librdf_statement_get_subject, librdf_statement_get_predicate,
          librdf_statement_get_object, LIBRDF_STREAM_TO_NODE_ITERATOR_WANT_SOURCES,
          LIBRDF_STREAM_TO_NODE_ITERATOR_WANT_ARCS]

theorem drainsTo_of_perm (dataset : List Triple) (pattern : librdf_statement)
    (stream : librdf_stream) (want fuel : Nat) (log : List Released)
    (reference : List librdf_node)
    (hperm : List.Perm stream.statements
      ((dataset.filter (Triple.matches pattern)).map Triple.toStatement))
    (hfuel : dataset.length ≤ fuel) (hwant : want ≤ 2)
    (href : ((dataset.filter (Triple.matches pattern)).map Triple.toStatement).map
        (wanted_slot want) = reference.map some) :
    DrainsTo { stream := some stream, partial_statement := some pattern, want := want }
      fuel log reference := by
  have hlen : stream.statements.length ≤ fuel := by
    rw [hperm.length_eq, List.length_map]
    exact le_trans (List.length_filter_le _ _) hfuel
  obtain ⟨log1, h1⟩ :=
    stream_to_node_iterator_drain_eq stream.statements fuel (some pattern) want log hlen hwant
  refine ⟨_, _, log1, h1, ?_, ?_⟩
  · simp [librdf_storage_stream_to_node_iterator_have_elements, librdf_stream_end]
  · rw [← href]
    exact Multiset.coe_eq_coe.mpr (hperm.map _)

theorem example_find_statements_serves :
    ServesDataset example_find_statements example_dataset :=
  fun _ _ => ⟨_, rfl, List.reverse_perm _⟩

/-- C1: when the backend's find-by-pattern serves the dataset and all allocations
succeed, then for each axis for which the factory has no specialised projection the
call of `librdf_storage_get_sources` / `get_arcs` / `get_targets` with two bound
terms returns a generic iterator, and pulling it while it has elements ends and
yields, as a multiset, the reference: all triples, those equal to the two bound terms
on the bound axes, projected on the wildcard axis. -/
theorem projection_iterator_matches_reference {W I : Type} (dataset : List Triple)
    (storage : librdf_storage W I) (factory : librdf_storage_factory W I)
    (find_statements : librdf_statement → W → Option librdf_stream × W)
    (a b : librdf_node) (w : W) (log : List Released) (fuel : Nat)
    (hfactory : storage.factory = some factory)
    (hfind : factory.find_statements = some find_statements)
    (hserves : ServesDataset find_statements dataset)
    (hfuel : dataset.length ≤ fuel) :
    (factory.find_sources = none →
      ∃ context w1,
        librdf_storage_get_sources storage (some a) (some b) true true true w log =
          Outcome.returned (some (librdf_iterator.stream_to_node context), w1, log) ∧
        DrainsTo context fuel log (reference_sources dataset a b)) ∧
    (factory.find_arcs = none →
      ∃ context w1,
        librdf_storage_get_arcs storage (some a) (some b) true true true w log =
          Outcome.returned (some (librdf_iterator.stream_to_node context), w1, log) ∧
        DrainsTo context fuel log (reference_arcs dataset a b)) ∧
    (factory.find_targets = none →
      ∃ context w1,
        librdf_storage_get_targets storage (some a) (some b) true true true w log =
          Outcome.returned (some (librdf_iterator.stream_to_node context), w1, log) ∧
        DrainsTo context fuel log (reference_targets dataset a b)) := by
  refine ⟨fun hnone => ?_, fun hnone => ?_, fun hnone => ?_⟩
  · obtain ⟨stream, hs, hperm⟩ := hserves
      { subject := none, predicate := some a, object := some b } w
    have heq : librdf_storage_get_sources storage (some a) (some b) true true true w log =
        Outcome.returned (some (librdf_iterator.stream_to_node
          { stream := some stream,
            partial_statement := some { subject := none, predicate := some a, object := some b },
            want := 0 }),
          (find_statements { subject := none, predicate := some a, object := some b } w).2,
          log) := by
      simp [librdf_storage_get_sources, hfactory, hnone, hfind, hs, librdf_new_statement,
        librdf_statement_set_subject, librdf_statement_set_predicate,
        librdf_statement_set_object]
      rfl
    refine ⟨_, _, heq, drainsTo_of_perm dataset _ stream 0 fuel log _ hperm hfuel (by omega) ?_⟩
    have hfilter : Triple.matches { subject := none, predicate := some a, object := some b } = fun t => decide (t.predicate = a ∧ t.object = b) := by
      funext t
      simp [Triple.matches, eq_comm]
    have hmap : wanted_slot 0 ∘ Triple.toStatement = some ∘ Triple.subject := by
      funext t
      simp [wanted_slot, Triple.toStatement, LIBRDF_STREAM_TO_NODE_ITERATOR_WANT_SOURCES,
        LIBRDF_STREAM_TO_NODE_ITERATOR_WANT_ARCS]
    simp only [reference_sources, List.map_map, hfilter, hmap]
  · obtain ⟨stream, hs, hperm⟩ := hserves
      { subject := some a, predicate := none, object := some b } w
    have heq : librdf_storage_get_arcs storage (some a) (some b) true true true w log =
        Outcome.returned (some (librdf_iterator.stream_to_node
          { stream := some stream,
            partial_statement := some { subject := some a, predicate := none, object := some b },
            want := 1 }),
          (find_statements { subject := some a, predicate := none, object := some b } w).2,
          log) := by
      simp [librdf_storage_get_arcs, hfactory, hnone, hfind, hs, librdf_new_statement,
        librdf_statement_set_subject, librdf_statement_set_predicate,
        librdf_statement_set_object]
      rfl
    refine ⟨_, _, heq, drainsTo_of_perm dataset _ stream 1 fuel log _ hperm hfuel (by omega) ?_⟩
    have hfilter : Triple.matches { subject := some a, predicate := none, object := some b } = fun t => decide (t.subject = a ∧ t.object = b) := by
      funext t
      simp [Triple.matches, eq_comm]
    have hmap : wanted_slot 1 ∘ Triple.toStatement = some ∘ Triple.predicate := by
      funext t
      simp [wanted_slot, Triple.toStatement, LIBRDF_STREAM_TO_NODE_ITERATOR_WANT_SOURCES,
        LIBRDF_STREAM_TO_NODE_ITERATOR_WANT_ARCS]
    simp only [reference_arcs, List.map_map, hfilter, hmap]
  · obtain ⟨stream, hs, hperm⟩ := hserves
      { subject := some a, predicate := some b, object := none } w
    have heq : librdf_storage_get_targets storage (some a) (some b) true true true w log =
        Outcome.returned (some (librdf_iterator.stream_to_node
          { stream := some stream,
            partial_statement := some { subject := some a, predicate := some b, object := none },
            want := 2 }),
          (find_statements { subject := some a, predicate := some b, object := none } w).2,
          log) := by
      simp [librdf_storage_get_targets, hfactory, hnone, hfind, hs, librdf_new_statement,
        librdf_statement_set_subject, librdf_statement_set_predicate,
        librdf_statement_set_object]
      rfl
    refine ⟨_, _, heq, drainsTo_of_perm dataset _ stream 2 fuel log _ hperm hfuel (by omega) ?_⟩
    have hfilter : Triple.matches { subject := some a, predicate := some b, object := none } = fun t => decide (t.subject = a ∧ t.predicate = b) := by
      funext t
      simp [Triple.matches, eq_comm]
    have hmap : wanted_slot 2 ∘ Triple.toStatement = some ∘ Triple.object := by
      funext t
      simp [wanted_slot, Triple.toStatement, LIBRDF_STREAM_TO_NODE_ITERATOR_WANT_SOURCES,
        LIBRDF_STREAM_TO_NODE_ITERATOR_WANT_ARCS]
    simp only [reference_targets, List.map_map, hfilter, hmap]

/-- C1 on `example_dataset`, with the bound terms `p` and `o` and three pulls allowed. -/
theorem projection_iterator_matches_reference_witness :
    ServesDataset example_find_statements example_dataset ∧
    (∃ context w1,
      librdf_storage_get_sources example_storage (some (librdf_node.resource "p"))
          (some (librdf_node.resource "o")) true true true () [] =
        Outcome.returned (some (librdf_iterator.stream_to_node context), w1, []) ∧
      DrainsTo context 3 []
        (reference_sources example_dataset (librdf_node.resource "p")
          (librdf_node.resource "o"))) ∧
    (∃ context w1,
      librdf_storage_get_arcs example_storage (some (librdf_node.resource "p"))
          (some (librdf_node.resource "o")) true true true () [] =
        Outcome.returned (some (librdf_iterator.stream_to_node context), w1, []) ∧
      DrainsTo context 3 []
        (reference_arcs example_dataset (librdf_node.resource "p")
          (librdf_node.resource "o"))) ∧
    (∃ context w1,
      librdf_storage_get_targets example_storage (some (librdf_node.resource "p"))
          (some (librdf_node.resource "o")) true true true () [] =
        Outcome.returned (some (librdf_iterator.stream_to_node context), w1, []) ∧
      DrainsTo context 3 []
        (reference_targets example_dataset (librdf_node.resource "p")
          (librdf_node.resource "o"))) :=
  have h := projection_iterator_matches_reference example_dataset example_storage
    example_factory example_find_statements (librdf_node.resource "p")
    (librdf_node.resource "o") () [] 3 rfl rfl example_find_statements_serves (by decide)
  ⟨example_find_statements_serves, h.1 rfl, h.2.1 rfl, h.2.2 rfl⟩

/-! ## Query classification (C2, C3) -/

theorem strexpect_match_spec (keyword : List Char) :
    ∀ source : List Char,
      ((strexpect_match keyword source).1 = [] ↔
        (source.take keyword.length).map toupper = keyword.map toupper) ∧
      ((strexpect_match keyword source).1 = [] →
        (strexpect_match keyword source).2 = source.drop keyword.length) := by
  induction keyword with
  | nil => intro source; cases source <;> simp [strexpect_match]
  | cons k ks ih =>
    intro source
    cases source with
    | nil => simp [strexpect_match]
    | cons c cs =>
      by_cases h : toupper k = toupper c
      · have h1 := ih cs
        simp only [strexpect_match, h, if_true, List.length_cons, List.take_succ_cons,
          List.map_cons, List.cons.injEq, true_and, List.drop_succ_cons]
        exact h1
      · simp only [strexpect_match, h, if_false, List.length_cons, List.take_succ_cons,
          List.map_cons, List.cons.injEq, List.drop_succ_cons]
        refine ⟨⟨fun h1 => by simp at h1, fun h1 => absurd h1.1.symm h⟩, fun h1 => by simp at h1⟩

theorem strexpect_isSome (keyword source : List Char) :
    (strexpect keyword source).isSome = leading_token_is keyword source := by
  have hm := strexpect_match_spec keyword (source.dropWhile isspace)
  cases h1 : (strexpect_match keyword (source.dropWhile isspace)).1 with
  | cons a l =>
    have h4 : ¬ ((source.dropWhile isspace).take keyword.length).map toupper
        = keyword.map toupper :=
      fun h => by
        have := hm.1.2 h
        rw [h1] at this
        exact List.cons_ne_nil _ _ this
    simp only [strexpect, h1, leading_token_is, h4, decide_False, Bool.false_and,
      Option.isSome_none]
  | nil =>
    have h2 := hm.2 h1
    have h3 := hm.1.1 h1
    simp only [strexpect, leading_token_is, h1, h2, h3, decide_True, Bool.true_and]
    cases (source.dropWhile isspace).drop keyword.length with
    | nil => rfl
    | cons c rest => cases hc : isspace c <;> simp [hc]

theorem seps_isspace (c : Char) (h : seps.contains c = true) : isspace c = true := by
  simp only [seps, List.contains_eq_any_beq, List.any_cons, List.any_nil, Bool.or_false,
    Bool.or_eq_true, beq_iff_eq] at h
  rcases h with h | h | h | h | h <;> subst h <;> decide

theorem splitOnP_eq_takeWhile (p : Char → Bool) (s : List Char) :
    s.splitOnP p = s.takeWhile (fun c => !p c) ::
      (match s.dropWhile (fun c => !p c) with
       | [] => []
       | _ :: rest => rest.splitOnP p) := by
  induction s with
  | nil => simp
  | cons x xs ih =>
    rw [List.splitOnP_cons]
    by_cases hx : p x = true
    · simp [hx, List.takeWhile_cons, List.dropWhile_cons]
    · simp only [hx, if_false, List.takeWhile_cons, List.dropWhile_cons, Bool.not_eq_true,
        Bool.not_eq_true', eq_false_of_ne_true hx, Bool.not_false, if_true]
      rw [ih]
      rfl

theorem strtok_tokens (s : List Char) :
    (strtok s seps = none → tokens s = []) ∧
    (∀ token rest, strtok s seps = some (token, rest) →
      tokens s = token :: tokens rest ∧ rest.length < s.length ∧ token ≠ []) := by
  induction s with
  | nil => simp [strtok, tokens]
  | cons x xs ih =>
    by_cases hx : seps.contains x = true
    · have hxm : x ∈ seps := by simpa using hx
      have h1 : strtok (x :: xs) seps = strtok xs seps := by
        simp [strtok, List.dropWhile_cons, hxm]
      have h2 : tokens (x :: xs) = tokens xs := by
        simp [tokens, List.splitOnP_cons, hxm]
      rw [h1, h2]
      refine ⟨ih.1, fun token rest h => ?_⟩
      obtain ⟨h3, h4, h5⟩ := ih.2 token rest h
      exact ⟨h3, by simp only [List.length_cons]; omega, h5⟩
    · have hx1 : seps.contains x = false := eq_false_of_ne_true hx
      have hxm : x ∉ seps := by simpa using hx
      have h1 : strtok (x :: xs) seps =
          some ((x :: xs).takeWhile (fun c => !seps.contains c),
            ((x :: xs).dropWhile (fun c => !seps.contains c)).drop 1) := by
        simp [strtok, List.dropWhile_cons, hxm]
      rw [h1]
      refine ⟨fun h => by simp at h, fun token rest h => ?_⟩
      simp only [Option.some.injEq, Prod.mk.injEq] at h
      obtain ⟨ht, hr⟩ := h
      subst ht hr
      refine ⟨?_, ?_, ?_⟩
      · unfold tokens
        rw [splitOnP_eq_takeWhile]
        simp only [List.takeWhile_cons, hx1, Bool.not_false, if_true, List.filter_cons,
          List.isEmpty_cons, List.dropWhile_cons]
        cases hd : xs.dropWhile (fun c => !seps.contains c) with
        | nil => simp
        | cons y ys => simp
      · simp only [List.dropWhile_cons, hx1, Bool.not_false, if_true, List.length_drop,
          List.length_cons]
        have := (List.dropWhile_sublist (fun c => !seps.contains c) (l := xs)).length_le
        omega
      · simp [List.takeWhile_cons, hxm]

theorem leading_token_is_cons_space (keyword : List Char) (x : Char) (xs : List Char)
    (hx : isspace x = true) :
    leading_token_is keyword (x :: xs) = leading_token_is keyword xs := by
  simp only [leading_token_is, List.dropWhile_cons_of_pos hx]

theorem leading_token_is_all_space (keyword token : List Char) (hne : keyword ≠ [])
    (h : ∀ c ∈ token, isspace c = true) : leading_token_is keyword token = false := by
  induction token with
  | nil =>
    cases keyword with
    | nil => exact absurd rfl hne
    | cons k ks => simp [leading_token_is]
  | cons x xs ih =>
    rw [leading_token_is_cons_space keyword x xs (h x (List.mem_cons_self _ _))]
    exact ih (fun c hc => h c (List.mem_cons_of_mem _ hc))

/-- A keyword found at the start of a text that does not begin with white space is
found in the same way in the first token of the text. -/
theorem leading_token_is_takeWhile (keyword t : List Char)
    (hK : ∀ c ∈ seps, toupper c ∉ keyword.map toupper)
    (h1 : (t.take keyword.length).map toupper = keyword.map toupper)
    (h2 : (match t.drop keyword.length with
      | [] => true
      | c :: _ => isspace c) = true) :
    ((t.takeWhile (fun c => !seps.contains c)).take keyword.length).map toupper
        = keyword.map toupper ∧
    (match (t.takeWhile (fun c => !seps.contains c)).drop keyword.length with
      | [] => true
      | c :: _ => isspace c) = true := by
  have hlen : (t.take keyword.length).length = keyword.length := by
    have := congrArg List.length h1
    simpa using this
  have hnonsep : ∀ c ∈ t.take keyword.length, (!seps.contains c) = true := by
    intro c hc
    have hmem : toupper c ∈ keyword.map toupper := by
      rw [← h1]
      exact List.mem_map_of_mem _ hc
    cases hs : seps.contains c with
    | false => rfl
    | true => exact absurd hmem (hK c (by simpa using hs))
  have hsplit : t.takeWhile (fun c => !seps.contains c)
      = t.take keyword.length ++ (t.drop keyword.length).takeWhile (fun c => !seps.contains c) := by
    conv_lhs => rw [← List.take_append_drop keyword.length t]
    exact List.takeWhile_append_of_pos hnonsep
  rw [hsplit]
  refine ⟨?_, ?_⟩
  · rw [List.take_left' hlen]
    exact h1
  · rw [List.drop_left' hlen]
    cases hd : t.drop keyword.length with
    | nil => rfl
    | cons c rest =>
      rw [hd] at h2
      by_cases hc : (!seps.contains c) = true
      · rw [List.takeWhile_cons_of_pos (p := fun c => !seps.contains c) hc]
        exact h2
      · rw [List.takeWhile_cons_of_neg (p := fun c => !seps.contains c) hc]

theorem leading_token_step (keyword : List Char)
    (hK : ∀ c ∈ seps, toupper c ∉ keyword.map toupper) (s : List Char)
    (h : leading_token_is keyword s = true) :
    leading_token_is keyword (s.takeWhile (fun c => !seps.contains c)) = true ∨
    ((∀ c ∈ s.takeWhile (fun c => !seps.contains c), isspace c = true) ∧
      leading_token_is keyword ((s.dropWhile (fun c => !seps.contains c)).drop 1) = true) := by
  induction s with
  | nil => exact Or.inl h
  | cons x xs ih =>
    by_cases hsep : seps.contains x = true
    · have hx := seps_isspace x hsep
      rw [leading_token_is_cons_space keyword x xs hx] at h
      have hneg : ¬ ((!seps.contains x) = true) := by rw [hsep]; decide
      right
      rw [List.takeWhile_cons_of_neg (p := fun c => !seps.contains c) hneg, List.dropWhile_cons_of_neg (p := fun c => !seps.contains c) hneg]
      exact ⟨fun c hc => by simp at hc, h⟩
    · have hpos : (!seps.contains x) = true := by rw [eq_false_of_ne_true hsep]; rfl
      by_cases hx : isspace x = true
      · rw [leading_token_is_cons_space keyword x xs hx] at h
        rw [List.takeWhile_cons_of_pos (p := fun c => !seps.contains c) hpos, List.dropWhile_cons_of_pos (p := fun c => !seps.contains c) hpos]
        rcases ih h with h1 | ⟨h1, h2⟩
        · left
          rw [leading_token_is_cons_space keyword x _ hx]
          exact h1
        · right
          refine ⟨fun c hc => ?_, h2⟩
          rcases List.mem_cons.1 hc with hc | hc
          · exact hc ▸ hx
          · exact h1 c hc
      · left
        have hd : (x :: xs).dropWhile isspace = x :: xs := List.dropWhile_cons_of_neg hx
        have hd2 : ((x :: xs).takeWhile (fun c => !seps.contains c)).dropWhile isspace
            = (x :: xs).takeWhile (fun c => !seps.contains c) := by
          rw [List.takeWhile_cons_of_pos (p := fun c => !seps.contains c) hpos]
          exact List.dropWhile_cons_of_neg hx
        simp only [leading_token_is, hd, Bool.and_eq_true, decide_eq_true_eq] at h
        simp only [leading_token_is, hd2, Bool.and_eq_true, decide_eq_true_eq]
        exact leading_token_is_takeWhile keyword (x :: xs) hK h.1 h.2

/-- With fuel for every character, the token loop gives the shape of the first token
of the text that stands for one, and leaves the shape alone when there is none. -/
theorem librdf_query_virtuoso_init_tokens_eq (fuel : Nat) :
    ∀ (s : List Char) (result_type : Nat), s.length < fuel →
      librdf_query_virtuoso_init_tokens fuel s result_type
        = ((tokens s).findSome? shape_of_token).getD result_type := by
  induction fuel with
  | zero => intro s _ h; simp at h
  | succ n ih =>
    intro s result_type hlen
    have hst := strtok_tokens s
    cases hs : strtok s seps with
    | none => simp [librdf_query_virtuoso_init_tokens, hs, hst.1 hs]
    | some tr =>
      obtain ⟨token, rest⟩ := tr
      obtain ⟨h1, h2, _⟩ := hst.2 token rest hs
      have hrec := ih rest result_type (by omega)
      simp only [librdf_query_virtuoso_init_tokens, hs, strexpect_isSome, h1,
        List.findSome?_cons, shape_of_token, hrec]
      generalize leading_token_is "SELECT".toList token = b1
      generalize leading_token_is "ASK".toList token = b2
      generalize leading_token_is "CONSTRUCT".toList token = b3
      generalize leading_token_is "DESCRIBE".toList token = b4
      cases b1 <;> cases b2 <;> cases b3 <;> cases b4 <;> simp

theorem tokens_unfold (s : List Char) :
    tokens s =
      (if (s.takeWhile (fun c => !seps.contains c)).isEmpty then []
        else [s.takeWhile (fun c => !seps.contains c)]) ++
      tokens ((s.dropWhile (fun c => !seps.contains c)).drop 1) := by
  unfold tokens
  rw [splitOnP_eq_takeWhile]
  have hfun : (fun c => !(fun c => seps.contains c) c) = (fun c => !seps.contains c) := rfl
  simp only [hfun, List.filter_cons]
  cases hd : s.dropWhile (fun c => !seps.contains c) with
  | nil =>
    cases ht : (s.takeWhile (fun c => !seps.contains c)).isEmpty <;> simp
  | cons y ys =>
    cases ht : (s.takeWhile (fun c => !seps.contains c)).isEmpty <;> simp

theorem leading_token_first (k : Char) (ks token : List Char)
    (h : leading_token_is (k :: ks) token = true) :
    ((token.dropWhile isspace).head?).map toupper = some (toupper k) := by
  simp only [leading_token_is, Bool.and_eq_true, decide_eq_true_eq] at h
  cases hd : token.dropWhile isspace with
  | nil => rw [hd] at h; simp at h
  | cons c cs =>
    rw [hd] at h
    simp only [List.length_cons, List.take_succ_cons, List.map_cons, List.cons.injEq] at h
    simp [h.1.1]

theorem shape_of_token_all_space (token : List Char) (h : ∀ c ∈ token, isspace c = true) :
    shape_of_token token = none := by
  simp only [shape_of_token,
    leading_token_is_all_space "SELECT".toList token (by decide) h,
    leading_token_is_all_space "ASK".toList token (by decide) h,
    leading_token_is_all_space "CONSTRUCT".toList token (by decide) h,
    leading_token_is_all_space "DESCRIBE".toList token (by decide) h]
  rfl

/-- A text with a keyword as leading token has a token standing for that keyword's
shape before any token standing for another shape. -/
theorem first_shape_of_leading (keyword : List Char) (v : Nat)
    (hK : ∀ c ∈ seps, toupper c ∉ keyword.map toupper)
    (hv : ∀ token, leading_token_is keyword token = true → shape_of_token token = some v) :
    ∀ (n : Nat) (s : List Char), s.length < n → leading_token_is keyword s = true →
      (tokens s).findSome? shape_of_token = some v := by
  intro n
  induction n with
  | zero => intro s h; simp at h
  | succ n ih =>
    intro s hlen h
    rw [tokens_unfold]
    cases s with
    | nil =>
      have := hv [] h
      rw [shape_of_token_all_space [] (fun c hc => by simp at hc)] at this
      exact absurd this (by simp)
    | cons x xs =>
      have hshort : (((x :: xs).dropWhile (fun c => !seps.contains c)).drop 1).length < n := by
        have h1 := (List.dropWhile_sublist (fun c => !seps.contains c) (l := x :: xs)).length_le
        have h2 := List.length_drop 1 ((x :: xs).dropWhile (fun c => !seps.contains c))
        simp only [List.length_cons] at hlen h1
        by_cases hx : (!seps.contains x) = true
        · have h3 := (List.dropWhile_sublist (fun c => !seps.contains c) (l := xs)).length_le
          rw [List.dropWhile_cons_of_pos (p := fun c => !seps.contains c) hx] at h2 ⊢
          omega
        · rw [List.dropWhile_cons_of_neg (p := fun c => !seps.contains c) hx] at h2 ⊢
          simp only [List.length_cons] at h2
          omega
      rcases leading_token_step keyword hK (x :: xs) h with h1 | ⟨h1, h2⟩
      · have hne : ((x :: xs).takeWhile (fun c => !seps.contains c)).isEmpty = false := by
          cases ht : (x :: xs).takeWhile (fun c => !seps.contains c) with
          | nil =>
            rw [ht] at h1
            have := hv [] h1
            rw [shape_of_token_all_space [] (fun c hc => by simp at hc)] at this
            exact absurd this (by simp)
          | cons y ys => rfl
        rw [hne]
        simp only [Bool.false_eq_true, if_false, List.singleton_append, List.findSome?_cons,
          hv _ h1]
      · have hrec := ih _ hshort h2
        have hnone := shape_of_token_all_space _ h1
        cases ht : ((x :: xs).takeWhile (fun c => !seps.contains c)).isEmpty with
        | true =>
          simp only [if_true, List.nil_append]
          exact hrec
        | false =>
          simp only [Bool.false_eq_true, if_false, List.singleton_append, List.findSome?_cons,
            hnone]
          exact hrec

theorem leading_token_is_exclusive (k k1 : Char) (ks ks1 token : List Char)
    (hne : toupper k ≠ toupper k1)
    (h : leading_token_is (k :: ks) token = true) :
    leading_token_is (k1 :: ks1) token = false := by
  cases h1 : leading_token_is (k1 :: ks1) token with
  | false => rfl
  | true =>
    have e1 := leading_token_first k ks token h
    have e2 := leading_token_first k1 ks1 token h1
    rw [e1] at e2
    exact absurd (Option.some.inj e2) hne

theorem shape_of_token_select (token : List Char)
    (h : leading_token_is "SELECT".toList token = true) :
    shape_of_token token = some VQUERY_RESULTS_BINDINGS := by
  simp only [shape_of_token, h, if_true]

theorem shape_of_token_ask (token : List Char)
    (h : leading_token_is "ASK".toList token = true) :
    shape_of_token token = some VQUERY_RESULTS_BOOLEAN := by
  have h1 : leading_token_is "SELECT".toList token = false :=
    leading_token_is_exclusive 'A' 'S' _ _ token (by decide) h
  simp only [shape_of_token, h, h1, if_true]
  rfl

theorem shape_of_token_construct (token : List Char)
    (h : leading_token_is "CONSTRUCT".toList token = true) :
    shape_of_token token = some (VQUERY_RESULTS_GRAPH ||| VQUERY_RESULTS_BINDINGS) := by
  have h1 : leading_token_is "SELECT".toList token = false :=
    leading_token_is_exclusive 'C' 'S' _ _ token (by decide) h
  have h2 : leading_token_is "ASK".toList token = false :=
    leading_token_is_exclusive 'C' 'A' _ _ token (by decide) h
  simp only [shape_of_token, h, h1, h2, if_true]
  rfl

theorem shape_of_token_describe (token : List Char)
    (h : leading_token_is "DESCRIBE".toList token = true) :
    shape_of_token token = some (VQUERY_RESULTS_GRAPH ||| VQUERY_RESULTS_BINDINGS) := by
  have h1 : leading_token_is "SELECT".toList token = false :=
    leading_token_is_exclusive 'D' 'S' _ _ token (by decide) h
  have h2 : leading_token_is "ASK".toList token = false :=
    leading_token_is_exclusive 'D' 'A' _ _ token (by decide) h
  have h3 : leading_token_is "CONSTRUCT".toList token = false :=
    leading_token_is_exclusive 'D' 'C' _ _ token (by decide) h
  simp only [shape_of_token, h, h1, h2, h3, if_true]
  rfl

theorem librdf_query_virtuoso_init_result_type (context : librdf_query_virtuoso_context)
    (factory_name : String) (query_string : List Char) (base_uri : Option String) :
    (librdf_query_virtuoso_init context factory_name query_string base_uri true).2.result_type
      = ((tokens query_string).findSome? shape_of_token).getD VQUERY_RESULTS_UNKNOWN := by
  have h := librdf_query_virtuoso_init_tokens_eq (query_string.length + 1) query_string
    VQUERY_RESULTS_UNKNOWN (Nat.lt_succ_self _)
  cases base_uri <;> simp [librdf_query_virtuoso_init, h]

/-- C2: a query text whose leading token is SELECT, ASK, CONSTRUCT or DESCRIBE (white
space before it skipped, letters in either case, white space or the end of the text
after it) is classified by `librdf_query_virtuoso_init` as BINDINGS, BOOLEAN,
GRAPH|BINDINGS and GRAPH|BINDINGS respectively. -/
theorem init_classifies_leading_keyword (context : librdf_query_virtuoso_context)
    (factory_name : String) (query_string : List Char) (base_uri : Option String) :
    (leading_token_is "SELECT".toList query_string = true →
      (librdf_query_virtuoso_init context factory_name query_string base_uri true).2.result_type
        = VQUERY_RESULTS_BINDINGS) ∧
    (leading_token_is "ASK".toList query_string = true →
      (librdf_query_virtuoso_init context factory_name query_string base_uri true).2.result_type
        = VQUERY_RESULTS_BOOLEAN) ∧
    (leading_token_is "CONSTRUCT".toList query_string = true →
      (librdf_query_virtuoso_init context factory_name query_string base_uri true).2.result_type
        = VQUERY_RESULTS_GRAPH ||| VQUERY_RESULTS_BINDINGS) ∧
    (leading_token_is "DESCRIBE".toList query_string = true →
      (librdf_query_virtuoso_init context factory_name query_string base_uri true).2.result_type
        = VQUERY_RESULTS_GRAPH ||| VQUERY_RESULTS_BINDINGS) := by
  rw [librdf_query_virtuoso_init_result_type]
  refine ⟨fun h => ?_, fun h => ?_, fun h => ?_, fun h => ?_⟩
  · rw [first_shape_of_leading "SELECT".toList _ (by decide) shape_of_token_select _ _
      (Nat.lt_succ_self _) h]
    rfl
  · rw [first_shape_of_leading "ASK".toList _ (by decide) shape_of_token_ask _ _
      (Nat.lt_succ_self _) h]
    rfl
  · rw [first_shape_of_leading "CONSTRUCT".toList _ (by decide) shape_of_token_construct _ _
      (Nat.lt_succ_self _) h]
    rfl
  · rw [first_shape_of_leading "DESCRIBE".toList _ (by decide) shape_of_token_describe _ _
      (Nat.lt_succ_self _) h]
    rfl

/-- C2 on the four query texts of the specification. -/
theorem init_classifies_leading_keyword_witness :
    (librdf_query_virtuoso_init librdf_query_virtuoso_context.zeroed "vsparql"
        "  select ?x where \x7b...\x7d".toList none true).2.result_type
      = VQUERY_RESULTS_BINDINGS ∧
    (librdf_query_virtuoso_init librdf_query_virtuoso_context.zeroed "vsparql"
        "ASK \x7b...\x7d".toList none true).2.result_type
      = VQUERY_RESULTS_BOOLEAN ∧
    (librdf_query_virtuoso_init librdf_query_virtuoso_context.zeroed "vsparql"
        "CONSTRUCT \x7b...\x7d".toList none true).2.result_type
      = VQUERY_RESULTS_GRAPH ||| VQUERY_RESULTS_BINDINGS ∧
    (librdf_query_virtuoso_init librdf_query_virtuoso_context.zeroed "vsparql"
        "DESCRIBE <u>".toList none true).2.result_type
      = VQUERY_RESULTS_GRAPH ||| VQUERY_RESULTS_BINDINGS :=
  ⟨(init_classifies_leading_keyword _ _ _ _).1 (by decide),
   (init_classifies_leading_keyword _ _ _ _).2.1 (by decide),
   (init_classifies_leading_keyword _ _ _ _).2.2.1 (by decide),
   (init_classifies_leading_keyword _ _ _ _).2.2.2 (by decide)⟩

/-- C3 (counterexample): the leading token of `PREFIX p: <u> SELECT ?x` is none of
the four keywords, yet the text is classified BINDINGS and not left unknown. -/
theorem init_classifies_later_keyword :
    (∀ keyword ∈ keywords,
      leading_token_is keyword "PREFIX p: <u> SELECT ?x".toList = false) ∧
    (librdf_query_virtuoso_init librdf_query_virtuoso_context.zeroed "vsparql"
        "PREFIX p: <u> SELECT ?x".toList none true).2.result_type
      = VQUERY_RESULTS_BINDINGS ∧
    (librdf_query_virtuoso_init librdf_query_virtuoso_context.zeroed "vsparql"
        "PREFIX p: <u> SELECT ?x".toList none true).2.result_type
      ≠ VQUERY_RESULTS_UNKNOWN := by
  decide

/-- C3 (amended): a query text none of whose tokens (the text split at space, tab,
newline, carriage return and form feed) is one of the four keywords is left with the
shape unknown. -/
theorem init_leaves_unknown_without_keyword (context : librdf_query_virtuoso_context)
    (factory_name : String) (query_string : List Char) (base_uri : Option String)
    (h : ∀ token ∈ tokens query_string, ∀ keyword ∈ keywords,
      leading_token_is keyword token = false) :
    (librdf_query_virtuoso_init context factory_name query_string base_uri true).2.result_type
      = VQUERY_RESULTS_UNKNOWN := by
  rw [librdf_query_virtuoso_init_result_type]
  have hnone : (tokens query_string).findSome? shape_of_token = none := by
    rw [List.findSome?_eq_none_iff]
    intro token htoken
    have h1 := h token htoken "SELECT".toList (by simp [keywords])
    have h2 := h token htoken "ASK".toList (by simp [keywords])
    have h3 := h token htoken "CONSTRUCT".toList (by simp [keywords])
    have h4 := h token htoken "DESCRIBE".toList (by simp [keywords])
    simp only [shape_of_token, h1, h2, h3, h4]
    rfl
  rw [hnone]
  rfl

/-- C3 (amended) on a text whose only keyword is glued to a star. -/
theorem init_leaves_unknown_without_keyword_witness :
    (∀ token ∈ tokens "SELECT* \x7b \x7d".toList, ∀ keyword ∈ keywords,
      leading_token_is keyword token = false) ∧
    (librdf_query_virtuoso_init librdf_query_virtuoso_context.zeroed "vsparql"
        "SELECT* \x7b \x7d".toList none true).2.result_type
      = VQUERY_RESULTS_UNKNOWN :=
  ⟨by decide, init_leaves_unknown_without_keyword _ _ _ _ (by decide)⟩

/-! ## The registry (C4 to C7) -/

theorem example_builder_keepsName : example_builder.KeepsName := fun _ _ => rfl

theorem registered_with_name_eq_none {W I : Type} (storages : List (librdf_storage_factory W I))
    (name : String) :
    registered_with_name storages name = none ↔ ∀ f ∈ storages, f.name ≠ name := by
  induction storages with
  | nil => simp [registered_with_name]
  | cons h next ih =>
    by_cases hn : h.name = name
    · simp [registered_with_name, hn]
    · simp [registered_with_name, hn, ih]

theorem registered_with_name_some {W I : Type} (storages : List (librdf_storage_factory W I))
    (name : String) (f : librdf_storage_factory W I)
    (h : registered_with_name storages name = some f) : f.name = name ∧ f ∈ storages := by
  induction storages with
  | nil => simp [registered_with_name] at h
  | cons g next ih =>
    by_cases hn : g.name = name
    · simp [registered_with_name, hn] at h
      subst h
      exact ⟨hn, List.mem_cons_self _ _⟩
    · simp [registered_with_name, hn] at h
      exact ⟨(ih h).1, List.mem_cons_of_mem _ (ih h).2⟩

/-- What a registration that does not abort has done: the module was alive, the name
was new, and the block built by the builder is the new head of the list. -/
theorem register_not_fatal {W I : Type} (m : StorageModule W I) (name : String)
    (factory : FactoryBuilder W I) (calloc_storage calloc_name : Bool)
    (h : (librdf_storage_register_factory m name factory calloc_storage calloc_name).fatal
      = none) :
    m.fatal = none ∧ registered_with_name m.storages name = none ∧
    librdf_storage_register_factory m name factory calloc_storage calloc_name =
      { storages := (factory (librdf_storage_factory.zeroed W I name) m.env).1 :: m.storages,
        env := (factory (librdf_storage_factory.zeroed W I name) m.env).2,
        fatal := none } := by
  unfold librdf_storage_register_factory at h ⊢
  cases hf : m.fatal with
  | some msg => simp [hf] at h
  | none =>
    simp only [hf] at h ⊢
    cases calloc_storage <;> cases calloc_name <;> simp at h ⊢
    cases hr : registered_with_name m.storages name with
    | some g => simp [hr] at h
    | none => simp

/-- C4 (counterexample): after registering `hashes` and then `list` without abort,
the lookup with no name returns the descriptor named `list`, which is not the
first registered descriptor `hashes`. -/
theorem get_storage_factory_default_not_first_registered :
    example_module.fatal = none ∧
    example_module.storages.map (fun f => f.name) = ["list", "hashes"] ∧
    (librdf_get_storage_factory example_module.storages none).map (fun f => f.name)
      = some "list" ∧
    (librdf_get_storage_factory example_module.storages none).map (fun f => f.name)
      ≠ some "hashes" := by
  decide

/-- C4 (amended): after a registration that did not abort, the lookup with no name
returns the descriptor that this registration built, that is the most recently
registered one; on an empty registry it returns not found. -/
theorem get_storage_factory_default_last_registered {W I : Type} (m : StorageModule W I)
    (name : String) (factory : FactoryBuilder W I) (calloc_storage calloc_name : Bool)
    (h : (librdf_storage_register_factory m name factory calloc_storage calloc_name).fatal
      = none) :
    librdf_get_storage_factory
        (librdf_storage_register_factory m name factory calloc_storage calloc_name).storages
        none
      = some (factory (librdf_storage_factory.zeroed W I name) m.env).1 ∧
    librdf_get_storage_factory ([] : List (librdf_storage_factory W I)) none = none := by
  rw [(register_not_fatal m name factory calloc_storage calloc_name h).2.2]
  exact ⟨rfl, rfl⟩

/-- C4 (amended) on the first registration into the empty registry. -/
theorem get_storage_factory_default_last_registered_witness :
    (librdf_storage_register_factory (StorageModule.initial Nat Unit 0) "hashes"
      example_builder true true).fatal = none ∧
    (librdf_get_storage_factory
        (librdf_storage_register_factory (StorageModule.initial Nat Unit 0) "hashes"
          example_builder true true).storages none
      = some (example_builder (librdf_storage_factory.zeroed Nat Unit "hashes") 0).1 ∧
    librdf_get_storage_factory ([] : List (librdf_storage_factory Nat Unit)) none = none) :=
  ⟨rfl, get_storage_factory_default_last_registered (StorageModule.initial Nat Unit 0) "hashes"
    example_builder true true rfl⟩

/-- C5: registering a name that is already in the registry ends in the fatal state;
the registry list is the one from before and the world of the builder is unchanged
whatever the builder is (it was not invoked). When the module was alive and both
allocations succeeded the fatal message is the "already registered" one. -/
theorem register_factory_duplicate_is_fatal {W I : Type} (m : StorageModule W I)
    (name : String) (factory : FactoryBuilder W I) (calloc_storage calloc_name : Bool)
    (g : librdf_storage_factory W I) (hg : g ∈ m.storages) (hname : g.name = name) :
    (librdf_storage_register_factory m name factory calloc_storage calloc_name).fatal.isSome
      = true ∧
    (librdf_storage_register_factory m name factory calloc_storage calloc_name).storages
      = m.storages ∧
    (librdf_storage_register_factory m name factory calloc_storage calloc_name).env = m.env ∧
    (m.fatal = none →
      (librdf_storage_register_factory m name factory true true).fatal
        = some ("storage " ++ name ++ " already registered\n")) := by
  have hreg : ∃ h, registered_with_name m.storages name = some h := by
    cases hr : registered_with_name m.storages name with
    | none => exact absurd hname ((registered_with_name_eq_none _ _).1 hr g hg)
    | some h => exact ⟨h, rfl⟩
  obtain ⟨h, hh⟩ := hreg
  have hhn := (registered_with_name_some _ _ _ hh).1
  unfold librdf_storage_register_factory
  cases hf : m.fatal with
  | some msg => simp [hf]
  | none => cases calloc_storage <;> cases calloc_name <;> simp [hh, hhn]

/-- C5 on a second registration of `hashes`: the counting builder was not called. -/
theorem register_factory_duplicate_is_fatal_witness :
    (example_builder (librdf_storage_factory.zeroed Nat Unit "hashes") 0).1 ∈
      example_module.storages ∧
    (librdf_storage_register_factory example_module "hashes" example_builder true true).storages
      = example_module.storages ∧
    (librdf_storage_register_factory example_module "hashes" example_builder true true).env
      = example_module.env ∧
    (librdf_storage_register_factory example_module "hashes" example_builder true true).fatal
      = some ("storage " ++ "hashes" ++ " already registered\n") :=
  have hmem : (example_builder (librdf_storage_factory.zeroed Nat Unit "hashes") 0).1 ∈
      example_module.storages := List.mem_cons_of_mem _ (List.mem_cons_self _ _)
  have h := register_factory_duplicate_is_fatal example_module "hashes" example_builder true true
    (example_builder (librdf_storage_factory.zeroed Nat Unit "hashes") 0).1 hmem rfl
  ⟨hmem, h.2.1, h.2.2.1, h.2.2.2 rfl⟩

/-- C6: the lookup by name returns a registered descriptor with that name when there
is one and not found exactly when no registered descriptor has the name (so always
on the empty registry); after a registration that did not abort, made with a
builder that leaves the name alone, the lookup of the registered name returns the
descriptor just built and the lookup of any other name is as before. -/
theorem get_storage_factory_by_name {W I : Type} (m : StorageModule W I)
    (name : String) (factory : FactoryBuilder W I) (calloc_storage calloc_name : Bool)
    (hkeeps : factory.KeepsName)
    (h : (librdf_storage_register_factory m name factory calloc_storage calloc_name).fatal
      = none) :
    (∀ (storages : List (librdf_storage_factory W I)) (n : String),
      (∀ f, librdf_get_storage_factory storages (some n) = some f → f.name = n ∧ f ∈ storages) ∧
      (librdf_get_storage_factory storages (some n) = none ↔ ∀ f ∈ storages, f.name ≠ n)) ∧
    (∀ n : String, librdf_get_storage_factory ([] : List (librdf_storage_factory W I)) (some n)
      = none) ∧
    librdf_get_storage_factory
        (librdf_storage_register_factory m name factory calloc_storage calloc_name).storages
        (some name)
      = some (factory (librdf_storage_factory.zeroed W I name) m.env).1 ∧
    (∀ other : String, other ≠ name →
      librdf_get_storage_factory
          (librdf_storage_register_factory m name factory calloc_storage calloc_name).storages
          (some other)
        = librdf_get_storage_factory m.storages (some other)) := by
  have hbuilt : (factory (librdf_storage_factory.zeroed W I name) m.env).1.name = name :=
    hkeeps _ _
  rw [(register_not_fatal m name factory calloc_storage calloc_name h).2.2]
  refine ⟨fun storages n => ⟨fun f hf => registered_with_name_some storages n f hf,
    registered_with_name_eq_none storages n⟩, fun n => rfl, ?_, fun other hother => ?_⟩
  · simp [librdf_get_storage_factory, registered_with_name, hbuilt]
  · simp [librdf_get_storage_factory, registered_with_name, hbuilt, Ne.symm hother]

/-- C6 on the registration of `list` after `hashes`. -/
theorem get_storage_factory_by_name_witness :
    example_builder.KeepsName ∧
    (librdf_get_storage_factory example_module.storages (some "list")).map (fun f => f.name)
      = some "list" ∧
    librdf_get_storage_factory example_module.storages (some "hashes")
      = librdf_get_storage_factory
          (librdf_storage_register_factory (StorageModule.initial Nat Unit 0) "hashes"
            example_builder true true).storages (some "hashes") :=
  ⟨example_builder_keepsName,
   congrArg (Option.map fun f => f.name)
     (get_storage_factory_by_name
       (librdf_storage_register_factory (StorageModule.initial Nat Unit 0) "hashes"
         example_builder true true) "list" example_builder true true
       example_builder_keepsName rfl).2.2.1,
   (get_storage_factory_by_name
       (librdf_storage_register_factory (StorageModule.initial Nat Unit 0) "hashes"
         example_builder true true) "list" example_builder true true
       example_builder_keepsName rfl).2.2.2 "hashes" (by decide)⟩

/-- C7: in every module state reached from the empty registry by registrations that
did not abort (made with builders that leave the name alone), the names of the
registered descriptors are pairwise distinct. -/
theorem registered_names_nodup {W I : Type} (m : StorageModule W I)
    (h : StorageModule.Reachable m) : (m.storages.map (fun f => f.name)).Nodup := by
  induction h with
  | initial env => simp [StorageModule.initial]
  | register m name factory calloc_storage calloc_name _ hkeeps hok ih =>
    obtain ⟨_, hnew, heq⟩ := register_not_fatal m name factory calloc_storage calloc_name hok
    rw [heq]
    simp only [List.map_cons, List.nodup_cons]
    refine ⟨?_, ih⟩
    rw [hkeeps]
    simp only [librdf_storage_factory.zeroed, List.mem_map, not_exists, not_and]
    intro f hf hfn
    exact (registered_with_name_eq_none _ _).1 hnew f hf hfn

theorem example_module_reachable : StorageModule.Reachable example_module :=
  StorageModule.Reachable.register _ "list" example_builder true true
    (StorageModule.Reachable.register _ "hashes" example_builder true true
      (StorageModule.Reachable.initial 0) example_builder_keepsName rfl)
    example_builder_keepsName rfl

/-- C7 on the module holding `list` and `hashes`. -/
theorem registered_names_nodup_witness :
    StorageModule.Reachable example_module ∧
    (example_module.storages.map (fun f => f.name)).Nodup :=
  ⟨example_module_reachable, registered_names_nodup example_module example_module_reachable⟩

/-! ## Binding accessors (C8 to C10) -/

/-- C8: on a context that has not failed, with `n > 0` columns and its value cells
present, `get_binding_value(i)` for `0 ≤ i < n` returns what cell `i` holds and
leaves the context with cell `i` empty and nothing else changed, so that the same
call made again returns none; for `i < 0` or `i ≥ n` it returns none and leaves the
context as it was. -/
theorem get_binding_value_moves_cell (context : librdf_query_virtuoso_context)
    (cells : List (Option librdf_node)) (offset : Int)
    (hfailed : context.failed = false) (hcols : 0 < context.numCols)
    (hvalues : context.colValues = some cells) (hlen : context.numCols ≤ cells.length) :
    (0 ≤ offset ∧ offset < context.numCols →
      librdf_query_virtuoso_results_get_binding_value context offset
        = (cells.getD offset.toNat none,
           { context with colValues := some (cells.set offset.toNat none) }) ∧
      offset.toNat < cells.length ∧
      (cells.set offset.toNat none).getD offset.toNat none = none ∧
      (∀ j : Nat, j ≠ offset.toNat →
        (cells.set offset.toNat none).getD j none = cells.getD j none) ∧
      (librdf_query_virtuoso_results_get_binding_value
        (librdf_query_virtuoso_results_get_binding_value context offset).2 offset).1 = none) ∧
    (offset < 0 ∨ context.numCols ≤ offset →
      librdf_query_virtuoso_results_get_binding_value context offset = (none, context)) := by
  have hn : ¬ context.numCols ≤ 0 := by omega
  refine ⟨fun hi => ?_, fun ho => ?_⟩
  · have h1 : ¬ offset < 0 := by omega
    have h2 : ¬ offset > context.numCols - 1 := by omega
    have hlt : offset.toNat < cells.length := by omega
    have heq : librdf_query_virtuoso_results_get_binding_value context offset
        = (cells.getD offset.toNat none,
           { context with colValues := some (cells.set offset.toNat none) }) := by
      simp [librdf_query_virtuoso_results_get_binding_value, hfailed, hn, h1, h2, hvalues]
    refine ⟨heq, hlt, ?_, ?_, ?_⟩
    · simp [List.getD_eq_getElem?_getD, List.getElem?_set, hlt]
    · intro j hj
      simp [List.getD_eq_getElem?_getD, List.getElem?_set, Ne.symm hj]
    · rw [heq]
      simp [librdf_query_virtuoso_results_get_binding_value, hfailed, hn, h1, h2,
        List.getD_eq_getElem?_getD, List.getElem?_set, hlt]
  · have h3 : offset < 0 ∨ offset > context.numCols - 1 := by omega
    rcases h3 with h3 | h3 <;>
      simp [librdf_query_virtuoso_results_get_binding_value, hfailed, hn, h3]

/-- C8 on a row of two columns, at index 1 and at the out of range index 2. -/
theorem get_binding_value_moves_cell_witness :
    (librdf_query_virtuoso_results_get_binding_value example_context 1
        = (some (librdf_node.blank "b"),
           { example_context with
             colValues := some [some (librdf_node.resource "a"), none, none] }) ∧
      (librdf_query_virtuoso_results_get_binding_value
        (librdf_query_virtuoso_results_get_binding_value example_context 1).2 1).1 = none) ∧
    librdf_query_virtuoso_results_get_binding_value example_context 2
      = (none, example_context) :=
  have h := get_binding_value_moves_cell example_context
    [some (librdf_node.resource "a"), some (librdf_node.blank "b"), none] 
  ⟨⟨((h 1 rfl (by decide) rfl (by decide)).1 (by decide)).1,
    ((h 1 rfl (by decide) rfl (by decide)).1 (by decide)).2.2.2.2⟩,
   (h 2 rfl (by decide) rfl (by decide)).2 (by decide)⟩

theorem get_binding_value_by_name_scan_first (name : String) (colNames : List String)
    (colValues : List (Option librdf_node)) (i : Nat)
    (hname : colNames[i]? = some name) (hfirst : ∀ j < i, colNames[j]? ≠ some name) :
    ∀ (remaining col : Nat), col ≤ i → i < col + remaining →
      librdf_query_virtuoso_results_get_binding_value_by_name_scan name colNames colValues
        remaining col = Outcome.returned (colValues.getD i none) := by
  intro remaining
  induction remaining with
  | zero => intro col h1 h2; omega
  | succ n ih =>
    intro col h1 h2
    rcases Nat.eq_or_lt_of_le h1 with h | h
    · subst h
      simp [librdf_query_virtuoso_results_get_binding_value_by_name_scan, hname]
    · have hcol : col < colNames.length :=
        lt_trans h ((List.getElem?_eq_some_iff.1 hname).1)
      have hne : ¬ name = colNames[col] := by
        intro he
        exact hfirst col h (by rw [List.getElem?_eq_getElem hcol, he])
      simp only [librdf_query_virtuoso_results_get_binding_value_by_name_scan,
        List.getElem?_eq_getElem hcol, hne, if_false]
      exact ih (col + 1) h (by omega)

/-- C9 (counterexample): on a row whose two columns are both named `x`,
`get_binding_value(1)` returns the node of column 1 while
`get_binding_value_by_name` with the name of column 1 returns the node of column 0. -/
theorem binding_value_by_name_differs_on_repeated_name :
    example_context_same_names.failed = false ∧
    example_context_same_names.colNames = some ["x", "x"] ∧
    (librdf_query_virtuoso_results_get_binding_value example_context_same_names 1).1
      = some (librdf_node.resource "b") ∧
    librdf_query_virtuoso_results_get_binding_value_by_name example_context_same_names "x"
      = Outcome.returned (some (librdf_node.resource "a"), example_context_same_names) := by
  decide

/-- C9 (amended): on a context that has not failed, for a column index `i` in range
whose name does not occur at a smaller index, `get_binding_value(i)` and
`get_binding_value_by_name(name_i)`, each applied to the same row, return the same
node, the one held in cell `i`. -/
theorem binding_value_by_name_eq_by_index (context : librdf_query_virtuoso_context)
    (colNames : List String) (colValues : List (Option librdf_node)) (i : Nat) (name : String)
    (hfailed : context.failed = false) (hi : (i : Int) < context.numCols)
    (hnames : context.colNames = some colNames) (hvalues : context.colValues = some colValues)
    (hname : colNames[i]? = some name) (hfirst : ∀ j < i, colNames[j]? ≠ some name) :
    (librdf_query_virtuoso_results_get_binding_value context i).1 = colValues.getD i none ∧
    librdf_query_virtuoso_results_get_binding_value_by_name context name
      = Outcome.returned (colValues.getD i none, context) := by
  have hn : ¬ context.numCols ≤ 0 := by omega
  have h1 : ¬ (i : Int) < 0 := by omega
  have h2 : ¬ (i : Int) > context.numCols - 1 := by omega
  refine ⟨?_, ?_⟩
  · simp [librdf_query_virtuoso_results_get_binding_value, hfailed, hn, h1, h2, hvalues]
  · have hscan := get_binding_value_by_name_scan_first name colNames colValues i hname hfirst
      context.numCols.toNat 0 (Nat.zero_le _) (by omega)
    simp [librdf_query_virtuoso_results_get_binding_value_by_name, hfailed, hn, hnames,
      hvalues, hscan]

/-- C9 (amended) on a row of two columns with different names. -/
theorem binding_value_by_name_eq_by_index_witness :
    (librdf_query_virtuoso_results_get_binding_value example_context 1).1
      = some (librdf_node.blank "b") ∧
    librdf_query_virtuoso_results_get_binding_value_by_name example_context "o"
      = Outcome.returned (some (librdf_node.blank "b"), example_context) :=
  binding_value_by_name_eq_by_index example_context ["s", "o"]
    [some (librdf_node.resource "a"), some (librdf_node.blank "b"), none] 1 "o"
    rfl (by decide) rfl rfl rfl (by decide)

/-- C10 (the code at the failing input): on a row of two columns `s` and `o`, after
`get_binding_value(1)` the bindings snapshot shows an empty cell at position 1, but
after `get_binding_value_by_name("o")` the context is unchanged and the snapshot
still shows the node that was handed out. -/
theorem binding_value_by_name_does_not_move :
    librdf_query_virtuoso_results_get_bindings
        (librdf_query_virtuoso_results_get_binding_value example_context 1).2 true
        (some [none, none])
      = Outcome.returned
          { rc := 0,
            context := { example_context with colValues := some [none, none, none] },
            names := some ["s", "o"],
            values := some [some (librdf_node.resource "a"), none] } ∧
    librdf_query_virtuoso_results_get_binding_value_by_name example_context "o"
      = Outcome.returned (some (librdf_node.blank "b"), example_context) ∧
    librdf_query_virtuoso_results_get_bindings example_context true (some [none, none])
      = Outcome.returned
          { rc := 0,
            context := { example_context with colValues := some [none, none, none] },
            names := some ["s", "o"],
            values := some [some (librdf_node.resource "a"), some (librdf_node.blank "b")] } := by
  decide

/-! ## Boolean decoding (C11 to C13) -/

/-- C11: on a context that has failed or has no column, `get_boolean` returns -1 and
makes no driver call; on a context that has not failed, with at least one column and
a connection, it fetches one row and returns 0 (setting the exhausted flag) when the
fetch reports no row, and, when the context has its storage, returns -1 when the
fetch reports a driver error or when the read of the integer cell reports -1. -/
theorem get_boolean_fetch_outcomes {D : Type} (drv : virtuoso_driver D)
    (context : librdf_query_virtuoso_context) (d : D) :
    (context.failed = true ∨ context.numCols ≤ 0 →
      librdf_query_virtuoso_results_get_boolean drv context d
        = Outcome.returned (-1, context, d)) ∧
    (context.failed = false → 0 < context.numCols → context.vc ≠ none →
      ((drv.SQLFetch d).1 = SQL_NO_DATA_FOUND →
        librdf_query_virtuoso_results_get_boolean drv context d
          = Outcome.returned (0, { context with eof := true }, (drv.SQLFetch d).2)) ∧
      (context.storage ≠ none →
        ((drv.SQLFetch d).1 ≠ SQL_NO_DATA_FOUND → (drv.SQLFetch d).1 ≠ SQL_SUCCESS →
          (drv.SQLFetch d).1 ≠ SQL_SUCCESS_WITH_INFO →
          librdf_query_virtuoso_results_get_boolean drv context d
            = Outcome.returned
                (-1, context, drv.SQLError_records "SQLFetch" (drv.SQLFetch d).2)) ∧
        ((drv.SQLFetch d).1 = SQL_SUCCESS ∨ (drv.SQLFetch d).1 = SQL_SUCCESS_WITH_INFO →
          (drv.v_GetDataINT 1 (drv.SQLFetch d).2).1.1 = -1 →
          librdf_query_virtuoso_results_get_boolean drv context d
            = Outcome.returned
                (-1, { context with eof := true },
                 (drv.v_GetDataINT 1 (drv.SQLFetch d).2).2)))) := by
  refine ⟨fun h => ?_, fun hfailed hcols hvc => ⟨fun hnone => ?_, fun hstorage =>
    ⟨fun h1 h2 h3 => ?_, fun hok hread => ?_⟩⟩⟩
  · rcases h with h | h
    · simp [librdf_query_virtuoso_results_get_boolean, h]
    · simp [librdf_query_virtuoso_results_get_boolean, h]
  · have hn : ¬ context.numCols ≤ 0 := by omega
    obtain ⟨vc, hvc1⟩ := Option.ne_none_iff_exists'.1 hvc
    simp [librdf_query_virtuoso_results_get_boolean, hfailed, hn, hvc1, hnone]
  · have hn : ¬ context.numCols ≤ 0 := by omega
    obtain ⟨vc, hvc1⟩ := Option.ne_none_iff_exists'.1 hvc
    obtain ⟨st, hst⟩ := Option.ne_none_iff_exists'.1 hstorage
    simp [librdf_query_virtuoso_results_get_boolean, hfailed, hn, hvc1, hst, h1, h2, h3,
      rdf_virtuoso_ODBC_Errors]
  · have hn : ¬ context.numCols ≤ 0 := by omega
    obtain ⟨vc, hvc1⟩ := Option.ne_none_iff_exists'.1 hvc
    obtain ⟨st, hst⟩ := Option.ne_none_iff_exists'.1 hstorage
    have h1 : (drv.SQLFetch d).1 ≠ SQL_NO_DATA_FOUND := by
      rcases hok with h | h <;> rw [h] <;> decide
    have h2 : ¬ ((drv.SQLFetch d).1 ≠ SQL_SUCCESS ∧ (drv.SQLFetch d).1 ≠ SQL_SUCCESS_WITH_INFO) := by
      rcases hok with h | h <;> simp [h]
    simp only [librdf_query_virtuoso_results_get_boolean, hfailed, hn, hvc1, hst, h1, h2, hread,
      Bool.false_or, decide_False, if_false, if_true, Bool.false_eq_true]

/-- C11 with the example driver: on a failed context nothing is fetched; on the
boolean context an empty cursor gives 0, a fetch error gives -1 and a cell that
cannot be read as an integer gives -1, each after exactly one fetch. -/
theorem get_boolean_fetch_outcomes_witness :
    librdf_query_virtuoso_results_get_boolean cursor_driver
        { example_boolean_context with failed := true }
        (cursor_state.start ["ask"] [some [cursor_cell.int 1]])
      = Outcome.returned
          (-1, { example_boolean_context with failed := true },
           cursor_state.start ["ask"] [some [cursor_cell.int 1]]) ∧
    librdf_query_virtuoso_results_get_boolean cursor_driver example_boolean_context
        (cursor_state.start ["ask"] [])
      = Outcome.returned
          (0, { example_boolean_context with eof := true },
           { (cursor_state.start ["ask"] []) with fetch_calls := 1 }) ∧
    librdf_query_virtuoso_results_get_boolean cursor_driver example_boolean_context
        (cursor_state.start ["ask"] [none])
      = Outcome.returned
          (-1, example_boolean_context,
           { (cursor_state.start ["ask"] []) with fetch_calls := 1, error_reports := 1 }) ∧
    librdf_query_virtuoso_results_get_boolean cursor_driver example_boolean_context
        (cursor_state.start ["ask"] [some [cursor_cell.no_data]])
      = Outcome.returned
          (-1, { example_boolean_context with eof := true },
           { (cursor_state.start ["ask"] []) with
             current := [cursor_cell.no_data], fetch_calls := 1 }) :=
  ⟨(get_boolean_fetch_outcomes cursor_driver { example_boolean_context with failed := true }
      (cursor_state.start ["ask"] [some [cursor_cell.int 1]])).1 (Or.inl rfl),
   ((get_boolean_fetch_outcomes cursor_driver example_boolean_context
      (cursor_state.start ["ask"] [])).2 rfl (by decide) (by decide)).1 rfl,
   (((get_boolean_fetch_outcomes cursor_driver example_boolean_context
      (cursor_state.start ["ask"] [none])).2 rfl (by decide) (by decide)).2 (by decide)).1
      (by decide) (by decide) (by decide),
   (((get_boolean_fetch_outcomes cursor_driver example_boolean_context
      (cursor_state.start ["ask"] [some [cursor_cell.no_data]])).2 rfl (by decide)
      (by decide)).2 (by decide)).2 (Or.inl rfl) rfl⟩

/-- C12 (counterexample): the integer -5, read successfully from the fetched row, is
nonzero, yet `get_boolean` returns -5, which is not greater than 0. -/
theorem get_boolean_negative_integer :
    librdf_query_virtuoso_results_get_boolean cursor_driver example_boolean_context
        (cursor_state.start ["ask"] [some [cursor_cell.int (-5)]])
      = Outcome.returned
          (-5, { example_boolean_context with eof := true },
           { (cursor_state.start ["ask"] []) with
             current := [cursor_cell.int (-5)], fetch_calls := 1 }) ∧
    ¬ ((0 : Int) < -5) := by
  decide

/-- C12 (amended): when the fetch succeeds and the read of the integer cell does not
report -1, `get_boolean` returns the integer `v` that was read: a value greater than
0 when `v > 0` and 0 when `v = 0`. -/
theorem get_boolean_returns_integer {D : Type} (drv : virtuoso_driver D)
    (context : librdf_query_virtuoso_context) (d : D) (v : Int)
    (hfailed : context.failed = false) (hcols : 0 < context.numCols)
    (hvc : context.vc ≠ none) (hstorage : context.storage ≠ none)
    (hfetch : (drv.SQLFetch d).1 = SQL_SUCCESS ∨ (drv.SQLFetch d).1 = SQL_SUCCESS_WITH_INFO)
    (hread : (drv.v_GetDataINT 1 (drv.SQLFetch d).2).1.1 ≠ -1)
    (hv : (drv.v_GetDataINT 1 (drv.SQLFetch d).2).1.2.2 = v) :
    ∃ rc : Int,
      librdf_query_virtuoso_results_get_boolean drv context d
        = Outcome.returned
            (rc, { context with eof := true }, (drv.v_GetDataINT 1 (drv.SQLFetch d).2).2) ∧
      rc = v ∧ (0 < v → 0 < rc) ∧ (v = 0 → rc = 0) := by
  have hn : ¬ context.numCols ≤ 0 := by omega
  obtain ⟨vc, hvc1⟩ := Option.ne_none_iff_exists'.1 hvc
  obtain ⟨st, hst⟩ := Option.ne_none_iff_exists'.1 hstorage
  have h1 : (drv.SQLFetch d).1 ≠ SQL_NO_DATA_FOUND := by
    rcases hfetch with h | h <;> rw [h] <;> decide
  have h2 : ¬ ((drv.SQLFetch d).1 ≠ SQL_SUCCESS ∧ (drv.SQLFetch d).1 ≠ SQL_SUCCESS_WITH_INFO) := by
    rcases hfetch with h | h <;> simp [h]
  refine ⟨v, ?_, rfl, fun h => h, fun h => h⟩
  simp only [librdf_query_virtuoso_results_get_boolean, hfailed, hn, hvc1, hst, h1, h2, hread,
    hv, Bool.false_or, decide_False, if_false, Bool.false_eq_true]

/-- C12 (amended) with the example driver: the integer 1 decodes to 1, which is
true. -/
theorem get_boolean_returns_integer_witness :
    ∃ rc : Int,
      librdf_query_virtuoso_results_get_boolean cursor_driver example_boolean_context
          (cursor_state.start ["ask"] [some [cursor_cell.int 1]])
        = Outcome.returned
            (rc, { example_boolean_context with eof := true },
             (cursor_driver.v_GetDataINT 1
               (cursor_driver.SQLFetch
                 (cursor_state.start ["ask"] [some [cursor_cell.int 1]])).2).2) ∧
      rc = 1 ∧ ((0 : Int) < 1 → 0 < rc) ∧ ((1 : Int) = 0 → rc = 0) :=
  get_boolean_returns_integer cursor_driver example_boolean_context
    (cursor_state.start ["ask"] [some [cursor_cell.int 1]]) 1 rfl (by decide) (by decide)
    (by decide) (Or.inl rfl) (by decide) rfl

/-- C13 (counterexample): on a context whose shape flags are BINDINGS alone,
`get_boolean` fetches a row from the cursor and decodes its integer 1 as the
result. -/
theorem get_boolean_ignores_missing_boolean_flag :
    VQUERY_RESULTS_BINDINGS &&& VQUERY_RESULTS_BOOLEAN = 0 ∧
    librdf_query_virtuoso_results_get_boolean cursor_driver
        { example_boolean_context with result_type := VQUERY_RESULTS_BINDINGS }
        (cursor_state.start ["ask"] [some [cursor_cell.int 1]])
      = Outcome.returned
          (1, { example_boolean_context with
                result_type := VQUERY_RESULTS_BINDINGS, eof := true },
           { (cursor_state.start ["ask"] []) with
             current := [cursor_cell.int 1], fetch_calls := 1 }) := by
  decide

/-- C13 (amended): `get_boolean` does not look at the shape flags: with any other
flags in the context it returns the same value and leaves the same driver world, and
the context it leaves differs only by carrying those flags. -/
theorem get_boolean_independent_of_shape {D : Type} (drv : virtuoso_driver D)
    (context : librdf_query_virtuoso_context) (d : D) (result_type : Nat) :
    librdf_query_virtuoso_results_get_boolean drv
        { context with result_type := result_type } d
      = match librdf_query_virtuoso_results_get_boolean drv context d with
        | Outcome.returned (rc, context1, d1) =>
          Outcome.returned (rc, { context1 with result_type := result_type }, d1)
        | Outcome.aborted => Outcome.aborted
        | Outcome.undefined => Outcome.undefined := by
  cases context
  rename_i vc storage model
  cases vc <;> cases storage <;>
    simp only [librdf_query_virtuoso_results_get_boolean] <;> split_ifs <;> rfl

/-! ## The graph view (C14, C15) -/

/-- C15: `as_stream` returns none and leaves the query context (so every row cell)
and the release log as they were whenever the context has failed, is exhausted, has
fewer than three columns, or has shape flags without GRAPH, whatever the allocations
would do. -/
theorem as_stream_refused (context : librdf_query_virtuoso_context)
    (calloc_scontext new_statement new_stream : Bool) (log : List Released)
    (h : context.failed = true ∨ context.eof = true ∨ context.numCols < 3 ∨
      context.result_type &&& VQUERY_RESULTS_GRAPH = 0) :
    librdf_query_virtuoso_results_as_stream context calloc_scontext new_statement new_stream log
      = Outcome.returned (none, context, log) := by
  unfold librdf_query_virtuoso_results_as_stream
  by_cases h1 : (context.failed || decide (context.numCols < 3) || context.eof) = true
  · rw [if_pos h1]
  · rw [if_neg h1]
    have h2 : context.result_type &&& VQUERY_RESULTS_GRAPH = 0 := by
      rcases h with h | h | h | h
      · simp [h] at h1
      · simp [h] at h1
      · simp [h] at h1
      · exact h
    rw [if_pos h2]

/-- C15 on the example contexts: two columns, a failed context, an exhausted context
and a context classified BINDINGS alone. -/
theorem as_stream_refused_witness :
    librdf_query_virtuoso_results_as_stream example_context true true true []
      = Outcome.returned (none, example_context, []) ∧
    librdf_query_virtuoso_results_as_stream { example_graph_context with failed := true }
        true true true []
      = Outcome.returned (none, { example_graph_context with failed := true }, []) ∧
    librdf_query_virtuoso_results_as_stream { example_graph_context with eof := true }
        true true true []
      = Outcome.returned (none, { example_graph_context with eof := true }, []) ∧
    librdf_query_virtuoso_results_as_stream
        { example_graph_context with result_type := VQUERY_RESULTS_BINDINGS } true true true []
      = Outcome.returned
          (none, { example_graph_context with result_type := VQUERY_RESULTS_BINDINGS }, []) :=
  ⟨as_stream_refused example_context true true true [] (Or.inr (Or.inr (Or.inl (by decide)))),
   as_stream_refused _ true true true [] (Or.inl rfl),
   as_stream_refused _ true true true [] (Or.inr (Or.inl rfl)),
   as_stream_refused _ true true true [] (Or.inr (Or.inr (Or.inr (by decide))))⟩

/-- What `as_stream` does on a context that passes its tests, with all allocations
succeeding: the cells taken, by the number of columns. -/
theorem as_stream_layout (context : librdf_query_virtuoso_context)
    (colValues : List (Option librdf_node)) (log : List Released)
    (hfailed : context.failed = false) (heof : context.eof = false)
    (hgraph : context.result_type &&& VQUERY_RESULTS_GRAPH ≠ 0)
    (hvalues : context.colValues = some colValues) :
    (3 < context.numCols →
      librdf_query_virtuoso_results_as_stream context true true true log
        = Outcome.returned
            (some
              { statement := some
                  { subject := colValues.getD 1 none, predicate := colValues.getD 2 none,
                    object := colValues.getD 3 none },
                graph := colValues.getD 0 none, finished := false,
                numCols := context.numCols },
             { context with
               colValues :=
                 some ((((colValues.set 0 none).set 1 none).set 2 none).set 3 none) },
             log)) ∧
    (context.numCols = 3 →
      librdf_query_virtuoso_results_as_stream context true true true log
        = Outcome.returned
            (some
              { statement := some
                  { subject := colValues.getD 0 none, predicate := colValues.getD 1 none,
                    object := colValues.getD 2 none },
                graph := none, finished := false, numCols := context.numCols },
             { context with
               colValues := some (((colValues.set 0 none).set 1 none).set 2 none) },
             log)) := by
  refine ⟨fun hn => ?_, fun hn => ?_⟩
  · have h1 : ¬ context.numCols < 3 := by omega
    have h2 : ¬ (1 : Int) > context.numCols := by omega
    have h3 : ¬ (2 : Int) > context.numCols := by omega
    have h4 : ¬ (3 : Int) > context.numCols := by omega
    have h5 : ¬ (4 : Int) > context.numCols := by omega
    simp [librdf_query_virtuoso_results_as_stream, hfailed, heof, hgraph, hvalues, h1, hn,
      h2, h3, h4, h5, librdf_query_virtuoso_stream_context.zeroed, librdf_new_statement,
      librdf_statement_set_subject, librdf_statement_set_predicate,
      librdf_statement_set_object, List.getD_eq_getElem?_getD, List.getElem?_set]
  · have h1 : ¬ context.numCols < 3 := by omega
    simp [librdf_query_virtuoso_results_as_stream, hfailed, heof, hgraph, hvalues, hn,
      librdf_query_virtuoso_stream_context.zeroed, librdf_new_statement,
      librdf_statement_set_subject, librdf_statement_set_predicate,
      librdf_statement_set_object, List.getD_eq_getElem?_getD, List.getElem?_set]

/-- A pull on the graph stream with more than three columns: the fetched row's
columns 1 to 4 become the graph name, the subject, the predicate and the object. -/
theorem next_statement_layout_graph {D : Type} (drv : virtuoso_driver D)
    (scontext : librdf_query_virtuoso_stream_context)
    (qcontext : librdf_query_virtuoso_context) (d d2 d3 d4 d5 : D) (log : List Released)
    (g s p o : librdf_node)
    (hfinished : scontext.finished = false) (hn : 3 < scontext.numCols)
    (hgraph : qcontext.result_type &&& VQUERY_RESULTS_GRAPH ≠ 0) (hvc : qcontext.vc ≠ none)
    (hfetch : (drv.SQLFetch d).1 = SQL_SUCCESS ∨ (drv.SQLFetch d).1 = SQL_SUCCESS_WITH_INFO)
    (hg : librdf_query_virtuoso_query_results_update_statement_cell drv 1 (drv.SQLFetch d).2
      = (some g, d2))
    (hs : librdf_query_virtuoso_query_results_update_statement_cell drv 2 d2 = (some s, d3))
    (hp : librdf_query_virtuoso_query_results_update_statement_cell drv 3 d3 = (some p, d4))
    (ho : librdf_query_virtuoso_query_results_update_statement_cell drv 4 d4 = (some o, d5)) :
    ∃ log1,
      librdf_query_virtuoso_query_results_next_statement drv scontext qcontext true d log
        = Outcome.returned
            (0,
             { statement := some { subject := some s, predicate := some p, object := some o },
               graph := some g, finished := false, numCols := scontext.numCols },
             d5, log1) := by
  obtain ⟨vc, hvc1⟩ := Option.ne_none_iff_exists'.1 hvc
  have h1 : (drv.SQLFetch d).1 ≠ SQL_NO_DATA_FOUND := by
    rcases hfetch with h | h <;> rw [h] <;> decide
  have h2 : ¬ ((drv.SQLFetch d).1 ≠ SQL_SUCCESS ∧ (drv.SQLFetch d).1 ≠ SQL_SUCCESS_WITH_INFO) := by
    rcases hfetch with h | h <;> simp [h]
  have h3 : ¬ (1 : Int) > scontext.numCols := by omega
  have h4 : ¬ (3 : Int) > scontext.numCols := by omega
  have h5 : ¬ (4 : Int) > scontext.numCols := by omega
  have e3 : (2 : Int) + 1 = 3 := rfl
  have e4 : (2 : Int) + 2 = 4 := rfl
  refine ⟨(match scontext.graph with
    | some graph =>
      (match scontext.statement with
        | some statement => librdf_free_statement statement log
        | none => log) ++ [Released.node graph]
    | none =>
      (match scontext.statement with
        | some statement => librdf_free_statement statement log
        | none => log)), ?_⟩
  simp only [librdf_query_virtuoso_query_results_next_statement, hfinished, hvc1, h1, h2,
    librdf_query_virtuoso_query_results_update_statement, hgraph, h3, hn, hg, hs,
    e3, e4, h4, h5, hp, ho, if_true, if_false, Bool.false_eq_true, Bool.not_true, librdf_new_statement,
    librdf_statement_set_subject, librdf_statement_set_predicate, librdf_statement_set_object]

/-- A pull on the graph stream with exactly three columns: the fetched row's columns
1 to 3 become the subject, the predicate and the object, and there is no graph
name. -/
theorem next_statement_layout_triple {D : Type} (drv : virtuoso_driver D)
    (scontext : librdf_query_virtuoso_stream_context)
    (qcontext : librdf_query_virtuoso_context) (d d3 d4 d5 : D) (log : List Released)
    (s p o : librdf_node)
    (hfinished : scontext.finished = false) (hn : scontext.numCols = 3)
    (hgraph : qcontext.result_type &&& VQUERY_RESULTS_GRAPH ≠ 0) (hvc : qcontext.vc ≠ none)
    (hfetch : (drv.SQLFetch d).1 = SQL_SUCCESS ∨ (drv.SQLFetch d).1 = SQL_SUCCESS_WITH_INFO)
    (hs : librdf_query_virtuoso_query_results_update_statement_cell drv 1 (drv.SQLFetch d).2
      = (some s, d3))
    (hp : librdf_query_virtuoso_query_results_update_statement_cell drv 2 d3 = (some p, d4))
    (ho : librdf_query_virtuoso_query_results_update_statement_cell drv 3 d4 = (some o, d5)) :
    ∃ log1,
      librdf_query_virtuoso_query_results_next_statement drv scontext qcontext true d log
        = Outcome.returned
            (0,
             { statement := some { subject := some s, predicate := some p, object := some o },
               graph := none, finished := false, numCols := scontext.numCols },
             d5, log1) := by
  obtain ⟨vc, hvc1⟩ := Option.ne_none_iff_exists'.1 hvc
  have h1 : (drv.SQLFetch d).1 ≠ SQL_NO_DATA_FOUND := by
    rcases hfetch with h | h <;> rw [h] <;> decide
  have h2 : ¬ ((drv.SQLFetch d).1 ≠ SQL_SUCCESS ∧ (drv.SQLFetch d).1 ≠ SQL_SUCCESS_WITH_INFO) := by
    rcases hfetch with h | h <;> simp [h]
  have h3 : ¬ (1 : Int) > scontext.numCols := by omega
  have h4 : ¬ (2 : Int) > scontext.numCols := by omega
  have h5 : ¬ (3 : Int) > scontext.numCols := by omega
  have h6 : ¬ scontext.numCols > 3 := by omega
  have e2 : (1 : Int) + 1 = 2 := rfl
  have e3 : (1 : Int) + 2 = 3 := rfl
  refine ⟨(match scontext.graph with
    | some graph =>
      (match scontext.statement with
        | some statement => librdf_free_statement statement log
        | none => log) ++ [Released.node graph]
    | none =>
      (match scontext.statement with
        | some statement => librdf_free_statement statement log
        | none => log)), ?_⟩
  simp only [librdf_query_virtuoso_query_results_next_statement, hfinished, hvc1, h1, h2,
    librdf_query_virtuoso_query_results_update_statement, hgraph, h3, h6, hs,
    e2, e3, h4, h5, hp, ho, if_true, if_false, Bool.false_eq_true, Bool.not_true,
    librdf_new_statement, librdf_statement_set_subject, librdf_statement_set_predicate,
    librdf_statement_set_object]

/-- C14: in the graph view the columns are laid out by the column count. With more
than three columns the first triple, built by `as_stream` from the cells of the
fetched row, takes cell 0 as graph name and cells 1, 2, 3 as subject, predicate and
object, and every later triple, built for a freshly fetched row whose columns 1 to 4
decode to `g`, `s`, `p`, `o`, is `(s, p, o)` with context node `g`; with exactly three
columns the triples take cells 0, 1, 2 (columns 1, 2, 3) and have no context node.
The get method of the stream hands out that statement and that context node. -/
theorem graph_stream_column_layout :
    (∀ (context : librdf_query_virtuoso_context) (colValues : List (Option librdf_node))
        (log : List Released),
      context.failed = false → context.eof = false →
      context.result_type &&& VQUERY_RESULTS_GRAPH ≠ 0 →
      context.colValues = some colValues →
      (3 < context.numCols →
        ∃ scontext context1,
          librdf_query_virtuoso_results_as_stream context true true true log
            = Outcome.returned (some scontext, context1, log) ∧
          librdf_query_virtuoso_query_results_get_statement scontext
              LIBRDF_ITERATOR_GET_METHOD_GET_OBJECT
            = some (stream_object.statement
                { subject := colValues.getD 1 none, predicate := colValues.getD 2 none,
                  object := colValues.getD 3 none }) ∧
          scontext.graph = colValues.getD 0 none) ∧
      (context.numCols = 3 →
        ∃ scontext context1,
          librdf_query_virtuoso_results_as_stream context true true true log
            = Outcome.returned (some scontext, context1, log) ∧
          librdf_query_virtuoso_query_results_get_statement scontext
              LIBRDF_ITERATOR_GET_METHOD_GET_OBJECT
            = some (stream_object.statement
                { subject := colValues.getD 0 none, predicate := colValues.getD 1 none,
                  object := colValues.getD 2 none }) ∧
          librdf_query_virtuoso_query_results_get_statement scontext
              LIBRDF_ITERATOR_GET_METHOD_GET_CONTEXT = none)) ∧
    (∀ (D : Type) (drv : virtuoso_driver D) (scontext : librdf_query_virtuoso_stream_context)
        (qcontext : librdf_query_virtuoso_context) (d d2 d3 d4 d5 : D) (log : List Released)
        (g s p o : librdf_node),
      scontext.finished = false → qcontext.result_type &&& VQUERY_RESULTS_GRAPH ≠ 0 →
      qcontext.vc ≠ none →
      ((drv.SQLFetch d).1 = SQL_SUCCESS ∨ (drv.SQLFetch d).1 = SQL_SUCCESS_WITH_INFO) →
      (3 < scontext.numCols →
        librdf_query_virtuoso_query_results_update_statement_cell drv 1 (drv.SQLFetch d).2
          = (some g, d2) →
        librdf_query_virtuoso_query_results_update_statement_cell drv 2 d2 = (some s, d3) →
        librdf_query_virtuoso_query_results_update_statement_cell drv 3 d3 = (some p, d4) →
        librdf_query_virtuoso_query_results_update_statement_cell drv 4 d4 = (some o, d5) →
        ∃ scontext1 log1,
          librdf_query_virtuoso_query_results_next_statement drv scontext qcontext true d log
            = Outcome.returned (0, scontext1, d5, log1) ∧
          librdf_query_virtuoso_query_results_get_statement scontext1
              LIBRDF_ITERATOR_GET_METHOD_GET_OBJECT
            = some (stream_object.statement
                { subject := some s, predicate := some p, object := some o }) ∧
          librdf_query_virtuoso_query_results_get_statement scontext1
              LIBRDF_ITERATOR_GET_METHOD_GET_CONTEXT = some (stream_object.node g)) ∧
      (scontext.numCols = 3 →
        librdf_query_virtuoso_query_results_update_statement_cell drv 1 (drv.SQLFetch d).2
          = (some s, d3) →
        librdf_query_virtuoso_query_results_update_statement_cell drv 2 d3 = (some p, d4) →
        librdf_query_virtuoso_query_results_update_statement_cell drv 3 d4 = (some o, d5) →
        ∃ scontext1 log1,
          librdf_query_virtuoso_query_results_next_statement drv scontext qcontext true d log
            = Outcome.returned (0, scontext1, d5, log1) ∧
          librdf_query_virtuoso_query_results_get_statement scontext1
              LIBRDF_ITERATOR_GET_METHOD_GET_OBJECT
            = some (stream_object.statement
                { subject := some s, predicate := some p, object := some o }) ∧
          librdf_query_virtuoso_query_results_get_statement scontext1
              LIBRDF_ITERATOR_GET_METHOD_GET_CONTEXT = none)) := by
  refine ⟨fun context colValues log hfailed heof hgraph hvalues => ?_,
    fun D drv scontext qcontext d d2 d3 d4 d5 log g s p o hfinished hgraph hvc hfetch => ?_⟩
  · have h := as_stream_layout context colValues log hfailed heof hgraph hvalues
    exact ⟨fun hn => ⟨_, _, h.1 hn, rfl, rfl⟩, fun hn => ⟨_, _, h.2 hn, rfl, rfl⟩⟩
  · refine ⟨fun hn hg hs hp ho => ?_, fun hn hs hp ho => ?_⟩
    · obtain ⟨log1, h⟩ := next_statement_layout_graph drv scontext qcontext d d2 d3 d4 d5 log
        g s p o hfinished hn hgraph hvc hfetch hg hs hp ho
      exact ⟨_, log1, h, rfl, rfl⟩
    · obtain ⟨log1, h⟩ := next_statement_layout_triple drv scontext qcontext d d3 d4 d5 log
        s p o hfinished hn hgraph hvc hfetch hs hp ho
      exact ⟨_, log1, h, rfl, rfl⟩

/-- C14 on the example contexts and the example driver: the first triple of a four
column and of a three column result, and the triple of the next row of each. -/
theorem graph_stream_column_layout_witness :
    (∃ scontext context1,
      librdf_query_virtuoso_results_as_stream example_graph_context true true true []
        = Outcome.returned (some scontext, context1, []) ∧
      librdf_query_virtuoso_query_results_get_statement scontext
          LIBRDF_ITERATOR_GET_METHOD_GET_OBJECT
        = some (stream_object.statement
            { subject := some (librdf_node.resource "s1"),
              predicate := some (librdf_node.resource "p1"),
              object := some (librdf_node.resource "o1") }) ∧
      scontext.graph = some (librdf_node.resource "g1")) ∧
    (∃ scontext context1,
      librdf_query_virtuoso_results_as_stream example_triple_context true true true []
        = Outcome.returned (some scontext, context1, []) ∧
      librdf_query_virtuoso_query_results_get_statement scontext
          LIBRDF_ITERATOR_GET_METHOD_GET_OBJECT
        = some (stream_object.statement
            { subject := some (librdf_node.resource "s1"),
              predicate := some (librdf_node.resource "p1"),
              object := some (librdf_node.resource "o1") }) ∧
      librdf_query_virtuoso_query_results_get_statement scontext
          LIBRDF_ITERATOR_GET_METHOD_GET_CONTEXT = none) ∧
    (∃ scontext1 log1,
      librdf_query_virtuoso_query_results_next_statement cursor_driver
          { statement := none, graph := none, finished := false, numCols := 4 }
          example_graph_context true
          (cursor_state.start []
            [some [cursor_cell.chars "g2", cursor_cell.chars "s2", cursor_cell.chars "p2",
              cursor_cell.chars "o2"]]) []
        = Outcome.returned
            (0, scontext1,
             { (cursor_state.start [] []) with
               current := [cursor_cell.chars "g2", cursor_cell.chars "s2",
                 cursor_cell.chars "p2", cursor_cell.chars "o2"],
               fetch_calls := 1 }, log1) ∧
      librdf_query_virtuoso_query_results_get_statement scontext1
          LIBRDF_ITERATOR_GET_METHOD_GET_OBJECT
        = some (stream_object.statement
            { subject := some (librdf_node.resource "s2"),
              predicate := some (librdf_node.resource "p2"),
              object := some (librdf_node.resource "o2") }) ∧
      librdf_query_virtuoso_query_results_get_statement scontext1
          LIBRDF_ITERATOR_GET_METHOD_GET_CONTEXT
        = some (stream_object.node (librdf_node.resource "g2"))) ∧
    (∃ scontext1 log1,
      librdf_query_virtuoso_query_results_next_statement cursor_driver
          { statement := none, graph := none, finished := false, numCols := 3 }
          example_triple_context true
          (cursor_state.start []
            [some [cursor_cell.chars "s2", cursor_cell.chars "p2", cursor_cell.chars "o2"]]) []
        = Outcome.returned
            (0, scontext1,
             { (cursor_state.start [] []) with
               current := [cursor_cell.chars "s2", cursor_cell.chars "p2",
                 cursor_cell.chars "o2"],
               fetch_calls := 1 }, log1) ∧
      librdf_query_virtuoso_query_results_get_statement scontext1
          LIBRDF_ITERATOR_GET_METHOD_GET_OBJECT
        = some (stream_object.statement
            { subject := some (librdf_node.resource "s2"),
              predicate := some (librdf_node.resource "p2"),
              object := some (librdf_node.resource "o2") }) ∧
      librdf_query_virtuoso_query_results_get_statement scontext1
          LIBRDF_ITERATOR_GET_METHOD_GET_CONTEXT = none) :=
  ⟨(graph_stream_column_layout.1 example_graph_context _ [] rfl rfl (by decide) rfl).1
      (by decide),
   (graph_stream_column_layout.1 example_triple_context _ [] rfl rfl (by decide) rfl).2 rfl,
   (graph_stream_column_layout.2 cursor_state cursor_driver
      { statement := none, graph := none, finished := false, numCols := 4 }
      example_graph_context
      (cursor_state.start []
        [some [cursor_cell.chars "g2", cursor_cell.chars "s2", cursor_cell.chars "p2",
          cursor_cell.chars "o2"]])
      _ _ _ _ [] (librdf_node.resource "g2") (librdf_node.resource "s2")
      (librdf_node.resource "p2") (librdf_node.resource "o2") rfl (by decide) (by decide)
      (Or.inl rfl)).1 (by decide) rfl rfl rfl rfl,
   (graph_stream_column_layout.2 cursor_state cursor_driver
      { statement := none, graph := none, finished := false, numCols := 3 }
      example_triple_context
      (cursor_state.start []
        [some [cursor_cell.chars "s2", cursor_cell.chars "p2", cursor_cell.chars "o2"]])
      (cursor_state.start [] []) _ _ _ [] (librdf_node.resource "g2") (librdf_node.resource "s2")
      (librdf_node.resource "p2") (librdf_node.resource "o2") rfl (by decide) (by decide)
      (Or.inl rfl)).2 rfl rfl rfl rfl⟩

/-! ## Termination and disposal (C16, C17) -/

/-- C16 (counterexample): two calls of `librdf_query_virtuoso_terminate` on a context
holding a connection leave the example driver with two release calls (and two cursor
closes), and the query text is released twice. -/
theorem terminate_twice_releases_twice :
    terminate_twice cursor_driver example_boolean_context (cursor_state.start ["ask"] []) []
      = Outcome.returned
          ({ example_boolean_context with colNames := none, colValues := none },
           { (cursor_state.start ["ask"] []) with close_calls := 2, release_calls := 2 },
           [Released.column_name "ask", Released.column_names, Released.column_values,
            Released.query_string "ASK \x7b\x7d".toList, Released.storage_reference 1,
            Released.query_string "ASK \x7b\x7d".toList, Released.storage_reference 1]) := by
  decide

/-- C16 (amended): on a context holding a connection one call of
`librdf_query_virtuoso_terminate` closes the cursor and invokes the release routine
exactly once, and resets only the column buffers; the connection, the query text and
the other references stay in the context, so a second call closes and releases once
more and releases the query text, the base URI, the rasqal results and the storage
reference again, while the column buffers are not released a second time. -/
theorem terminate_releases_once_per_call {D : Type} (drv : virtuoso_driver D)
    (context : librdf_query_virtuoso_context) (d : D) (log : List Released)
    (hvc : context.vc ≠ none) :
    ∃ log1,
      librdf_query_virtuoso_terminate drv context d log
        = Outcome.returned
            ({ context with colNames := none, colValues := none },
             drv.v_release_connection (drv.SQLCloseCursor d), log1) ∧
      terminate_twice drv context d log
        = Outcome.returned
            ({ context with colNames := none, colValues := none },
             drv.v_release_connection
               (drv.SQLCloseCursor (drv.v_release_connection (drv.SQLCloseCursor d))),
             log1 ++ terminate_releases context) := by
  obtain ⟨vc, hvc1⟩ := Option.ne_none_iff_exists'.1 hvc
  have h1 : librdf_query_virtuoso_terminate drv context d log
      = Outcome.returned
          ({ context with colNames := none, colValues := none },
           drv.v_release_connection (drv.SQLCloseCursor d),
           (virtuoso_free_result context
              (log ++ context.results.toList.map Released.rasqal_query_results)).2 ++
             context.query_string.toList.map Released.query_string ++
             context.uri.toList.map Released.uri ++
             context.storage.toList.map Released.storage_reference) := by
    simp only [librdf_query_virtuoso_terminate, virtuoso_free_result, hvc1]
    cases context.results <;> cases context.query_string <;> cases context.uri <;>
      cases context.storage <;> simp
  refine ⟨_, h1, ?_⟩
  simp only [terminate_twice, h1, librdf_query_virtuoso_terminate, virtuoso_free_result, hvc1,
    terminate_releases]
  cases context.results <;> cases context.query_string <;> cases context.uri <;>
    cases context.storage <;> simp

/-- C16 (amended) with the example driver: one call releases the connection once,
two calls release it twice. -/
theorem terminate_releases_once_per_call_witness :
    ∃ log1,
      librdf_query_virtuoso_terminate cursor_driver example_boolean_context
          (cursor_state.start ["ask"] []) []
        = Outcome.returned
            ({ example_boolean_context with colNames := none, colValues := none },
             { (cursor_state.start ["ask"] []) with close_calls := 1, release_calls := 1 },
             log1) ∧
      terminate_twice cursor_driver example_boolean_context (cursor_state.start ["ask"] []) []
        = Outcome.returned
            ({ example_boolean_context with colNames := none, colValues := none },
             { (cursor_state.start ["ask"] []) with close_calls := 2, release_calls := 2 },
             log1 ++ terminate_releases example_boolean_context) :=
  terminate_releases_once_per_call cursor_driver example_boolean_context
    (cursor_state.start ["ask"] []) [] (by decide)

/-- C17 (counterexample): disposing the example iterator context a second time is not
a no-op: over the two calls the underlying stream and the pattern statement are each
released twice. -/
theorem stream_to_node_iterator_finished_twice :
    (librdf_storage_stream_to_node_iterator_finished example_iterator_context
      (librdf_storage_stream_to_node_iterator_finished example_iterator_context [])).count
        (Released.stream
          { statements :=
              [{ subject := some (librdf_node.resource "s1"),
                 predicate := some (librdf_node.resource "p"),
                 object := some (librdf_node.resource "o") }] }) = 2 ∧
    (librdf_storage_stream_to_node_iterator_finished example_iterator_context
      (librdf_storage_stream_to_node_iterator_finished example_iterator_context [])).count
        (Released.statement librdf_new_statement) = 2 ∧
    librdf_storage_stream_to_node_iterator_finished example_iterator_context
        (librdf_storage_stream_to_node_iterator_finished example_iterator_context [])
      ≠ librdf_storage_stream_to_node_iterator_finished example_iterator_context [] := by
  decide

/-- C17 (amended): one disposal of a generic stream-to-node iterator context releases
the pattern statement (with its three slots cleared, so none of its nodes), the
underlying stream and the context block, each exactly once; the function keeps no
record of the disposal, so a second call on the same context makes the same three
releases again. -/
theorem stream_to_node_iterator_finished_releases (stream : librdf_stream)
    (partial_statement : librdf_statement) (want : Nat) (log : List Released) :
    librdf_storage_stream_to_node_iterator_finished
        { stream := some stream, partial_statement := some partial_statement, want := want } log
      = log ++ [Released.statement librdf_new_statement, Released.stream stream,
          Released.iterator_context] ∧
    librdf_storage_stream_to_node_iterator_finished
        { stream := some stream, partial_statement := some partial_statement, want := want }
        (librdf_storage_stream_to_node_iterator_finished
          { stream := some stream, partial_statement := some partial_statement, want := want }
          log)
      = log ++ [Released.statement librdf_new_statement, Released.stream stream,
            Released.iterator_context] ++
          [Released.statement librdf_new_statement, Released.stream stream,
            Released.iterator_context] := by
  simp [librdf_storage_stream_to_node_iterator_finished, librdf_free_statement,
    librdf_free_stream, librdf_statement_set_subject, librdf_statement_set_predicate,
    librdf_statement_set_object, librdf_statement.nodes, librdf_new_statement]

/-! ## The failed flag (C18) -/

/-- C18: on a context whose failed flag is set each reader returns its error value,
leaves the context, the driver's world and the release log as they were. -/
theorem failed_is_sticky {D : Type} (drv : virtuoso_driver D)
    (context : librdf_query_virtuoso_context) (hfailed : context.failed = true)
    (d : D) (log : List Released) (numCols offset : Int) (name : String) (names : Bool)
    (values : Option (List (Option librdf_node)))
    (calloc_scontext new_statement new_stream : Bool) :
    librdf_query_virtuoso_results_next drv context numCols d log
      = Outcome.returned (1, context, d, log) ∧
    librdf_query_virtuoso_results_finished context = 1 ∧
    librdf_query_virtuoso_results_get_count context = -1 ∧
    librdf_query_virtuoso_results_get_bindings context names values
      = Outcome.returned { rc := 1, context := context, names := none, values := values } ∧
    librdf_query_virtuoso_results_get_binding_value context offset = (none, context) ∧
    librdf_query_virtuoso_results_get_binding_name context offset = none ∧
    librdf_query_virtuoso_results_get_binding_value_by_name context name
      = Outcome.returned (none, context) ∧
    librdf_query_virtuoso_results_get_bindings_count context = -1 ∧
    librdf_query_virtuoso_results_get_boolean drv context d
      = Outcome.returned (-1, context, d) ∧
    librdf_query_virtuoso_results_as_stream context calloc_scontext new_statement new_stream log
      = Outcome.returned (none, context, log) := by
  refine ⟨?_, ?_, ?_, ?_, ?_, ?_, ?_, ?_, ?_, ?_⟩
  · simp [librdf_query_virtuoso_results_next, hfailed]
  · simp [librdf_query_virtuoso_results_finished, hfailed]
  · simp [librdf_query_virtuoso_results_get_count, hfailed]
  · simp [librdf_query_virtuoso_results_get_bindings, hfailed]
  · simp [librdf_query_virtuoso_results_get_binding_value, hfailed]
  · simp [librdf_query_virtuoso_results_get_binding_name, hfailed]
  · simp [librdf_query_virtuoso_results_get_binding_value_by_name, hfailed]
  · simp [librdf_query_virtuoso_results_get_bindings_count, hfailed]
  · simp [librdf_query_virtuoso_results_get_boolean, hfailed]
  · simp [librdf_query_virtuoso_results_as_stream, hfailed]

/-- C18 with the example driver, on the failed graph context over a cursor that still
has a row: nothing is fetched. -/
theorem failed_is_sticky_witness :
    librdf_query_virtuoso_results_next cursor_driver
        { example_graph_context with failed := true } 4
        (cursor_state.start [] [some [cursor_cell.int 1]]) []
      = Outcome.returned
          (1, { example_graph_context with failed := true },
           cursor_state.start [] [some [cursor_cell.int 1]], []) ∧
    librdf_query_virtuoso_results_get_boolean cursor_driver
        { example_graph_context with failed := true }
        (cursor_state.start [] [some [cursor_cell.int 1]])
      = Outcome.returned
          (-1, { example_graph_context with failed := true },
           cursor_state.start [] [some [cursor_cell.int 1]]) ∧
    librdf_query_virtuoso_results_as_stream { example_graph_context with failed := true }
        true true true []
      = Outcome.returned (none, { example_graph_context with failed := true }, []) :=
  have h := failed_is_sticky cursor_driver { example_graph_context with failed := true } rfl
    (cursor_state.start [] [some [cursor_cell.int 1]]) [] 4 0 "s" true none true true true
  ⟨h.1, h.2.2.2.2.2.2.2.2.1, h.2.2.2.2.2.2.2.2.2⟩

/-! ## Specialised projections and cloning (C19, C20) -/

/-- C19: when the factory has a specialised projection for the requested axis, the
call returns exactly what that function returns for the same two terms and leaves
the world as that function left it, whatever find-by-pattern is and whatever the
allocations would do, and the release log is untouched: no pattern statement is
built and find-by-pattern is not called. -/
theorem specialised_projection_delegates {W I : Type} (storage : librdf_storage W I)
    (factory : librdf_storage_factory W I) (hfactory : storage.factory = some factory)
    (a b : Option librdf_node) (new_statement calloc_context new_iterator : Bool) (w : W)
    (log : List Released) :
    (∀ find_sources, factory.find_sources = some find_sources →
      librdf_storage_get_sources storage a b new_statement calloc_context new_iterator w log
        = Outcome.returned ((find_sources a b w).1, (find_sources a b w).2, log)) ∧
    (∀ find_arcs, factory.find_arcs = some find_arcs →
      librdf_storage_get_arcs storage a b new_statement calloc_context new_iterator w log
        = Outcome.returned ((find_arcs a b w).1, (find_arcs a b w).2, log)) ∧
    (∀ find_targets, factory.find_targets = some find_targets →
      librdf_storage_get_targets storage a b new_statement calloc_context new_iterator w log
        = Outcome.returned ((find_targets a b w).1, (find_targets a b w).2, log)) := by
  refine ⟨fun f hf => ?_, fun f hf => ?_, fun f hf => ?_⟩
  · simp [librdf_storage_get_sources, hfactory, hf]
  · simp [librdf_storage_get_arcs, hfactory, hf]
  · simp [librdf_storage_get_targets, hfactory, hf]

/-- C19 on the counting factory: the world shows one call of the specialised
projection (1) and no call of find-by-pattern (100). -/
theorem specialised_projection_delegates_witness :
    librdf_storage_get_sources example_counting_storage (some (librdf_node.resource "p"))
        (some (librdf_node.resource "o")) true true true 0 []
      = Outcome.returned (some (librdf_iterator.backend ()), 1, []) :=
  (specialised_projection_delegates example_counting_storage example_counting_factory rfl
    (some (librdf_node.resource "p")) (some (librdf_node.resource "o")) true true true 0 []).1
    _ rfl

/-- C20: in `librdf_new_storage_from_storage`, with both allocations succeeding, a
failing clone gives none, and the world is left as the clone left it whatever the
factory's terminate is (terminate is not invoked on the new handle, whose factory
was not yet set), the context block and the handle being released; a succeeding
clone gives a handle whose factory is the old handle's factory. -/
theorem clone_failure_does_not_terminate {W I : Type} (old_storage : librdf_storage W I)
    (factory : librdf_storage_factory W I) (clone : W → Bool × W)
    (hfactory : old_storage.factory = some factory) (hclone : factory.clone = some clone)
    (w : W) (log : List Released) :
    ((clone w).1 = true →
      librdf_new_storage_from_storage old_storage true true w log
        = Outcome.returned
            (none, (clone w).2, log ++ [Released.storage_context, Released.storage])) ∧
    ((clone w).1 = false →
      librdf_new_storage_from_storage old_storage true true w log
        = Outcome.returned
            (some { factory := some factory, context := some factory.context_length },
             (clone w).2, log)) := by
  refine ⟨fun h => ?_, fun h => ?_⟩
  · simp [librdf_new_storage_from_storage, hfactory, hclone, h, librdf_free_storage]
  · simp [librdf_new_storage_from_storage, hfactory, hclone, h]

/-- C20 on the counting factory: from the odd world 1 the clone fails and the world
shows the clone (10) but no terminate (1000); from the even world 0 it succeeds. -/
theorem clone_failure_does_not_terminate_witness :
    librdf_new_storage_from_storage example_counting_storage true true 1 []
      = Outcome.returned (none, 11, [Released.storage_context, Released.storage]) ∧
    librdf_new_storage_from_storage example_counting_storage true true 0 []
      = Outcome.returned
          (some { factory := some example_counting_factory, context := some 8 }, 10, []) :=
  ⟨(clone_failure_does_not_terminate example_counting_storage example_counting_factory _ rfl
      rfl 1 []).1 rfl,
   (clone_failure_does_not_terminate example_counting_storage example_counting_factory _ rfl
      rfl 0 []).2 rfl⟩

/-! ## Executing a query: frames and totality -/

/-- `virtuoso_free_result` changes the two array members of the context only. -/
theorem virtuoso_free_result_fst (context : librdf_query_virtuoso_context)
    (log : List Released) :
    (virtuoso_free_result context log).1
      = { context with colNames := none, colValues := none } := rfl

/-- What `librdf_query_virtuoso_results_next` leaves as it was, and how the number of
rows moves with the return value. -/
theorem results_next_frame {D : Type} (drv : virtuoso_driver D)
    (context : librdf_query_virtuoso_context) (numCols : Int) (d : D) (log : List Released)
    (rc : Int) (context1 : librdf_query_virtuoso_context) (d1 : D) (log1 : List Released)
    (h : librdf_query_virtuoso_results_next drv context numCols d log
      = Outcome.returned (rc, context1, d1, log1)) :
    context1.result_type = context.result_type ∧ context1.numCols = context.numCols ∧
    context1.failed = context.failed ∧ context1.limit = context.limit ∧
    context1.offset = context.offset ∧ context1.colNames = context.colNames ∧
    context1.vc = context.vc ∧ context1.storage = context.storage ∧
    context1.query_string = context.query_string ∧
    (rc = 0 ∨ rc = 1 ∨ rc = 2) ∧
    (rc = 0 → context1.row_count = context.row_count + 1 ∧ context1.eof = context.eof) ∧
    (rc ≠ 0 → context1.row_count = context.row_count) ∧
    (rc = 2 → context1.eof = context.eof) := by
  unfold librdf_query_virtuoso_results_next at h
  dsimp only at h
  repeat' split at h
  all_goals first
    | (cases h; simp)
    | (exact absurd h (by simp))

/-- What the column block of `librdf_query_virtuoso_execute` leaves as it was. -/
theorem execute_columns_frame {D : Type} (drv : virtuoso_driver D)
    (context : librdf_query_virtuoso_context) (calloc_colNames calloc_colValues : Bool)
    (calloc_name : Int → Bool) (d : D) (ok : Bool) (context1 : librdf_query_virtuoso_context)
    (d1 : D)
    (h : librdf_query_virtuoso_execute_columns drv context calloc_colNames calloc_colValues
      calloc_name d = Outcome.returned (ok, context1, d1)) :
    context1.limit = context.limit ∧ context1.offset = context.offset ∧
    context1.failed = context.failed ∧ context1.numCols = context.numCols ∧
    context1.vc = context.vc ∧ context1.storage = context.storage ∧
    (context1.result_type = context.result_type ∨
      context1.result_type = context.result_type ||| VQUERY_RESULTS_BINDINGS) ∧
    (ok = true → context1.eof = context.eof ∨ context1.colValues ≠ none) := by
  unfold librdf_query_virtuoso_execute_columns at h
  dsimp only at h
  repeat' split at h
  all_goals first
    | (cases h; simp)
    | (exact absurd h (by simp))

/-- What holds of the context after any `librdf_query_virtuoso_execute` that returns. -/
theorem execute_post {D : Type} (drv : virtuoso_driver D)
    (context : librdf_query_virtuoso_context) (model : Option Nat)
    (malloc_cmd calloc_colNames calloc_colValues : Bool) (calloc_name : Int → Bool)
    (rasqal_results : Option Nat) (malloc_results : Bool) (numCols : Int) (d : D)
    (log : List Released) (r : Bool) (context1 : librdf_query_virtuoso_context) (d1 : D)
    (log1 : List Released)
    (h : librdf_query_virtuoso_execute drv context model malloc_cmd calloc_colNames
      calloc_colValues calloc_name rasqal_results malloc_results numCols d log
      = Outcome.returned (r, context1, d1, log1)) :
    context1.limit = -1 ∧ context1.offset = -1 ∧ context1.failed = !r ∧
    ((context1.result_type = VQUERY_RESULTS_SYNTAX ∧ context1.numCols = 0) ∨
      context1.result_type = context.result_type ∨
      context1.result_type = context.result_type ||| VQUERY_RESULTS_BINDINGS) := by
  unfold librdf_query_virtuoso_execute at h
  simp only [virtuoso_free_result_fst] at h
  repeat' split at h
  all_goals try simp only [librdf_query_virtuoso_execute_error, virtuoso_free_result_fst] at h
  all_goals try cases h
  all_goals try (simp; done)
  · have hc := execute_columns_frame _ _ _ _ _ _ _ _ _ (by assumption)
    simp only [] at hc
    obtain ⟨h1, h2, h3, h4, h5, h6, h7, h8⟩ := hc
    simp [h1, h2]
    rcases h7 with h7 | h7 <;> simp [h7]
  · have hc := execute_columns_frame _ _ _ _ _ _ _ _ _ (by assumption)
    have hn := results_next_frame _ _ _ _ _ _ _ _ _ (by assumption)
    simp only [] at hc hn
    obtain ⟨h1, h2, h3, h4, h5, h6, h7, h8⟩ := hc
    obtain ⟨n1, n2, n3, n4, n5, n6⟩ := hn
    simp [h1, h2, n4, n5, n1]
    rcases h7 with h7 | h7 <;> simp [h7]
  · have hc := execute_columns_frame _ _ _ _ _ _ _ _ _ (by assumption)
    have hn := results_next_frame _ _ _ _ _ _ _ _ _ (by assumption)
    simp only [] at hc hn
    obtain ⟨h1, h2, h3, h4, h5, h6, h7, h8⟩ := hc
    obtain ⟨n1, n2, n3, n4, n5, n6⟩ := hn
    simp [h1, h2, h3, n4, n5, n1, n3]
    rcases h7 with h7 | h7 <;> simp [h7]

/-- With a storage the label loop of execute returns. -/
theorem execute_names_total {D : Type} (drv : virtuoso_driver D) (storage : Nat)
    (calloc_name : Int → Bool) (remaining : Nat) (icol : Int) (colNames : List String) (d : D) :
    ∃ r, librdf_query_virtuoso_execute_names drv (some storage) calloc_name remaining icol
      colNames d = Outcome.returned r := by
  induction remaining generalizing icol colNames d with
  | zero => exact ⟨_, rfl⟩
  | succ n ih =>
    unfold librdf_query_virtuoso_execute_names
    dsimp only
    split
    · exact ⟨_, rfl⟩
    · split
      · exact ⟨_, rfl⟩
      · exact ih _ _ _

/-- With a connection, a storage and either the end of the rows or a cell array,
`librdf_query_virtuoso_results_next` returns. -/
theorem results_next_total {D : Type} (drv : virtuoso_driver D)
    (context : librdf_query_virtuoso_context) (numCols : Int) (d : D) (log : List Released)
    (vc storage : Nat) (hvc : context.vc = some vc) (hstorage : context.storage = some storage)
    (hcells : context.eof = true ∨ context.colValues ≠ none) :
    ∃ r, librdf_query_virtuoso_results_next drv context numCols d log = Outcome.returned r := by
  unfold librdf_query_virtuoso_results_next
  rcases hcells with heof | hcells
  · simp [heof]
  · cases hv : context.colValues with
    | none => exact absurd hv hcells
    | some colValues =>
      by_cases hn : numCols ≤ 0
      · simp only [hv, hvc, hstorage, hn, if_true]
        repeat' split
        all_goals exact ⟨_, rfl⟩
      · simp only [hv, hvc, hstorage, hn, if_false]
        repeat' split
        all_goals exact ⟨_, rfl⟩

/-- With a storage the column block of execute returns. -/
theorem execute_columns_total {D : Type} (drv : virtuoso_driver D)
    (context : librdf_query_virtuoso_context) (calloc_colNames calloc_colValues : Bool)
    (calloc_name : Int → Bool) (d : D) (storage : Nat)
    (hstorage : context.storage = some storage) :
    ∃ r, librdf_query_virtuoso_execute_columns drv context calloc_colNames calloc_colValues
      calloc_name d = Outcome.returned r := by
  unfold librdf_query_virtuoso_execute_columns
  obtain ⟨r, hr⟩ := execute_names_total drv storage calloc_name context.numCols.toNat 1 [] d
  obtain ⟨ok, names, d1⟩ := r
  simp only [hstorage, hr]
  cases ok <;> repeat' split
  all_goals first
    | exact ⟨_, rfl⟩
    | simp_all

/-- With a connection, a storage, a query text and a results object,
`librdf_query_virtuoso_execute` returns. -/
theorem execute_total {D : Type} (drv : virtuoso_driver D)
    (context : librdf_query_virtuoso_context) (model : Option Nat)
    (malloc_cmd calloc_colNames calloc_colValues : Bool) (calloc_name : Int → Bool)
    (rasqal_results : Option Nat) (numCols : Int) (d : D) (log : List Released)
    (vc storage : Nat) (query_string : List Char) (hvc : context.vc = some vc)
    (hstorage : context.storage = some storage)
    (hquery : context.query_string = some query_string) :
    ∃ r, librdf_query_virtuoso_execute drv context model malloc_cmd calloc_colNames
      calloc_colValues calloc_name rasqal_results true numCols d log = Outcome.returned r := by
  have kc : ∀ (c : librdf_query_virtuoso_context) (d0 : D)
      (x : Outcome (Bool × librdf_query_virtuoso_context × D)),
      librdf_query_virtuoso_execute_columns drv c calloc_colNames calloc_colValues calloc_name d0
        = x → c.storage = some storage → ∃ r, x = Outcome.returned r :=
    fun c d0 x hx hs => hx ▸ execute_columns_total drv c _ _ _ d0 storage hs
  have kn : ∀ (c : librdf_query_virtuoso_context) (d0 : D) (log0 : List Released)
      (x : Outcome (Int × librdf_query_virtuoso_context × D × List Released)),
      librdf_query_virtuoso_results_next drv c numCols d0 log0 = x →
      c.vc = some vc → c.storage = some storage → (c.eof = true ∨ c.colValues ≠ none) →
      ∃ r, x = Outcome.returned r :=
    fun c d0 log0 x hx h1 h2 h3 => hx ▸ results_next_total drv c numCols d0 log0 vc storage h1 h2 h3
  unfold librdf_query_virtuoso_execute
  simp only [virtuoso_free_result_fst, hvc, hstorage, hquery, librdf_query_virtuoso_execute_error]
  repeat' split
  all_goals try (exact ⟨_, rfl⟩)
  · simp_all
  · exfalso
    have hc := execute_columns_frame _ _ _ _ _ _ _ _ _ (by assumption)
    simp only [] at hc
    obtain ⟨r, hr⟩ := kn _ _ _ _ (by assumption) (by simp [hc.2.2.2.2.1, hvc])
      (by simp [hc.2.2.2.2.2.1, hstorage])
      (by simpa using (hc.2.2.2.2.2.2.2 trivial))
    cases hr
  · exfalso
    have hc := execute_columns_frame _ _ _ _ _ _ _ _ _ (by assumption)
    simp only [] at hc
    obtain ⟨r, hr⟩ := kn _ _ _ _ (by assumption) (by simp [hc.2.2.2.2.1, hvc])
      (by simp [hc.2.2.2.2.2.1, hstorage])
      (by simpa using (hc.2.2.2.2.2.2.2 trivial))
    cases hr
  · exfalso
    obtain ⟨r, hr⟩ := kc _ _ _ (by assumption) (by simp [hstorage])
    cases hr
  · exfalso
    obtain ⟨r, hr⟩ := kc _ _ _ (by assumption) (by simp [hstorage])
    cases hr

/-- The release loop of `librdf_query_virtuoso_results_next` on cells that are all
empty releases nothing. -/
theorem results_next_release_none (remaining col : Nat) (colValues : List (Option librdf_node))
    (log : List Released) (hnone : ∀ j, colValues.getD j none = none) :
    librdf_query_virtuoso_results_next_release remaining col colValues log = (colValues, log) := by
  induction remaining generalizing col with
  | zero => rfl
  | succ n ih =>
    unfold librdf_query_virtuoso_results_next_release
    rw [hnone col]
    exact ih (col + 1)

/-- The decoding loop of `librdf_query_virtuoso_results_next`, when it runs to its end
from column `c + 1` on: the array keeps its length, the cells outside the columns
decoded are untouched, and the cell of each column decoded is empty when the driver
reported a null and otherwise holds the node decoded from the data the driver gave
for that column, in the driver's world as the columns before it left it; no column
was without data unless it was null. -/
theorem results_next_decode_cells {D : Type} (drv : virtuoso_driver D) (remaining : Nat) :
    ∀ (c : Nat) (colValues : List (Option librdf_node)) (d : D)
      (colValues1 : List (Option librdf_node)) (d1 : D),
      librdf_query_virtuoso_results_next_decode drv remaining ((c : Int) + 1) colValues d
        = (true, colValues1, d1) →
      colValues1.length = colValues.length ∧
      (∀ j, j < c ∨ c + remaining ≤ j → colValues1.getD j none = colValues.getD j none) ∧
      ∀ m, m < remaining → c + m < colValues.length →
        ((drv.v_GetDataCHAR ((c : Int) + 1 + m)
            (librdf_query_virtuoso_results_next_decode drv m ((c : Int) + 1) colValues d).2.2).1.2
            = true →
          colValues1.getD (c + m) none = none) ∧
        (∀ data,
          (drv.v_GetDataCHAR ((c : Int) + 1 + m)
            (librdf_query_virtuoso_results_next_decode drv m ((c : Int) + 1) colValues d).2.2).1
            = (some data, false) →
          colValues1.getD (c + m) none
            = (drv.v_rdf2node ((c : Int) + 1 + m) data
                (drv.v_GetDataCHAR ((c : Int) + 1 + m)
                  (librdf_query_virtuoso_results_next_decode drv m ((c : Int) + 1) colValues
                    d).2.2).2).1) ∧
        (drv.v_GetDataCHAR ((c : Int) + 1 + m)
          (librdf_query_virtuoso_results_next_decode drv m ((c : Int) + 1) colValues d).2.2).1
          ≠ (none, false) := by
  induction remaining with
  | zero =>
    intro c colValues d colValues1 d1 h
    simp only [librdf_query_virtuoso_results_next_decode, Prod.mk.injEq, true_and] at h
    obtain ⟨h1, _⟩ := h
    subst h1
    exact ⟨rfl, fun _ _ => rfl, fun m hm => absurd hm (Nat.not_lt_zero m)⟩
  | succ n ih =>
    intro c colValues d colValues1 d1 h
    have hcol : ((c : Int) + 1 - 1).toNat = c := by simp
    have hnext : (c : Int) + 1 + 1 = ((c + 1 : Nat) : Int) + 1 := by push_cast; ring
    rw [librdf_query_virtuoso_results_next_decode] at h
    simp only [hcol, hnext] at h
    rcases hg : drv.v_GetDataCHAR ((c : Int) + 1) d with ⟨⟨data, is_null⟩, dg⟩
    simp only [hg] at h
    have step : ∀ (value : Option librdf_node) (d2 : D),
        librdf_query_virtuoso_results_next_decode drv n (((c + 1 : Nat) : Int) + 1)
          (colValues.set c value) d2 = (true, colValues1, d1) →
        (∀ m, librdf_query_virtuoso_results_next_decode drv (m + 1) ((c : Int) + 1) colValues d
          = librdf_query_virtuoso_results_next_decode drv m (((c + 1 : Nat) : Int) + 1)
              (colValues.set c value) d2) →
        colValues1.length = colValues.length ∧
        (∀ j, j < c ∨ c + (n + 1) ≤ j → colValues1.getD j none = colValues.getD j none) ∧
        (c < colValues.length → colValues1.getD c none = value) ∧
        ∀ m, m < n → c + (m + 1) < colValues.length →
          ((drv.v_GetDataCHAR ((c : Int) + 1 + (m + 1 : Nat))
              (librdf_query_virtuoso_results_next_decode drv (m + 1) ((c : Int) + 1) colValues
                d).2.2).1.2 = true →
            colValues1.getD (c + (m + 1)) none = none) ∧
          (∀ data,
            (drv.v_GetDataCHAR ((c : Int) + 1 + (m + 1 : Nat))
              (librdf_query_virtuoso_results_next_decode drv (m + 1) ((c : Int) + 1) colValues
                d).2.2).1 = (some data, false) →
            colValues1.getD (c + (m + 1)) none
              = (drv.v_rdf2node ((c : Int) + 1 + (m + 1 : Nat)) data
                  (drv.v_GetDataCHAR ((c : Int) + 1 + (m + 1 : Nat))
                    (librdf_query_virtuoso_results_next_decode drv (m + 1) ((c : Int) + 1)
                      colValues d).2.2).2).1) ∧
          (drv.v_GetDataCHAR ((c : Int) + 1 + (m + 1 : Nat))
            (librdf_query_virtuoso_results_next_decode drv (m + 1) ((c : Int) + 1) colValues
              d).2.2).1 ≠ (none, false) := by
      intro value d2 htail hunfold
      obtain ⟨hl, hf, hm⟩ := ih (c + 1) _ _ _ _ htail
      refine ⟨by simpa using hl, ?_, ?_, ?_⟩
      · intro j hj
        rw [hf j (by omega)]
        simp only [List.getD_eq_getElem?_getD, List.getElem?_set]
        rw [if_neg (by omega)]
      · intro hc
        rw [hf c (by omega)]
        simp [List.getD_eq_getElem?_getD, List.getElem?_set, hc]
      · intro m hmn hlen
        have hidx : c + (m + 1) = c + 1 + m := by omega
        have hcast : (c : Int) + 1 + ((m + 1 : Nat) : Int) = ((c + 1 : Nat) : Int) + 1 + m := by
          push_cast; ring
        rw [hunfold m, hidx, hcast]
        exact hm m hmn (by simpa using (by omega : c + 1 + m < colValues.length))
    have hzero : (c : Int) + 1 + ((0 : Nat) : Int) = (c : Int) + 1 := by simp
    cases is_null with
    | false =>
      cases data with
      | none => simp at h
      | some data =>
        rcases hr : drv.v_rdf2node ((c : Int) + 1) data dg with ⟨node, dr⟩
        simp only [hr] at h
        cases node with
        | none => simp at h
        | some node =>
          obtain ⟨hl, hf, h0, hs⟩ := step (some node) dr h (by
            intro m
            rw [librdf_query_virtuoso_results_next_decode]
            simp only [hcol, hnext, hg, hr])
          refine ⟨hl, hf, ?_⟩
          intro m hm hlen
          cases m with
          | zero =>
            simp only [librdf_query_virtuoso_results_next_decode, hzero, hg, Nat.add_zero]
            refine ⟨fun hx => by simp at hx, fun data1 hx => ?_, by simp⟩
            simp only [Prod.mk.injEq, Option.some.injEq, and_true] at hx
            subst hx
            rw [hr]
            exact h0 (by omega)
          | succ m => exact hs m (by omega) hlen
    | true =>
      have h2 : librdf_query_virtuoso_results_next_decode drv n (((c + 1 : Nat) : Int) + 1)
          (colValues.set c none) dg = (true, colValues1, d1) := by
        cases data <;> exact h
      obtain ⟨hl, hf, h0, hs⟩ := step none dg h2 (by
        intro m
        rw [librdf_query_virtuoso_results_next_decode]
        simp only [hcol, hnext, hg])
      refine ⟨hl, hf, ?_⟩
      intro m hm hlen
      cases m with
      | zero =>
        simp only [librdf_query_virtuoso_results_next_decode, hzero, hg, Nat.add_zero]
        refine ⟨fun _ => h0 (by omega), fun data1 hx => by simp at hx, by simp⟩
      | succ m => exact hs m (by omega) hlen

/-- What the release of the old arrays on entry of execute comes to. -/
theorem virtuoso_free_result_entry (context : librdf_query_virtuoso_context)
    (model : Option Nat) (log : List Released) :
    (virtuoso_free_result
      { context with
        model := model, numCols := 0, failed := false, eof := true, row_count := 0,
        limit := -1, offset := -1 } log).2
      = librdf_query_virtuoso_execute_entry_log context log := by
  cases context with
  | mk qs uri lang rt nc names values failed eof rows limit offset results vc storage model0 =>
    cases names <;> cases values <;>
      simp [virtuoso_free_result, librdf_query_virtuoso_execute_entry_log,
        virtuoso_free_result_names, virtuoso_free_result_values]

/-- An execution whose submission and column introspection succeed with at least one
column ends with `librdf_query_virtuoso_results_next` on the context set up for the
first row, and fails exactly when that call returns 2. -/
theorem execute_with_columns {D : Type} (drv : virtuoso_driver D)
    (context : librdf_query_virtuoso_context) (model : Option Nat) (calloc_name : Int → Bool)
    (rasqal_results : Option Nat) (numCols : Int) (d : D) (log : List Released)
    (vc storage : Nat) (query_string : List Char) (hvc : context.vc = some vc)
    (hstorage : context.storage = some storage)
    (hquery : context.query_string = some query_string)
    (hexec : SQL_SUCCEEDED (drv.SQLExecDirect (pref ++ query_string) (drv.SQLCloseCursor d)).1
      = true)
    (hcount : SQL_SUCCEEDED (drv.SQLNumResultCols
      (drv.SQLExecDirect (pref ++ query_string) (drv.SQLCloseCursor d)).2).1.1 = true)
    (hcols : 0 < (drv.SQLNumResultCols
      (drv.SQLExecDirect (pref ++ query_string) (drv.SQLCloseCursor d)).2).1.2)
    (colNames : List String) (d2 : D)
    (hnames : librdf_query_virtuoso_execute_names drv (some storage) calloc_name
      (drv.SQLNumResultCols
        (drv.SQLExecDirect (pref ++ query_string) (drv.SQLCloseCursor d)).2).1.2.toNat 1 []
      (drv.SQLNumResultCols
        (drv.SQLExecDirect (pref ++ query_string) (drv.SQLCloseCursor d)).2).2
      = Outcome.returned (true, colNames, d2)) :
    librdf_query_virtuoso_execute drv context model true true true calloc_name rasqal_results
        true numCols d log
      = match librdf_query_virtuoso_results_next drv
            (librdf_query_virtuoso_execute_ready context model
              (drv.SQLNumResultCols
                (drv.SQLExecDirect (pref ++ query_string) (drv.SQLCloseCursor d)).2).1.2
              colNames rasqal_results) numCols d2
            (librdf_query_virtuoso_execute_entry_log context log) with
        | Outcome.returned (rc, context3, d3, log3) =>
          if rc = 2 then librdf_query_virtuoso_execute_error context3 true d3 log3
          else Outcome.returned (true, context3, d3, log3 ++ [Released.command])
        | Outcome.aborted => Outcome.aborted
        | Outcome.undefined => Outcome.undefined := by
  unfold librdf_query_virtuoso_execute
  simp only [virtuoso_free_result_entry, virtuoso_free_result_fst]
  simp only [hvc, hstorage, hquery, hexec, hcount,
    librdf_query_virtuoso_execute_columns, hcols, hnames, Bool.not_true, Bool.false_eq_true,
    if_false, if_true, gt_iff_lt, librdf_query_virtuoso_execute_ready]

/-- `librdf_query_virtuoso_results_next` on the context that execute has set up for
the first row, whatever the value of its local `numCols`: the cells are all empty, so
nothing is released, and the row is fetched and decoded. -/
theorem results_next_ready {D : Type} (drv : virtuoso_driver D)
    (context : librdf_query_virtuoso_context) (model : Option Nat) (n : Int)
    (colNames : List String) (rasqal_results : Option Nat) (numCols : Int) (d : D)
    (log : List Released) (vc storage : Nat) (hvc : context.vc = some vc)
    (hstorage : context.storage = some storage) (hn : 0 < n) :
    librdf_query_virtuoso_results_next drv
        (librdf_query_virtuoso_execute_ready context model n colNames rasqal_results) numCols d
        log
      = if (drv.SQLFetch d).1 = SQL_NO_DATA_FOUND then
          Outcome.returned
            (1, { librdf_query_virtuoso_execute_ready context model n colNames rasqal_results
                  with eof := true }, (drv.SQLFetch d).2, log)
        else if (drv.SQLFetch d).1 ≠ SQL_SUCCESS ∧ (drv.SQLFetch d).1 ≠ SQL_SUCCESS_WITH_INFO then
          Outcome.returned
            (2, librdf_query_virtuoso_execute_ready context model n colNames rasqal_results,
             (rdf_virtuoso_ODBC_Errors drv "SQLFetch" (drv.SQLFetch d).2).2, log)
        else if (librdf_query_virtuoso_results_next_decode drv n.toNat 1
            (List.replicate (n + 1).toNat none) (drv.SQLFetch d).2).1 then
          Outcome.returned
            (0, { librdf_query_virtuoso_execute_ready context model n colNames rasqal_results
                  with
                  colValues := some (librdf_query_virtuoso_results_next_decode drv n.toNat 1
                    (List.replicate (n + 1).toNat none) (drv.SQLFetch d).2).2.1,
                  row_count := 1 },
             (librdf_query_virtuoso_results_next_decode drv n.toNat 1
               (List.replicate (n + 1).toNat none) (drv.SQLFetch d).2).2.2, log)
        else
          Outcome.returned
            (2, { librdf_query_virtuoso_execute_ready context model n colNames rasqal_results
                  with
                  colValues := some (librdf_query_virtuoso_results_next_decode drv n.toNat 1
                    (List.replicate (n + 1).toNat none) (drv.SQLFetch d).2).2.1 },
             (librdf_query_virtuoso_results_next_decode drv n.toNat 1
               (List.replicate (n + 1).toNat none) (drv.SQLFetch d).2).2.2, log) := by
  have hrel : ∀ k, librdf_query_virtuoso_results_next_release k 0
      (List.replicate (n + 1).toNat (none : Option librdf_node)) log
        = (List.replicate (n + 1).toNat none, log) := fun k =>
    results_next_release_none k 0 _ log (fun j => by
      simp only [List.getD_eq_getElem?_getD, List.getElem?_replicate]
      split <;> rfl)
  have hn1 : ¬ n ≤ 0 := not_le.2 hn
  unfold librdf_query_virtuoso_results_next
  by_cases hl : numCols ≤ 0
  · simp only [librdf_query_virtuoso_execute_ready, hvc, hstorage, hl, hn1, if_true, if_false,
      Bool.or_self, Bool.false_eq_true, zero_add]
  · simp only [librdf_query_virtuoso_execute_ready, hvc, hstorage, hl, hn1, hrel, if_false,
      Bool.or_self, Bool.false_eq_true, zero_add]

/-- The decoding loop of `librdf_query_virtuoso_results_next` over a whole row, when
it runs to its end: cell `i` of the first `n` is empty when the driver reported a
null for column `i + 1` and otherwise holds the node decoded from the data the driver
gave for that column, in the driver's world as the columns before it left it, and
no column was without data unless it was null; the cells after them are untouched. -/
theorem results_next_decode_row {D : Type} (drv : virtuoso_driver D) (n : Nat)
    (colValues : List (Option librdf_node)) (d : D)
    (h : (librdf_query_virtuoso_results_next_decode drv n 1 colValues d).1 = true) :
    (∀ j, n ≤ j →
      (librdf_query_virtuoso_results_next_decode drv n 1 colValues d).2.1.getD j none
        = colValues.getD j none) ∧
    ∀ i, i < n → i < colValues.length →
      ((drv.v_GetDataCHAR ((i : Int) + 1)
          (librdf_query_virtuoso_results_next_decode drv i 1 colValues d).2.2).1.2 = true →
        (librdf_query_virtuoso_results_next_decode drv n 1 colValues d).2.1.getD i none = none) ∧
      (∀ data,
        (drv.v_GetDataCHAR ((i : Int) + 1)
          (librdf_query_virtuoso_results_next_decode drv i 1 colValues d).2.2).1
          = (some data, false) →
        (librdf_query_virtuoso_results_next_decode drv n 1 colValues d).2.1.getD i none
          = (drv.v_rdf2node ((i : Int) + 1) data
              (drv.v_GetDataCHAR ((i : Int) + 1)
                (librdf_query_virtuoso_results_next_decode drv i 1 colValues d).2.2).2).1) ∧
      (drv.v_GetDataCHAR ((i : Int) + 1)
        (librdf_query_virtuoso_results_next_decode drv i 1 colValues d).2.2).1
        ≠ (none, false) := by
  have h1 : ((0 : Nat) : Int) + 1 = 1 := rfl
  have hc := results_next_decode_cells drv n 0 colValues d
    (librdf_query_virtuoso_results_next_decode drv n 1 colValues d).2.1
    (librdf_query_virtuoso_results_next_decode drv n 1 colValues d).2.2
    (by rw [h1, ← h])
  rw [h1] at hc
  refine ⟨fun j hj => hc.2.1 j (Or.inr (by omega)), fun i hi hlen => ?_⟩
  have hm := hc.2.2 i hi (by omega)
  have hi1 : (1 : Int) + (i : Int) = (i : Int) + 1 := by ring
  simp only [Nat.zero_add, hi1] at hm
  exact hm

/-- Whether the decoding loop runs to its end, and the driver's world it leaves, do
not depend on the cells it writes to. -/
theorem results_next_decode_cells_irrelevant {D : Type} (drv : virtuoso_driver D)
    (remaining : Nat) :
    ∀ (col : Int) (colValues colValues1 : List (Option librdf_node)) (d : D),
      (librdf_query_virtuoso_results_next_decode drv remaining col colValues d).1
        = (librdf_query_virtuoso_results_next_decode drv remaining col colValues1 d).1 ∧
      (librdf_query_virtuoso_results_next_decode drv remaining col colValues d).2.2
        = (librdf_query_virtuoso_results_next_decode drv remaining col colValues1 d).2.2 := by
  induction remaining with
  | zero => intro col colValues colValues1 d; exact ⟨rfl, rfl⟩
  | succ n ih =>
    intro col colValues colValues1 d
    rw [librdf_query_virtuoso_results_next_decode, librdf_query_virtuoso_results_next_decode]
    rcases hg : drv.v_GetDataCHAR col d with ⟨⟨data, is_null⟩, dg⟩
    cases is_null with
    | true => cases data <;> exact ih _ _ _ _
    | false =>
      cases data with
      | none => exact ⟨rfl, rfl⟩
      | some data =>
        rcases hr : drv.v_rdf2node col data dg with ⟨node, dr⟩
        cases node with
        | none => simp only [hr, and_self]
        | some node => simp only [hr]; exact ih _ _ _ _

/-- The release loop of `librdf_query_virtuoso_results_next` keeps the length of the
cell array. -/
theorem results_next_release_length (remaining : Nat) :
    ∀ (col : Nat) (colValues : List (Option librdf_node)) (log : List Released),
      (librdf_query_virtuoso_results_next_release remaining col colValues log).1.length
        = colValues.length := by
  induction remaining with
  | zero => intro col colValues log; rfl
  | succ n ih =>
    intro col colValues log
    rw [librdf_query_virtuoso_results_next_release]
    split
    · rw [ih]; simp
    · rw [ih]

/-- When `librdf_query_virtuoso_results_next` returns 0 on a context with columns, the
decoding loop ran to its end on a cell array of the length of the old one, and its
cells are the new cells of the context. -/
theorem results_next_zero {D : Type} (drv : virtuoso_driver D)
    (context : librdf_query_virtuoso_context) (numCols : Int) (d : D) (log : List Released)
    (colValues : List (Option librdf_node)) (hcells : context.colValues = some colValues)
    (hcols : 0 < context.numCols) (context1 : librdf_query_virtuoso_context) (d1 : D)
    (log1 : List Released)
    (h : librdf_query_virtuoso_results_next drv context numCols d log
      = Outcome.returned (0, context1, d1, log1)) :
    ∃ colValues0 : List (Option librdf_node),
      colValues0.length = colValues.length ∧
      (librdf_query_virtuoso_results_next_decode drv context.numCols.toNat 1 colValues0
        (drv.SQLFetch d).2).1 = true ∧
      context1.colValues
        = some (librdf_query_virtuoso_results_next_decode drv context.numCols.toNat 1 colValues0
            (drv.SQLFetch d).2).2.1 := by
  have hpos : ¬ context.numCols ≤ 0 := not_le.2 hcols
  unfold librdf_query_virtuoso_results_next at h
  cases hv : context.vc with
  | none =>
    by_cases hl : numCols ≤ 0 <;> simp only [hcells, hl, hv, if_true, if_false] at h <;>
      split at h <;> simp at h
  | some vc =>
    cases hs : context.storage with
    | none =>
      by_cases hl : numCols ≤ 0 <;>
        simp only [hcells, hl, hv, hs, hpos, if_true, if_false] at h <;>
        repeat' split at h
      all_goals simp at h
    | some storage =>
      by_cases hl : numCols ≤ 0
      · simp only [hcells, hl, hv, hs, hpos, if_true, if_false] at h
        repeat' split at h
        all_goals first
          | (simp only [Outcome.returned.injEq, Prod.mk.injEq, true_and] at h
             refine ⟨colValues, rfl, by assumption, ?_⟩
             rw [← h.1])
          | (simp at h)
      · simp only [hcells, hl, hv, hs, hpos, if_true, if_false] at h
        repeat' split at h
        all_goals first
          | (simp only [Outcome.returned.injEq, Prod.mk.injEq, true_and] at h
             refine ⟨_, results_next_release_length numCols.toNat 0 colValues log,
               by assumption, ?_⟩
             rw [← h.1])
          | (simp at h)

/-- An execution whose submission and column introspection succeed with at least one
column, over a cursor whose first row is fetched and decodes to its end, returns a
results object on the context holding that row. -/
theorem execute_returns_first_row {D : Type} (drv : virtuoso_driver D)
    (context : librdf_query_virtuoso_context) (model : Option Nat) (calloc_name : Int → Bool)
    (rasqal_results : Option Nat) (numCols : Int) (d : D) (log : List Released)
    (vc storage : Nat) (query_string : List Char) (n : Int) (colNames : List String) (d1 d2 : D)
    (hvc : context.vc = some vc) (hstorage : context.storage = some storage)
    (hquery : context.query_string = some query_string)
    (hexec : SQL_SUCCEEDED (drv.SQLExecDirect (pref ++ query_string) (drv.SQLCloseCursor d)).1
      = true)
    (hcount : SQL_SUCCEEDED (drv.SQLNumResultCols
      (drv.SQLExecDirect (pref ++ query_string) (drv.SQLCloseCursor d)).2).1.1 = true)
    (hn : (drv.SQLNumResultCols
      (drv.SQLExecDirect (pref ++ query_string) (drv.SQLCloseCursor d)).2).1.2 = n)
    (hd1 : (drv.SQLNumResultCols
      (drv.SQLExecDirect (pref ++ query_string) (drv.SQLCloseCursor d)).2).2 = d1)
    (hcols : 0 < n)
    (hnames : librdf_query_virtuoso_execute_names drv (some storage) calloc_name n.toNat 1 [] d1
      = Outcome.returned (true, colNames, d2))
    (hfetch : SQL_SUCCEEDED (drv.SQLFetch d2).1 = true)
    (hdecode : (librdf_query_virtuoso_results_next_decode drv n.toNat 1
      (List.replicate (n + 1).toNat none) (drv.SQLFetch d2).2).1 = true) :
    librdf_query_virtuoso_execute drv context model true true true calloc_name
        rasqal_results true numCols d log
      = Outcome.returned
          (true,
           { librdf_query_virtuoso_execute_ready context model n colNames rasqal_results with
             colValues := some (librdf_query_virtuoso_results_next_decode drv n.toNat 1
               (List.replicate (n + 1).toNat none) (drv.SQLFetch d2).2).2.1,
             row_count := 1 },
           (librdf_query_virtuoso_results_next_decode drv n.toNat 1
             (List.replicate (n + 1).toNat none) (drv.SQLFetch d2).2).2.2,
           librdf_query_virtuoso_execute_entry_log context log ++ [Released.command]) := by
  subst hn hd1
  have he := execute_with_columns drv context model calloc_name rasqal_results numCols d log
    vc storage query_string hvc hstorage hquery hexec hcount hcols colNames d2 hnames
  have hr := results_next_ready drv context model _ colNames rasqal_results numCols d2
    (librdf_query_virtuoso_execute_entry_log context log) vc storage hvc hstorage hcols
  have hrc : (drv.SQLFetch d2).1 = 0 ∨ (drv.SQLFetch d2).1 = 1 := by
    simpa [SQL_SUCCEEDED] using hfetch
  have h1 : ¬ (drv.SQLFetch d2).1 = SQL_NO_DATA_FOUND := by
    rcases hrc with h | h <;> rw [h] <;> decide
  have h2 : ¬ ((drv.SQLFetch d2).1 ≠ SQL_SUCCESS ∧
      (drv.SQLFetch d2).1 ≠ SQL_SUCCESS_WITH_INFO) := by
    rcases hrc with h | h <;> rw [h] <;> decide
  rw [he, hr, if_neg h1, if_neg h2, if_pos hdecode]
  rfl

/-! ## The eager first row (C21) -/

/-- C21: an execution whose submission and column introspection succeed with `n > 0`
columns sets the shape flags to the classification with BINDINGS added and fetches
the first row before it returns. With no row in the cursor it returns a results
object on an exhausted context whose count of rows is 0. With a row that decodes to
its end it returns a results object on a context that is not exhausted, whose count
of rows is 1 and whose cells hold the decoded row: cell `i` is empty when the driver
reported a null for column `i + 1` and otherwise holds the node decoded from the data
of that column. -/
theorem execute_fetches_first_row {D : Type} (drv : virtuoso_driver D)
    (context : librdf_query_virtuoso_context) (model : Option Nat) (calloc_name : Int → Bool)
    (rasqal_results : Option Nat) (numCols : Int) (d : D) (log : List Released)
    (vc storage : Nat) (query_string : List Char) (n : Int) (colNames : List String) (d1 d2 : D)
    (hvc : context.vc = some vc) (hstorage : context.storage = some storage)
    (hquery : context.query_string = some query_string)
    (hexec : SQL_SUCCEEDED (drv.SQLExecDirect (pref ++ query_string) (drv.SQLCloseCursor d)).1
      = true)
    (hcount : SQL_SUCCEEDED (drv.SQLNumResultCols
      (drv.SQLExecDirect (pref ++ query_string) (drv.SQLCloseCursor d)).2).1.1 = true)
    (hn : (drv.SQLNumResultCols
      (drv.SQLExecDirect (pref ++ query_string) (drv.SQLCloseCursor d)).2).1.2 = n)
    (hd1 : (drv.SQLNumResultCols
      (drv.SQLExecDirect (pref ++ query_string) (drv.SQLCloseCursor d)).2).2 = d1)
    (hcols : 0 < n)
    (hnames : librdf_query_virtuoso_execute_names drv (some storage) calloc_name n.toNat 1 [] d1
      = Outcome.returned (true, colNames, d2)) :
    (librdf_query_virtuoso_execute_ready context model n colNames rasqal_results).result_type
      = context.result_type ||| VQUERY_RESULTS_BINDINGS ∧
    ((drv.SQLFetch d2).1 = SQL_NO_DATA_FOUND →
      librdf_query_virtuoso_execute drv context model true true true calloc_name
          rasqal_results true numCols d log
        = Outcome.returned
            (true,
             { librdf_query_virtuoso_execute_ready context model n colNames rasqal_results with
               eof := true },
             (drv.SQLFetch d2).2,
             librdf_query_virtuoso_execute_entry_log context log ++ [Released.command]) ∧
      librdf_query_virtuoso_results_finished
        { librdf_query_virtuoso_execute_ready context model n colNames rasqal_results with
          eof := true } = 1 ∧
      ({ librdf_query_virtuoso_execute_ready context model n colNames rasqal_results with
          eof := true } : librdf_query_virtuoso_context).row_count = 0) ∧
    (SQL_SUCCEEDED (drv.SQLFetch d2).1 = true →
      (librdf_query_virtuoso_results_next_decode drv n.toNat 1
        (List.replicate (n + 1).toNat none) (drv.SQLFetch d2).2).1 = true →
      librdf_query_virtuoso_execute drv context model true true true calloc_name
          rasqal_results true numCols d log
        = Outcome.returned
            (true,
             { librdf_query_virtuoso_execute_ready context model n colNames rasqal_results with
               colValues := some (librdf_query_virtuoso_results_next_decode drv n.toNat 1
                 (List.replicate (n + 1).toNat none) (drv.SQLFetch d2).2).2.1,
               row_count := 1 },
             (librdf_query_virtuoso_results_next_decode drv n.toNat 1
               (List.replicate (n + 1).toNat none) (drv.SQLFetch d2).2).2.2,
             librdf_query_virtuoso_execute_entry_log context log ++ [Released.command]) ∧
      librdf_query_virtuoso_results_finished
        { librdf_query_virtuoso_execute_ready context model n colNames rasqal_results with
          colValues := some (librdf_query_virtuoso_results_next_decode drv n.toNat 1
            (List.replicate (n + 1).toNat none) (drv.SQLFetch d2).2).2.1,
          row_count := 1 } = 0 ∧
      librdf_query_virtuoso_results_get_count
        { librdf_query_virtuoso_execute_ready context model n colNames rasqal_results with
          colValues := some (librdf_query_virtuoso_results_next_decode drv n.toNat 1
            (List.replicate (n + 1).toNat none) (drv.SQLFetch d2).2).2.1,
          row_count := 1 } = 1 ∧
      ∀ i, i < n.toNat →
        ((drv.v_GetDataCHAR ((i : Int) + 1)
            (librdf_query_virtuoso_results_next_decode drv i 1
              (List.replicate (n + 1).toNat none) (drv.SQLFetch d2).2).2.2).1.2 = true →
          (librdf_query_virtuoso_results_next_decode drv n.toNat 1
            (List.replicate (n + 1).toNat none) (drv.SQLFetch d2).2).2.1.getD i none = none) ∧
        (∀ data,
          (drv.v_GetDataCHAR ((i : Int) + 1)
            (librdf_query_virtuoso_results_next_decode drv i 1
              (List.replicate (n + 1).toNat none) (drv.SQLFetch d2).2).2.2).1
            = (some data, false) →
          (librdf_query_virtuoso_results_next_decode drv n.toNat 1
            (List.replicate (n + 1).toNat none) (drv.SQLFetch d2).2).2.1.getD i none
            = (drv.v_rdf2node ((i : Int) + 1) data
                (drv.v_GetDataCHAR ((i : Int) + 1)
                  (librdf_query_virtuoso_results_next_decode drv i 1
                    (List.replicate (n + 1).toNat none) (drv.SQLFetch d2).2).2.2).2).1)) := by
  subst hn hd1
  have he := execute_with_columns drv context model calloc_name rasqal_results numCols d log
    vc storage query_string hvc hstorage hquery hexec hcount hcols colNames d2 hnames
  have hr := results_next_ready drv context model _ colNames rasqal_results numCols d2
    (librdf_query_virtuoso_execute_entry_log context log) vc storage hvc hstorage hcols
  refine ⟨rfl, fun hfetch => ⟨?_, ?_, rfl⟩, fun hfetch hdecode => ⟨?_, ?_, ?_, ?_⟩⟩
  · rw [he, hr, if_pos hfetch]
    rfl
  · simp [librdf_query_virtuoso_results_finished]
  · have hrc : (drv.SQLFetch d2).1 = 0 ∨ (drv.SQLFetch d2).1 = 1 := by
      simpa [SQL_SUCCEEDED] using hfetch
    have h1 : ¬ (drv.SQLFetch d2).1 = SQL_NO_DATA_FOUND := by
      rcases hrc with h | h <;> rw [h] <;> decide
    have h2 : ¬ ((drv.SQLFetch d2).1 ≠ SQL_SUCCESS ∧
        (drv.SQLFetch d2).1 ≠ SQL_SUCCESS_WITH_INFO) := by
      rcases hrc with h | h <;> rw [h] <;> decide
    rw [he, hr, if_neg h1, if_neg h2, if_pos hdecode]
    rfl
  · simp [librdf_query_virtuoso_results_finished, librdf_query_virtuoso_execute_ready]
  · have hpos : ¬ (drv.SQLNumResultCols
        (drv.SQLExecDirect (pref ++ query_string) (drv.SQLCloseCursor d)).2).1.2 ≤ 0 :=
      not_le.2 hcols
    simp [librdf_query_virtuoso_results_get_count, librdf_query_virtuoso_execute_ready, hpos]
  · intro i hi
    have hrow := (results_next_decode_row drv _ _ _ hdecode).2 i hi
      (by simp only [List.length_replicate]; omega)
    exact ⟨hrow.1, hrow.2.1⟩

/-- C21 with the example driver on a SELECT of two columns: with two rows in the
cursor the execution returns on the first row, decoded, with a count of 1 and the
second row still in the cursor; with no row it returns on an exhausted context with
a count of 0. -/
theorem execute_fetches_first_row_witness :
    librdf_query_virtuoso_execute cursor_driver (example_query "SELECT ?s ?o") none true true
        true (fun _ => true) (some 7) true 0
        (cursor_state.start ["s", "o"]
          [some [cursor_cell.chars "a", cursor_cell.null],
           some [cursor_cell.chars "b", cursor_cell.chars "c"]]) []
      = Outcome.returned
          (true,
           { example_query "SELECT ?s ?o" with
             numCols := 2, colNames := some ["s", "o"],
             colValues := some [some (librdf_node.resource "a"), none, none],
             result_type := VQUERY_RESULTS_BINDINGS,
             eof := false, row_count := 1, limit := -1, offset := -1, results := some 7 },
           { cursor_state.start ["s", "o"]
               [some [cursor_cell.chars "b", cursor_cell.chars "c"]] with
             current := [cursor_cell.chars "a", cursor_cell.null], fetch_calls := 1,
             close_calls := 1 },
           [Released.command]) ∧
    librdf_query_virtuoso_execute cursor_driver (example_query "SELECT ?s ?o") none true true
        true (fun _ => true) (some 7) true 0 (cursor_state.start ["s", "o"] []) []
      = Outcome.returned
          (true,
           { example_query "SELECT ?s ?o" with
             numCols := 2, colNames := some ["s", "o"], colValues := some [none, none, none],
             result_type := VQUERY_RESULTS_BINDINGS,
             eof := true, row_count := 0, limit := -1, offset := -1, results := some 7 },
           { cursor_state.start ["s", "o"] [] with fetch_calls := 1, close_calls := 1 },
           [Released.command]) :=
  ⟨((execute_fetches_first_row cursor_driver (example_query "SELECT ?s ?o") none
      (fun _ => true) (some 7) 0
      (cursor_state.start ["s", "o"]
        [some [cursor_cell.chars "a", cursor_cell.null],
         some [cursor_cell.chars "b", cursor_cell.chars "c"]]) [] 1 1 "SELECT ?s ?o".toList 2
      ["s", "o"]
      { cursor_state.start ["s", "o"]
          [some [cursor_cell.chars "a", cursor_cell.null],
           some [cursor_cell.chars "b", cursor_cell.chars "c"]] with close_calls := 1 }
      { cursor_state.start ["s", "o"]
          [some [cursor_cell.chars "a", cursor_cell.null],
           some [cursor_cell.chars "b", cursor_cell.chars "c"]] with close_calls := 1 }
      rfl rfl (by decide) (by decide) (by decide) (by decide) (by decide) (by decide)
      (by decide)).2.2 (by decide) (by decide)).1,
   ((execute_fetches_first_row cursor_driver (example_query "SELECT ?s ?o") none
      (fun _ => true) (some 7) 0 (cursor_state.start ["s", "o"] []) [] 1 1
      "SELECT ?s ?o".toList 2 ["s", "o"]
      { cursor_state.start ["s", "o"] [] with close_calls := 1 }
      { cursor_state.start ["s", "o"] [] with close_calls := 1 }
      rfl rfl (by decide) (by decide) (by decide) (by decide) (by decide) (by decide)
      (by decide)).2.1 (by decide)).1⟩

/-! ## Rows of the graph stream that do not decode (C22) -/

/-- What `librdf_query_virtuoso_query_results_update_statement` leaves of the stream
context: the finished flag is as it was, and with the return value 1 there is no
current statement. -/
theorem update_statement_frame {D : Type} (drv : virtuoso_driver D)
    (scontext : librdf_query_virtuoso_stream_context)
    (qcontext : librdf_query_virtuoso_context) (new_statement : Bool) (d : D)
    (log : List Released) (rc : Int) (scontext1 : librdf_query_virtuoso_stream_context)
    (d1 : D) (log1 : List Released)
    (h : librdf_query_virtuoso_query_results_update_statement drv scontext qcontext
      new_statement d log = Outcome.returned (rc, scontext1, d1, log1)) :
    scontext1.finished = scontext.finished ∧ (rc = 1 → scontext1.statement = none) := by
  unfold librdf_query_virtuoso_query_results_update_statement at h
  simp only [librdf_query_virtuoso_query_results_update_statement_fail] at h
  by_cases hg : scontext.numCols > 3
  · cases hc : (librdf_query_virtuoso_query_results_update_statement_cell drv 1 d).1 with
    | none =>
      simp only [hg, hc, if_true] at h
      repeat' split at h
      all_goals first
        | (cases h; simp)
        | (simp at h)
    | some node =>
      simp only [hg, hc, if_true] at h
      repeat' split at h
      all_goals first
        | (cases h; simp)
        | (simp at h)
  · simp only [hg, if_false] at h
    repeat' split at h
    all_goals first
      | (cases h; simp)
      | (simp at h)

/-- C22: a row of the graph stream that the driver fetched and that
`librdf_query_virtuoso_query_results_update_statement` could not decode (it returns
1) does not end the stream: `librdf_query_virtuoso_query_results_next_statement`
drops the return value, returns 0, the stream does not report its end and has no
current statement. -/
theorem next_statement_ignores_undecodable_row {D : Type} (drv : virtuoso_driver D)
    (scontext : librdf_query_virtuoso_stream_context)
    (qcontext : librdf_query_virtuoso_context) (new_statement : Bool) (d : D)
    (log : List Released) (vc : Nat) (hfinished : scontext.finished = false)
    (hvc : qcontext.vc = some vc) (hfetch : SQL_SUCCEEDED (drv.SQLFetch d).1 = true)
    (scontext1 : librdf_query_virtuoso_stream_context) (d1 : D) (log1 : List Released)
    (hupdate : librdf_query_virtuoso_query_results_update_statement drv
        { scontext with statement := none } qcontext new_statement (drv.SQLFetch d).2
        (scontext.statement.elim log (fun statement => librdf_free_statement statement log))
      = Outcome.returned (1, scontext1, d1, log1)) :
    librdf_query_virtuoso_query_results_next_statement drv scontext qcontext new_statement d log
      = Outcome.returned (0, scontext1, d1, log1) ∧
    librdf_query_virtuoso_query_results_end_of_stream scontext1 = false ∧
    librdf_query_virtuoso_query_results_get_statement scontext1
      LIBRDF_ITERATOR_GET_METHOD_GET_OBJECT = none := by
  have hf := update_statement_frame _ _ _ _ _ _ _ _ _ _ hupdate
  have hfin : scontext1.finished = false := by simpa [hfinished] using hf.1
  have hrc : (drv.SQLFetch d).1 = 0 ∨ (drv.SQLFetch d).1 = 1 := by
    simpa [SQL_SUCCEEDED] using hfetch
  have h1 : ¬ (drv.SQLFetch d).1 = SQL_NO_DATA_FOUND := by
    rcases hrc with h | h <;> rw [h] <;> decide
  have h2 : ¬ ((drv.SQLFetch d).1 ≠ SQL_SUCCESS ∧ (drv.SQLFetch d).1 ≠ SQL_SUCCESS_WITH_INFO) := by
    rcases hrc with h | h <;> rw [h] <;> decide
  refine ⟨?_, hfin, ?_⟩
  · have hupdate1 := hupdate
    simp only [hfinished] at hupdate1
    unfold librdf_query_virtuoso_query_results_next_statement
    cases hs : scontext.statement with
    | none =>
      simp only [hs, Option.elim] at hupdate1
      simp only [hfinished, hvc, h1, h2, hupdate1, hfin, Bool.false_eq_true, if_false]
    | some statement =>
      simp only [hs, Option.elim] at hupdate1
      simp only [hfinished, hvc, h1, h2, hupdate1, hfin, Bool.false_eq_true, if_false]
  · simp [librdf_query_virtuoso_query_results_get_statement, hf.2 rfl]

/-- C22 with the example driver: the graph stream over a result of three columns
meets a row whose subject cell is null and goes on as if it were not at its end,
with a second row still in the cursor. -/
theorem next_statement_ignores_undecodable_row_witness :
    librdf_query_virtuoso_query_results_next_statement cursor_driver
        { librdf_query_virtuoso_stream_context.zeroed with numCols := 3 }
        example_triple_context true
        (cursor_state.start []
          [some [cursor_cell.null, cursor_cell.chars "p", cursor_cell.chars "o"],
           some [cursor_cell.chars "s", cursor_cell.chars "p", cursor_cell.chars "o"]]) []
      = Outcome.returned
          (0, { librdf_query_virtuoso_stream_context.zeroed with numCols := 3 },
           { cursor_state.start []
               [some [cursor_cell.chars "s", cursor_cell.chars "p", cursor_cell.chars "o"]] with
             current := [cursor_cell.null, cursor_cell.chars "p", cursor_cell.chars "o"],
             fetch_calls := 1 },
           [Released.statement librdf_new_statement]) ∧
    librdf_query_virtuoso_query_results_end_of_stream
        { librdf_query_virtuoso_stream_context.zeroed with numCols := 3 } = false ∧
    librdf_query_virtuoso_query_results_get_statement
        { librdf_query_virtuoso_stream_context.zeroed with numCols := 3 }
        LIBRDF_ITERATOR_GET_METHOD_GET_OBJECT = none :=
  next_statement_ignores_undecodable_row cursor_driver
    { librdf_query_virtuoso_stream_context.zeroed with numCols := 3 } example_triple_context
    true
    (cursor_state.start []
      [some [cursor_cell.null, cursor_cell.chars "p", cursor_cell.chars "o"],
       some [cursor_cell.chars "s", cursor_cell.chars "p", cursor_cell.chars "o"]]) [] 1
    rfl rfl (by decide) _ _ _ (by decide)

/-! ## Errors met by `librdf_query_virtuoso_results_next` (C23) -/

/-- C23 at a failing input: on a context that is neither failed nor exhausted, over a
cursor whose first fetch reports a driver error and whose second delivers a row,
`librdf_query_virtuoso_results_next` returns 2 and leaves the failed flag clear; the
next call fetches from the driver again and returns 0 on the decoded row. -/
theorem results_next_error_leaves_failed_clear :
    librdf_query_virtuoso_results_next cursor_driver
        { example_context with vc := some 1, storage := some 1 } 2
        (cursor_state.start ["s", "o"]
          [none, some [cursor_cell.chars "c", cursor_cell.chars "d"]]) []
      = Outcome.returned
          (2,
           { example_context with
             vc := some 1, storage := some 1, colValues := some [none, none, none],
             failed := false },
           { cursor_state.start ["s", "o"]
               [some [cursor_cell.chars "c", cursor_cell.chars "d"]] with
             fetch_calls := 1, error_reports := 1 },
           [Released.node (librdf_node.resource "a"), Released.node (librdf_node.blank "b")]) ∧
    librdf_query_virtuoso_results_next cursor_driver
        { example_context with
          vc := some 1, storage := some 1, colValues := some [none, none, none],
          failed := false } 2
        { cursor_state.start ["s", "o"]
            [some [cursor_cell.chars "c", cursor_cell.chars "d"]] with
          fetch_calls := 1, error_reports := 1 }
        [Released.node (librdf_node.resource "a"), Released.node (librdf_node.blank "b")]
      = Outcome.returned
          (0,
           { example_context with
             vc := some 1, storage := some 1,
             colValues := some [some (librdf_node.resource "c"),
               some (librdf_node.resource "d"), none],
             row_count := 1 },
           { cursor_state.start ["s", "o"] [] with
             current := [cursor_cell.chars "c", cursor_cell.chars "d"],
             fetch_calls := 2, error_reports := 1 },
           [Released.node (librdf_node.resource "a"), Released.node (librdf_node.blank "b")]) := by
  decide

/-- C23: on a context that is neither failed nor exhausted,
`librdf_query_virtuoso_results_next` returns 2 when the fetch reports a driver error
and when a cell of the fetched row has no data without being null or does not
decode, but it leaves the failed flag and the end-of-rows flag clear, so that a
later call goes to the driver again. Only `librdf_query_virtuoso_execute` marks the
context failed: when the call it makes for the first row returns 2 it returns no
results object and sets the flag, after which every
`librdf_query_virtuoso_results_next` returns 1 without a call of the driver. -/
theorem results_next_error_returns_two {D : Type} (drv : virtuoso_driver D)
    (context : librdf_query_virtuoso_context) (numCols : Int) (d : D) (log : List Released)
    (vc storage : Nat) (colValues : List (Option librdf_node))
    (hfailed : context.failed = false) (heof : context.eof = false)
    (hvc : context.vc = some vc) (hstorage : context.storage = some storage)
    (hcells : context.colValues = some colValues) :
    ((drv.SQLFetch d).1 ≠ SQL_NO_DATA_FOUND → SQL_SUCCEEDED (drv.SQLFetch d).1 = false →
      ∃ context1 log1,
        librdf_query_virtuoso_results_next drv context numCols d log
          = Outcome.returned
              (2, context1, (rdf_virtuoso_ODBC_Errors drv "SQLFetch" (drv.SQLFetch d).2).2,
               log1) ∧
        context1.failed = false ∧ context1.eof = false) ∧
    (SQL_SUCCEEDED (drv.SQLFetch d).1 = true → 0 < context.numCols →
      (librdf_query_virtuoso_results_next_decode drv context.numCols.toNat 1 colValues
        (drv.SQLFetch d).2).1 = false →
      ∃ context1 log1,
        librdf_query_virtuoso_results_next drv context numCols d log
          = Outcome.returned
              (2, context1,
               (librdf_query_virtuoso_results_next_decode drv context.numCols.toNat 1
                 colValues (drv.SQLFetch d).2).2.2, log1) ∧
        context1.failed = false ∧ context1.eof = false) ∧
    (∀ (model : Option Nat) (calloc_name : Int → Bool) (rasqal_results : Option Nat)
      (query_string : List Char) (colNames : List String) (d2 d3 : D)
      (context3 : librdf_query_virtuoso_context) (log3 : List Released),
      context.query_string = some query_string →
      SQL_SUCCEEDED (drv.SQLExecDirect (pref ++ query_string) (drv.SQLCloseCursor d)).1 = true →
      SQL_SUCCEEDED (drv.SQLNumResultCols
        (drv.SQLExecDirect (pref ++ query_string) (drv.SQLCloseCursor d)).2).1.1 = true →
      0 < (drv.SQLNumResultCols
        (drv.SQLExecDirect (pref ++ query_string) (drv.SQLCloseCursor d)).2).1.2 →
      librdf_query_virtuoso_execute_names drv (some storage) calloc_name
          (drv.SQLNumResultCols
            (drv.SQLExecDirect (pref ++ query_string) (drv.SQLCloseCursor d)).2).1.2.toNat 1 []
          (drv.SQLNumResultCols
            (drv.SQLExecDirect (pref ++ query_string) (drv.SQLCloseCursor d)).2).2
        = Outcome.returned (true, colNames, d2) →
      librdf_query_virtuoso_results_next drv
          (librdf_query_virtuoso_execute_ready context model
            (drv.SQLNumResultCols
              (drv.SQLExecDirect (pref ++ query_string) (drv.SQLCloseCursor d)).2).1.2
            colNames rasqal_results) numCols d2
          (librdf_query_virtuoso_execute_entry_log context log)
        = Outcome.returned (2, context3, d3, log3) →
      ∃ context4 log4,
        librdf_query_virtuoso_execute drv context model true true true calloc_name
            rasqal_results true numCols d log
          = Outcome.returned (false, context4, d3, log4) ∧
        context4.failed = true ∧
        ∀ (numCols1 : Int) (d5 : D) (log5 : List Released),
          librdf_query_virtuoso_results_next drv context4 numCols1 d5 log5
            = Outcome.returned (1, context4, d5, log5)) := by
  refine ⟨fun hnd herr => ?_, fun hok hcols hdecode => ?_, ?_⟩
  · have h2 : (drv.SQLFetch d).1 ≠ SQL_SUCCESS ∧ (drv.SQLFetch d).1 ≠ SQL_SUCCESS_WITH_INFO := by
      simpa [SQL_SUCCEEDED, SQL_SUCCESS, SQL_SUCCESS_WITH_INFO] using herr
    unfold librdf_query_virtuoso_results_next
    by_cases hl : numCols ≤ 0
    · simp only [hfailed, heof, hvc, hstorage, hcells, hl, if_true, if_false,
        Bool.or_self, Bool.false_eq_true]
      rw [if_neg hnd, if_pos h2]
      exact ⟨_, _, rfl, rfl, rfl⟩
    · simp only [hfailed, heof, hvc, hstorage, hcells, hl, if_true, if_false,
        Bool.or_self, Bool.false_eq_true]
      rw [if_neg hnd, if_pos h2]
      exact ⟨_, _, rfl, rfl, rfl⟩
  · have hrc : (drv.SQLFetch d).1 = 0 ∨ (drv.SQLFetch d).1 = 1 := by
      simpa [SQL_SUCCEEDED] using hok
    have h1 : ¬ (drv.SQLFetch d).1 = SQL_NO_DATA_FOUND := by
      rcases hrc with h | h <;> rw [h] <;> decide
    have h2 : ¬ ((drv.SQLFetch d).1 ≠ SQL_SUCCESS ∧
        (drv.SQLFetch d).1 ≠ SQL_SUCCESS_WITH_INFO) := by
      rcases hrc with h | h <;> rw [h] <;> decide
    have hpos : ¬ context.numCols ≤ 0 := not_le.2 hcols
    have hind := fun cells => results_next_decode_cells_irrelevant drv context.numCols.toNat 1
      cells colValues (drv.SQLFetch d).2
    unfold librdf_query_virtuoso_results_next
    by_cases hl : numCols ≤ 0
    · simp only [hfailed, heof, hvc, hstorage, hcells, hl, if_true,
        if_false, Bool.or_self, Bool.false_eq_true]
      rw [if_neg h1, if_neg h2, if_neg hpos, if_neg (by simp [hdecode])]
      exact ⟨_, _, rfl, rfl, rfl⟩
    · simp only [hfailed, heof, hvc, hstorage, hcells, hl, if_true,
        if_false, Bool.or_self, Bool.false_eq_true]
      rw [if_neg h1, if_neg h2, if_neg hpos, if_neg (by simp [(hind _).1, hdecode]),
        (hind _).2]
      exact ⟨_, _, rfl, rfl, rfl⟩
  · intro model calloc_name rasqal_results query_string colNames d2 d3 context3 log3 hquery
      hexec hcount hcols hnames hnext
    have he := execute_with_columns drv context model calloc_name rasqal_results numCols d log
      vc storage query_string hvc hstorage hquery hexec hcount hcols colNames d2 hnames
    rw [hnext] at he
    simp only [if_true, librdf_query_virtuoso_execute_error] at he
    refine ⟨_, _, he, rfl, fun numCols1 d5 log5 => ?_⟩
    simp [librdf_query_virtuoso_results_next, virtuoso_free_result_fst]

/-- C23 with the example driver, on the context that a first execution of a
SELECT of two columns left on its first row: a fetch that reports a driver error
makes `librdf_query_virtuoso_results_next` return 2 with the failed flag clear, and
makes a second execution return no results object with the failed flag set. -/
theorem results_next_error_returns_two_witness :
    (∃ context1 log1,
      librdf_query_virtuoso_results_next cursor_driver
          { example_query "SELECT ?s ?o" with
            numCols := 2, colNames := some ["s", "o"],
            colValues := some [some (librdf_node.resource "a"), none, none],
            result_type := VQUERY_RESULTS_BINDINGS, eof := false, row_count := 1,
            limit := -1, offset := -1, results := some 7 } 2
          (cursor_state.start ["s", "o"] [none]) []
        = Outcome.returned
            (2, context1,
             (rdf_virtuoso_ODBC_Errors cursor_driver "SQLFetch"
               (cursor_driver.SQLFetch (cursor_state.start ["s", "o"] [none])).2).2, log1) ∧
      context1.failed = false ∧ context1.eof = false) ∧
    (∃ context4 log4,
      librdf_query_virtuoso_execute cursor_driver
          { example_query "SELECT ?s ?o" with
            numCols := 2, colNames := some ["s", "o"],
            colValues := some [some (librdf_node.resource "a"), none, none],
            result_type := VQUERY_RESULTS_BINDINGS, eof := false, row_count := 1,
            limit := -1, offset := -1, results := some 7 }
          none true true true (fun _ => true) (some 8) true 2
          (cursor_state.start ["s", "o"] [none]) []
        = Outcome.returned
            (false, context4,
             { cursor_state.start ["s", "o"] [] with
               fetch_calls := 1, close_calls := 1, error_reports := 1 }, log4) ∧
      context4.failed = true ∧
      ∀ (numCols1 : Int) (d5 : cursor_state) (log5 : List Released),
        librdf_query_virtuoso_results_next cursor_driver context4 numCols1 d5 log5
          = Outcome.returned (1, context4, d5, log5)) :=
  have h := results_next_error_returns_two cursor_driver
    { example_query "SELECT ?s ?o" with
      numCols := 2, colNames := some ["s", "o"],
      colValues := some [some (librdf_node.resource "a"), none, none],
      result_type := VQUERY_RESULTS_BINDINGS, eof := false, row_count := 1,
      limit := -1, offset := -1, results := some 7 } 2
    (cursor_state.start ["s", "o"] [none]) [] 1 1
    [some (librdf_node.resource "a"), none, none] rfl rfl rfl rfl rfl
  ⟨h.1 (by decide) (by decide),
   h.2.2 none (fun _ => true) (some 8) "SELECT ?s ?o".toList ["s", "o"]
     { cursor_state.start ["s", "o"] [none] with close_calls := 1 }
     { cursor_state.start ["s", "o"] [] with
       fetch_calls := 1, close_calls := 1, error_reports := 1 }
     { example_query "SELECT ?s ?o" with
       numCols := 2, colNames := some ["s", "o"], colValues := some [none, none, none],
       result_type := VQUERY_RESULTS_BINDINGS, eof := false, row_count := 0,
       limit := -1, offset := -1, results := some 8 }
     [Released.column_names, Released.column_values]
     (by decide) (by decide) (by decide) (by decide) (by decide) (by decide)⟩

/-! ## The cells after a row was fetched (C24) -/

/-- C24: when `librdf_query_virtuoso_results_next` returns 0 on a context with
`n > 0` columns, the count of rows has grown by exactly 1 and, for every column
`i + 1` of the `n`, cell `i` is empty if the driver reported the raw cell of the new
row as null, and otherwise there was data and the cell holds exactly the node decoded
from it; so no cell holds a node of the row before. When the function returns a
value other than 0 the count of rows is as it was. -/
theorem results_next_decodes_row {D : Type} (drv : virtuoso_driver D)
    (context : librdf_query_virtuoso_context) (numCols : Int) (d : D) (log : List Released)
    (colValues : List (Option librdf_node)) (hcells : context.colValues = some colValues)
    (hcols : 0 < context.numCols) (hlength : context.numCols.toNat ≤ colValues.length)
    (rc : Int) (context1 : librdf_query_virtuoso_context) (d1 : D) (log1 : List Released)
    (h : librdf_query_virtuoso_results_next drv context numCols d log
      = Outcome.returned (rc, context1, d1, log1)) :
    (rc = 0 →
      context1.row_count = context.row_count + 1 ∧
      ∃ colValues1, context1.colValues = some colValues1 ∧
        ∀ i, i < context.numCols.toNat →
          ((drv.v_GetDataCHAR ((i : Int) + 1)
              (librdf_query_virtuoso_results_next_decode drv i 1 colValues
                (drv.SQLFetch d).2).2.2).1.2 = true →
            colValues1.getD i none = none) ∧
          (∀ data,
            (drv.v_GetDataCHAR ((i : Int) + 1)
              (librdf_query_virtuoso_results_next_decode drv i 1 colValues
                (drv.SQLFetch d).2).2.2).1 = (some data, false) →
            colValues1.getD i none
              = (drv.v_rdf2node ((i : Int) + 1) data
                  (drv.v_GetDataCHAR ((i : Int) + 1)
                    (librdf_query_virtuoso_results_next_decode drv i 1 colValues
                      (drv.SQLFetch d).2).2.2).2).1) ∧
          (drv.v_GetDataCHAR ((i : Int) + 1)
            (librdf_query_virtuoso_results_next_decode drv i 1 colValues
              (drv.SQLFetch d).2).2.2).1 ≠ (none, false)) ∧
    (rc ≠ 0 → context1.row_count = context.row_count) := by
  have hf := results_next_frame drv context numCols d log rc context1 d1 log1 h
  refine ⟨fun hrc => ⟨(hf.2.2.2.2.2.2.2.2.2.2.1 hrc).1, ?_⟩, hf.2.2.2.2.2.2.2.2.2.2.2.1⟩
  subst hrc
  obtain ⟨colValues0, hlen, hdecode, hnew⟩ :=
    results_next_zero drv context numCols d log colValues hcells hcols context1 d1 log1 h
  refine ⟨_, hnew, fun i hi => ?_⟩
  have hrow := (results_next_decode_row drv _ _ _ hdecode).2 i hi (by omega)
  rw [(results_next_decode_cells_irrelevant drv i 1 colValues0 colValues (drv.SQLFetch d).2).2]
    at hrow
  exact hrow

/-- C24 with the example driver: on a context of two columns holding the nodes `a` and
`b` of a first row, the next row, whose first cell is null, leaves cell 0 empty and
the node decoded from `d` in cell 1, with a count of rows grown from 0 to 1. -/
theorem results_next_decodes_row_witness :
    librdf_query_virtuoso_results_next cursor_driver
        { example_context with vc := some 1, storage := some 1 } 2
        (cursor_state.start ["s", "o"] [some [cursor_cell.null, cursor_cell.chars "d"]]) []
      = Outcome.returned
          (0,
           { example_context with
             vc := some 1, storage := some 1,
             colValues := some [none, some (librdf_node.resource "d"), none],
             row_count := 1 },
           { cursor_state.start ["s", "o"] [] with
             current := [cursor_cell.null, cursor_cell.chars "d"], fetch_calls := 1 },
           [Released.node (librdf_node.resource "a"),
            Released.node (librdf_node.blank "b")]) ∧
    ∃ colValues1,
      ({ example_context with
          vc := some 1, storage := some 1,
          colValues := some [none, some (librdf_node.resource "d"), none],
          row_count := 1 } : librdf_query_virtuoso_context).colValues = some colValues1 ∧
      colValues1.getD 0 none = none ∧
      colValues1.getD 1 none = some (librdf_node.resource "d") :=
  have h := (results_next_decodes_row cursor_driver
    { example_context with vc := some 1, storage := some 1 } 2
    (cursor_state.start ["s", "o"] [some [cursor_cell.null, cursor_cell.chars "d"]]) []
    [some (librdf_node.resource "a"), some (librdf_node.blank "b"), none] rfl (by decide)
    (by decide) 0
    { example_context with
      vc := some 1, storage := some 1,
      colValues := some [none, some (librdf_node.resource "d"), none], row_count := 1 }
    { cursor_state.start ["s", "o"] [] with
      current := [cursor_cell.null, cursor_cell.chars "d"], fetch_calls := 1 }
    [Released.node (librdf_node.resource "a"), Released.node (librdf_node.blank "b")]
    (by decide)).1 rfl
  ⟨by decide,
   h.2.elim fun colValues1 hc =>
     ⟨colValues1, hc.1, (hc.2 0 (by decide)).1 (by decide),
      (hc.2 1 (by decide)).2.1 "d" (by decide)⟩⟩

/-! ## The shape flags after the execution (C25) -/

/-- C25 (counterexample): after the execution of a SELECT over a cursor of one column
the shape is BINDINGS; `librdf_query_virtuoso_free_results` on that context leaves
the shape unknown. -/
theorem free_results_resets_result_type :
    librdf_query_virtuoso_execute cursor_driver (example_query "SELECT ?s") none true true true
        (fun _ => true) (some 7) true 0
        (cursor_state.start ["s"] [some [cursor_cell.chars "a"]]) []
      = Outcome.returned
          (true,
           { example_query "SELECT ?s" with
             numCols := 1, colNames := some ["s"],
             colValues := some [some (librdf_node.resource "a"), none],
             result_type := VQUERY_RESULTS_BINDINGS,
             eof := false, row_count := 1, limit := -1, offset := -1, results := some 7 },
           { cursor_state.start ["s"] [] with
             current := [cursor_cell.chars "a"], fetch_calls := 1, close_calls := 1 },
           [Released.command]) ∧
    librdf_query_virtuoso_free_results cursor_driver
        { example_query "SELECT ?s" with
          numCols := 1, colNames := some ["s"],
          colValues := some [some (librdf_node.resource "a"), none],
          result_type := VQUERY_RESULTS_BINDINGS,
          eof := false, row_count := 1, limit := -1, offset := -1, results := some 7 }
        { cursor_state.start ["s"] [] with
          current := [cursor_cell.chars "a"], fetch_calls := 1, close_calls := 1 }
        [Released.command]
      = Outcome.returned
          ({ example_query "SELECT ?s" with
             numCols := 0, colNames := none, colValues := none,
             result_type := VQUERY_RESULTS_UNKNOWN,
             eof := true, row_count := 0, limit := -1, offset := -1, results := some 7 },
           { cursor_state.start ["s"] [] with
             current := [cursor_cell.chars "a"], fetch_calls := 1, close_calls := 2 },
           [Released.command, Released.column_name "s", Released.column_names,
            Released.node (librdf_node.resource "a"), Released.column_values]) ∧
    VQUERY_RESULTS_UNKNOWN ≠ VQUERY_RESULTS_BINDINGS := by
  decide

/-- C25 (amended): `librdf_query_virtuoso_results_next`, the binding accessors,
`librdf_query_virtuoso_results_get_boolean` and
`librdf_query_virtuoso_results_as_stream` leave the shape flags of the context as they
were (the pulls on the graph stream only read the query context);
`librdf_query_virtuoso_free_results` sets them to unknown. -/
theorem result_type_kept_until_free_results {D : Type} (drv : virtuoso_driver D)
    (context : librdf_query_virtuoso_context) (numCols offset : Int) (d : D)
    (log : List Released) (names : Bool) (values : Option (List (Option librdf_node)))
    (name : String) (calloc_scontext new_statement new_stream : Bool) :
    (∀ rc context1 d1 log1,
      librdf_query_virtuoso_results_next drv context numCols d log
        = Outcome.returned (rc, context1, d1, log1) →
      context1.result_type = context.result_type) ∧
    (∀ r, librdf_query_virtuoso_results_get_bindings context names values = Outcome.returned r →
      r.context.result_type = context.result_type) ∧
    (librdf_query_virtuoso_results_get_binding_value context offset).2.result_type
      = context.result_type ∧
    (∀ node context1,
      librdf_query_virtuoso_results_get_binding_value_by_name context name
        = Outcome.returned (node, context1) →
      context1.result_type = context.result_type) ∧
    (∀ rc context1 d1,
      librdf_query_virtuoso_results_get_boolean drv context d
        = Outcome.returned (rc, context1, d1) →
      context1.result_type = context.result_type) ∧
    (∀ stream context1 log1,
      librdf_query_virtuoso_results_as_stream context calloc_scontext new_statement new_stream
        log = Outcome.returned (stream, context1, log1) →
      context1.result_type = context.result_type) ∧
    (∀ context1 d1 log1,
      librdf_query_virtuoso_free_results drv context d log
        = Outcome.returned (context1, d1, log1) →
      context1.result_type = VQUERY_RESULTS_UNKNOWN) := by
  refine ⟨?_, ?_, ?_, ?_, ?_, ?_, ?_⟩
  · intro rc context1 d1 log1 h
    exact (results_next_frame drv context numCols d log rc context1 d1 log1 h).1
  · intro r h
    unfold librdf_query_virtuoso_results_get_bindings at h
    dsimp only at h
    repeat' split at h
    all_goals first
      | (cases h; rfl)
      | (simp at h)
  · unfold librdf_query_virtuoso_results_get_binding_value
    repeat' split
    all_goals rfl
  · intro node context1 h
    unfold librdf_query_virtuoso_results_get_binding_value_by_name at h
    repeat' split at h
    all_goals first
      | (cases h; rfl)
      | (simp at h)
  · intro rc context1 d1 h
    unfold librdf_query_virtuoso_results_get_boolean at h
    dsimp only at h
    repeat' split at h
    all_goals first
      | (cases h; rfl)
      | (simp at h)
  · intro stream context1 log1 h
    unfold librdf_query_virtuoso_results_as_stream at h
    dsimp only [librdf_query_virtuoso_results_as_stream_fail] at h
    by_cases hg : context.numCols > 3
    · simp only [hg, if_true] at h
      repeat' split at h
      all_goals first
        | (cases h; rfl)
        | (simp at h)
    · simp only [hg, if_false] at h
      repeat' split at h
      all_goals first
        | (cases h; rfl)
        | (simp at h)
  · intro context1 d1 log1 h
    unfold librdf_query_virtuoso_free_results at h
    simp only [virtuoso_free_result_fst] at h
    repeat' split at h
    all_goals first
      | (cases h; rfl)
      | (simp at h)

/-! ## Disposal of the generic projection iterator (C26) -/

/-- C26: disposal of the generic stream-to-node iterator context, whatever its axis
and wherever the iteration stands, releases the pattern statement with all three
slots cleared, then the underlying stream, then the context block, and releases no
node: the two bound terms of the caller that the pattern holds are not released.
On the example context, whose pattern holds `p` and `o`, neither is released. -/
theorem stream_to_node_iterator_finished_keeps_bound_terms
    (context : librdf_storage_stream_to_node_iterator_context) (log : List Released) :
    librdf_storage_stream_to_node_iterator_finished context log
      = log ++
          context.partial_statement.toList.map
            (fun _ => Released.statement librdf_new_statement) ++
          context.stream.toList.map Released.stream ++ [Released.iterator_context] ∧
    (∀ node,
      (librdf_storage_stream_to_node_iterator_finished context log).count (Released.node node)
        = log.count (Released.node node)) ∧
    Released.node (librdf_node.resource "p")
      ∉ librdf_storage_stream_to_node_iterator_finished example_iterator_context [] ∧
    Released.node (librdf_node.resource "o")
      ∉ librdf_storage_stream_to_node_iterator_finished example_iterator_context [] := by
  have h : librdf_storage_stream_to_node_iterator_finished context log
      = log ++
          context.partial_statement.toList.map
            (fun _ => Released.statement librdf_new_statement) ++
          context.stream.toList.map Released.stream ++ [Released.iterator_context] := by
    cases context with
    | mk stream partial_statement want =>
      cases stream <;> cases partial_statement <;>
        simp [librdf_storage_stream_to_node_iterator_finished, librdf_free_statement,
          librdf_free_stream, librdf_statement_set_subject, librdf_statement_set_predicate,
          librdf_statement_set_object, librdf_statement.nodes, librdf_new_statement]
  refine ⟨h, fun node => ?_, by decide, by decide⟩
  rw [h]
  cases context with
  | mk stream partial_statement want =>
    cases stream <;> cases partial_statement <;> simp [List.count_cons]

/-! ## Classification by the first accepted token (C27) -/

/-- The shape of a token in terms of what `strexpect` accepts. -/
theorem shape_of_token_accepted (token : List Char) :
    shape_of_token token = if accepted token then some (accepted_shape token) else none := by
  unfold shape_of_token accepted accepted_shape keywords
  simp only [← strexpect_isSome, List.any_cons, List.any_nil, Bool.or_false]
  generalize (strexpect "SELECT".toList token).isSome = b1
  generalize (strexpect "ASK".toList token).isSome = b2
  generalize (strexpect "CONSTRUCT".toList token).isSome = b3
  generalize (strexpect "DESCRIBE".toList token).isSome = b4
  cases b1 <;> cases b2 <;> cases b3 <;> cases b4 <;> rfl

/-- An accepted token has a shape other than unknown. -/
theorem accepted_shape_known (token : List Char) (h : accepted token = true) :
    accepted_shape token ≠ VQUERY_RESULTS_UNKNOWN := by
  unfold accepted keywords at h
  unfold accepted_shape
  simp only [List.any_cons, List.any_nil, Bool.or_false] at h
  revert h
  generalize (strexpect "SELECT".toList token).isSome = b1
  generalize (strexpect "ASK".toList token).isSome = b2
  generalize (strexpect "CONSTRUCT".toList token).isSome = b3
  generalize (strexpect "DESCRIBE".toList token).isSome = b4
  cases b1 <;> cases b2 <;> cases b3 <;> cases b4 <;> decide

/-- The first shape found among tokens is the shape of the first accepted token. -/
theorem findSome_shape_of_token (l : List (List Char)) :
    l.findSome? shape_of_token = (l.find? accepted).map accepted_shape := by
  induction l with
  | nil => rfl
  | cons t rest ih =>
    simp only [List.findSome?_cons, List.find?_cons, shape_of_token_accepted t]
    cases h : accepted t
    · simpa using ih
    · simp

/-- C27: the classification made by `librdf_query_virtuoso_init` is the shape of the
first token, anywhere in the text split at space, tab, newline, carriage return and
form feed, that `strexpect` accepts for one of the four keywords, and it is unknown
exactly when no token is accepted. So `PREFIX p: <u> SELECT ?x` is classified
BINDINGS, `foo ASK` BOOLEAN and `SELECT* { }` stays unknown. -/
theorem init_classifies_first_accepted_token (context : librdf_query_virtuoso_context)
    (factory_name : String) (query_string : List Char) (base_uri : Option String) :
    (librdf_query_virtuoso_init context factory_name query_string base_uri true).2.result_type
      = (((tokens query_string).find? accepted).map accepted_shape).getD
          VQUERY_RESULTS_UNKNOWN ∧
    ((librdf_query_virtuoso_init context factory_name query_string base_uri
        true).2.result_type = VQUERY_RESULTS_UNKNOWN ↔
      ∀ token ∈ tokens query_string, accepted token = false) ∧
    (librdf_query_virtuoso_init context factory_name "PREFIX p: <u> SELECT ?x".toList base_uri
      true).2.result_type = VQUERY_RESULTS_BINDINGS ∧
    (librdf_query_virtuoso_init context factory_name "foo ASK".toList base_uri
      true).2.result_type = VQUERY_RESULTS_BOOLEAN ∧
    (librdf_query_virtuoso_init context factory_name "SELECT* \x7b \x7d".toList base_uri
      true).2.result_type = VQUERY_RESULTS_UNKNOWN := by
  refine ⟨?_, ?_, ?_, ?_, ?_⟩
  · rw [librdf_query_virtuoso_init_result_type, findSome_shape_of_token]
  · rw [librdf_query_virtuoso_init_result_type, findSome_shape_of_token]
    cases h : (tokens query_string).find? accepted with
    | none =>
      simp only [Option.map_none', Option.getD_none, true_iff]
      intro token htoken
      have := List.find?_eq_none.1 h token htoken
      simpa using this
    | some token =>
      have hacc : accepted token = true := List.find?_some h
      have hmem : token ∈ tokens query_string := List.mem_of_find?_eq_some h
      simp only [Option.map_some', Option.getD_some]
      constructor
      · intro h0
        exact absurd h0 (accepted_shape_known token hacc)
      · intro hall
        rw [hall token hmem] at hacc
        cases hacc
  · rw [librdf_query_virtuoso_init_result_type]; decide
  · rw [librdf_query_virtuoso_init_result_type]; decide
  · rw [librdf_query_virtuoso_init_result_type]; decide

/-! ## The boolean value after the execution (C28) -/

/-- C28: whatever the classification of the query, an execution over a result with
`n > 0` columns fetches and decodes the first row of the cursor, so a
`librdf_query_virtuoso_results_get_boolean` after it fetches again and reads the row
after that one: it returns 0 when the driver has no second row, whatever the first
row held, and otherwise the integer of column 1 of the second row. -/
theorem get_boolean_after_execute_reads_second_row {D : Type} (drv : virtuoso_driver D)
    (context : librdf_query_virtuoso_context) (model : Option Nat) (calloc_name : Int → Bool)
    (rasqal_results : Option Nat) (numCols : Int) (d : D) (log : List Released)
    (vc storage : Nat) (query_string : List Char) (n : Int) (colNames : List String)
    (d1 d2 d3 : D) (hvc : context.vc = some vc) (hstorage : context.storage = some storage)
    (hquery : context.query_string = some query_string)
    (hexec : SQL_SUCCEEDED (drv.SQLExecDirect (pref ++ query_string) (drv.SQLCloseCursor d)).1
      = true)
    (hcount : SQL_SUCCEEDED (drv.SQLNumResultCols
      (drv.SQLExecDirect (pref ++ query_string) (drv.SQLCloseCursor d)).2).1.1 = true)
    (hn : (drv.SQLNumResultCols
      (drv.SQLExecDirect (pref ++ query_string) (drv.SQLCloseCursor d)).2).1.2 = n)
    (hd1 : (drv.SQLNumResultCols
      (drv.SQLExecDirect (pref ++ query_string) (drv.SQLCloseCursor d)).2).2 = d1)
    (hcols : 0 < n)
    (hnames : librdf_query_virtuoso_execute_names drv (some storage) calloc_name n.toNat 1 [] d1
      = Outcome.returned (true, colNames, d2))
    (hfetch : SQL_SUCCEEDED (drv.SQLFetch d2).1 = true)
    (hdecode : (librdf_query_virtuoso_results_next_decode drv n.toNat 1
      (List.replicate (n + 1).toNat none) (drv.SQLFetch d2).2).1 = true)
    (hd3 : (librdf_query_virtuoso_results_next_decode drv n.toNat 1
      (List.replicate (n + 1).toNat none) (drv.SQLFetch d2).2).2.2 = d3) :
    ∃ context1 log1,
      librdf_query_virtuoso_execute drv context model true true true calloc_name
          rasqal_results true numCols d log
        = Outcome.returned (true, context1, d3, log1) ∧
      context1.result_type = context.result_type ||| VQUERY_RESULTS_BINDINGS ∧
      ((drv.SQLFetch d3).1 = SQL_NO_DATA_FOUND →
        librdf_query_virtuoso_results_get_boolean drv context1 d3
          = Outcome.returned (0, { context1 with eof := true }, (drv.SQLFetch d3).2)) ∧
      (SQL_SUCCEEDED (drv.SQLFetch d3).1 = true →
        (drv.v_GetDataINT 1 (drv.SQLFetch d3).2).1.1 ≠ -1 →
        librdf_query_virtuoso_results_get_boolean drv context1 d3
          = Outcome.returned
              ((drv.v_GetDataINT 1 (drv.SQLFetch d3).2).1.2.2, { context1 with eof := true },
               (drv.v_GetDataINT 1 (drv.SQLFetch d3).2).2)) := by
  have he := execute_returns_first_row drv context model calloc_name rasqal_results numCols d
    log vc storage query_string n colNames d1 d2 hvc hstorage hquery hexec hcount hn hd1 hcols
    hnames hfetch hdecode
  rw [hd3] at he
  have hpos : ¬ n ≤ 0 := not_le.2 hcols
  refine ⟨_, _, he, rfl, fun hnd => ?_, fun hok hint => ?_⟩
  · simp [librdf_query_virtuoso_results_get_boolean, librdf_query_virtuoso_execute_ready,
      hpos, hvc, hnd]
  · have hrc : (drv.SQLFetch d3).1 = 0 ∨ (drv.SQLFetch d3).1 = 1 := by
      simpa [SQL_SUCCEEDED] using hok
    have h1 : ¬ (drv.SQLFetch d3).1 = SQL_NO_DATA_FOUND := by
      rcases hrc with h | h <;> rw [h] <;> decide
    have h2 : ¬ ((drv.SQLFetch d3).1 ≠ SQL_SUCCESS ∧
        (drv.SQLFetch d3).1 ≠ SQL_SUCCESS_WITH_INFO) := by
      rcases hrc with h | h <;> rw [h] <;> decide
    unfold librdf_query_virtuoso_results_get_boolean
    simp only [librdf_query_virtuoso_execute_ready, hvc, hstorage, hpos, decide_False,
      Bool.or_self, Bool.false_eq_true, if_false]
    rw [if_neg h1, if_neg h2, if_neg hint]

/-- C28 with the example driver whose integer cells also read as characters, on an
ASK query over a cursor of one column: with the single row `1` the execution consumes
it and the boolean read afterwards is 0; with the rows `0` and `1` the boolean read
afterwards is the 1 of the second row. -/
theorem get_boolean_after_execute_reads_second_row_witness :
    (∃ context1 log1,
      librdf_query_virtuoso_execute integer_text_driver (example_query "ASK") none true true
          true (fun _ => true) (some 7) true 0
          (cursor_state.start ["ask"] [some [cursor_cell.int 1]]) []
        = Outcome.returned
            (true, context1,
             { cursor_state.start ["ask"] [] with
               current := [cursor_cell.int 1], fetch_calls := 1, close_calls := 1 }, log1) ∧
      context1.result_type = VQUERY_RESULTS_BOOLEAN ||| VQUERY_RESULTS_BINDINGS ∧
      librdf_query_virtuoso_results_get_boolean integer_text_driver context1
          { cursor_state.start ["ask"] [] with
            current := [cursor_cell.int 1], fetch_calls := 1, close_calls := 1 }
        = Outcome.returned
            (0, { context1 with eof := true },
             { cursor_state.start ["ask"] [] with
               current := [cursor_cell.int 1], fetch_calls := 2, close_calls := 1 })) ∧
    (∃ context1 log1,
      librdf_query_virtuoso_execute integer_text_driver (example_query "ASK") none true true
          true (fun _ => true) (some 7) true 0
          (cursor_state.start ["ask"] [some [cursor_cell.int 0], some [cursor_cell.int 1]]) []
        = Outcome.returned
            (true, context1,
             { cursor_state.start ["ask"] [some [cursor_cell.int 1]] with
               current := [cursor_cell.int 0], fetch_calls := 1, close_calls := 1 }, log1) ∧
      context1.result_type = VQUERY_RESULTS_BOOLEAN ||| VQUERY_RESULTS_BINDINGS ∧
      librdf_query_virtuoso_results_get_boolean integer_text_driver context1
          { cursor_state.start ["ask"] [some [cursor_cell.int 1]] with
            current := [cursor_cell.int 0], fetch_calls := 1, close_calls := 1 }
        = Outcome.returned
            (1, { context1 with eof := true },
             { cursor_state.start ["ask"] [] with
               current := [cursor_cell.int 1], fetch_calls := 2, close_calls := 1 })) :=
  ⟨(get_boolean_after_execute_reads_second_row integer_text_driver (example_query "ASK") none
      (fun _ => true) (some 7) 0 (cursor_state.start ["ask"] [some [cursor_cell.int 1]]) []
      1 1 "ASK".toList 1 ["ask"]
      { cursor_state.start ["ask"] [some [cursor_cell.int 1]] with close_calls := 1 }
      { cursor_state.start ["ask"] [some [cursor_cell.int 1]] with close_calls := 1 }
      { cursor_state.start ["ask"] [] with
        current := [cursor_cell.int 1], fetch_calls := 1, close_calls := 1 }
      rfl rfl (by decide) (by decide) (by decide) (by decide) (by decide) (by decide)
      (by decide) (by decide) (by decide) (by decide)).elim
      fun context1 h => h.elim fun log1 h => ⟨context1, log1, h.1, h.2.1, h.2.2.1 (by decide)⟩,
   (get_boolean_after_execute_reads_second_row integer_text_driver (example_query "ASK") none
      (fun _ => true) (some 7) 0
      (cursor_state.start ["ask"] [some [cursor_cell.int 0], some [cursor_cell.int 1]]) []
      1 1 "ASK".toList 1 ["ask"]
      { cursor_state.start ["ask"] [some [cursor_cell.int 0], some [cursor_cell.int 1]] with
        close_calls := 1 }
      { cursor_state.start ["ask"] [some [cursor_cell.int 0], some [cursor_cell.int 1]] with
        close_calls := 1 }
      { cursor_state.start ["ask"] [some [cursor_cell.int 1]] with
        current := [cursor_cell.int 0], fetch_calls := 1, close_calls := 1 }
      rfl rfl (by decide) (by decide) (by decide) (by decide) (by decide) (by decide)
      (by decide) (by decide) (by decide) (by decide)).elim
      fun context1 h => h.elim fun log1 h =>
        ⟨context1, log1, h.1, h.2.1, h.2.2.2 (by decide) (by decide)⟩⟩

/-! ## Limit and offset (C29) -/

/-- C29: whatever limit and offset were set before, a
`librdf_query_virtuoso_execute` on a context with a connection, a storage and a query
text, its results object allocated, returns, whether it succeeds or fails, and
afterwards both the limit and the offset read -1; values set after the execution are
read back as they were set. -/
theorem execute_resets_limit_and_offset {D : Type} (drv : virtuoso_driver D)
    (context : librdf_query_virtuoso_context) (limit offset : Int) (model : Option Nat)
    (malloc_cmd calloc_colNames calloc_colValues : Bool) (calloc_name : Int → Bool)
    (rasqal_results : Option Nat) (numCols : Int) (d : D) (log : List Released)
    (vc storage : Nat) (query_string : List Char) (hvc : context.vc = some vc)
    (hstorage : context.storage = some storage)
    (hquery : context.query_string = some query_string) :
    ∃ r context1 d1 log1,
      librdf_query_virtuoso_execute drv
          (librdf_query_virtuoso_set_offset
            (librdf_query_virtuoso_set_limit context limit).2 offset).2
          model malloc_cmd calloc_colNames calloc_colValues calloc_name rasqal_results true
          numCols d log
        = Outcome.returned (r, context1, d1, log1) ∧
      librdf_query_virtuoso_get_limit context1 = -1 ∧
      librdf_query_virtuoso_get_offset context1 = -1 ∧
      ∀ limit1 offset1,
        librdf_query_virtuoso_get_limit
            (librdf_query_virtuoso_set_offset
              (librdf_query_virtuoso_set_limit context1 limit1).2 offset1).2 = limit1 ∧
        librdf_query_virtuoso_get_offset
            (librdf_query_virtuoso_set_offset
              (librdf_query_virtuoso_set_limit context1 limit1).2 offset1).2 = offset1 := by
  obtain ⟨⟨r, context1, d1, log1⟩, h⟩ :=
    execute_total drv
      (librdf_query_virtuoso_set_offset (librdf_query_virtuoso_set_limit context limit).2 offset).2
      model malloc_cmd calloc_colNames calloc_colValues calloc_name rasqal_results numCols d log
      vc storage query_string hvc hstorage hquery
  have hp := execute_post _ _ _ _ _ _ _ _ _ _ _ _ _ _ _ _ h
  exact ⟨r, context1, d1, log1, h, hp.1, hp.2.1, fun _ _ => ⟨rfl, rfl⟩⟩

/-- C29 on the example drivers: a limit of 10 and an offset of 5 are gone after an
execution that succeeds, and after one that the server rejects. -/
theorem execute_resets_limit_and_offset_witness :
    (∃ r context1 d1 log1,
      librdf_query_virtuoso_execute cursor_driver
          (librdf_query_virtuoso_set_offset
            (librdf_query_virtuoso_set_limit (example_query "SELECT ?s") 10).2 5).2
          none true true true (fun _ => true) (some 7) true 0
          (cursor_state.start ["s"] [some [cursor_cell.chars "a"]]) []
        = Outcome.returned (r, context1, d1, log1) ∧
      librdf_query_virtuoso_get_limit context1 = -1 ∧
      librdf_query_virtuoso_get_offset context1 = -1 ∧
      ∀ limit1 offset1,
        librdf_query_virtuoso_get_limit
            (librdf_query_virtuoso_set_offset
              (librdf_query_virtuoso_set_limit context1 limit1).2 offset1).2 = limit1 ∧
        librdf_query_virtuoso_get_offset
            (librdf_query_virtuoso_set_offset
              (librdf_query_virtuoso_set_limit context1 limit1).2 offset1).2 = offset1) ∧
    (∃ r context1 d1 log1,
      librdf_query_virtuoso_execute rejecting_driver
          (librdf_query_virtuoso_set_offset
            (librdf_query_virtuoso_set_limit (example_query "SELECT ?s") 10).2 5).2
          none true true true (fun _ => true) (some 7) true 0
          (cursor_state.start ["s"] [some [cursor_cell.chars "a"]]) []
        = Outcome.returned (r, context1, d1, log1) ∧
      librdf_query_virtuoso_get_limit context1 = -1 ∧
      librdf_query_virtuoso_get_offset context1 = -1 ∧
      ∀ limit1 offset1,
        librdf_query_virtuoso_get_limit
            (librdf_query_virtuoso_set_offset
              (librdf_query_virtuoso_set_limit context1 limit1).2 offset1).2 = limit1 ∧
        librdf_query_virtuoso_get_offset
            (librdf_query_virtuoso_set_offset
              (librdf_query_virtuoso_set_limit context1 limit1).2 offset1).2 = offset1) :=
  ⟨execute_resets_limit_and_offset cursor_driver (example_query "SELECT ?s") 10 5 none true
      true true (fun _ => true) (some 7) 0
      (cursor_state.start ["s"] [some [cursor_cell.chars "a"]]) [] 1 1 "SELECT ?s".toList
      rfl rfl (by decide),
   execute_resets_limit_and_offset rejecting_driver (example_query "SELECT ?s") 10 5 none true
      true true (fun _ => true) (some 7) 0
      (cursor_state.start ["s"] [some [cursor_cell.chars "a"]]) [] 1 1 "SELECT ?s".toList
      rfl rfl (by decide)⟩

/-! ## The syntax predicate (C30) -/

/-- The classification made on construction is one of unknown, BINDINGS, BOOLEAN and
GRAPH|BINDINGS. -/
theorem init_result_type_values (context : librdf_query_virtuoso_context)
    (factory_name : String) (query_string : List Char) (base_uri : Option String)
    (malloc_query_string : Bool) :
    (librdf_query_virtuoso_init context factory_name query_string base_uri
      malloc_query_string).2.result_type ∈ [0, 1, 2, 5] := by
  cases malloc_query_string with
  | false => simp [librdf_query_virtuoso_init, VQUERY_RESULTS_UNKNOWN]
  | true =>
    rw [librdf_query_virtuoso_init_result_type, findSome_shape_of_token]
    cases (tokens query_string).find? accepted with
    | none => simp [VQUERY_RESULTS_UNKNOWN]
    | some token =>
      simp only [Option.map_some', Option.getD_some]
      unfold accepted_shape
      repeat' split
      all_goals decide

/-- C30: in every state reached by constructing a query and executing it once,
`librdf_query_virtuoso_results_is_syntax` returns 0: either the submission failed,
the shape is SYNTAX and the column count is 0, so that every shape predicate returns
0, or the SYNTAX bit is not set. -/
theorem is_syntax_zero_after_first_execute {D : Type} (drv : virtuoso_driver D)
    (context : librdf_query_virtuoso_context) (factory_name : String)
    (query_string : List Char) (base_uri : Option String) (malloc_query_string : Bool)
    (model : Option Nat) (malloc_cmd calloc_colNames calloc_colValues : Bool)
    (calloc_name : Int → Bool) (rasqal_results : Option Nat) (malloc_results : Bool)
    (numCols : Int) (d : D) (log : List Released) (r : Bool)
    (context1 : librdf_query_virtuoso_context) (d1 : D) (log1 : List Released)
    (h : librdf_query_virtuoso_execute drv
        (librdf_query_virtuoso_init context factory_name query_string base_uri
          malloc_query_string).2
        model malloc_cmd calloc_colNames calloc_colValues calloc_name rasqal_results
        malloc_results numCols d log
      = Outcome.returned (r, context1, d1, log1)) :
    librdf_query_virtuoso_results_is_syntax context1 = 0 ∧
    ((context1.result_type = VQUERY_RESULTS_SYNTAX ∧ context1.numCols = 0 ∧
        librdf_query_virtuoso_results_is_bindings context1 = 0 ∧
        librdf_query_virtuoso_results_is_boolean context1 = 0 ∧
        librdf_query_virtuoso_results_is_graph context1 = 0) ∨
      context1.result_type &&& VQUERY_RESULTS_SYNTAX = 0) := by
  have hp := (execute_post _ _ _ _ _ _ _ _ _ _ _ _ _ _ _ _ h).2.2.2
  have hv := init_result_type_values context factory_name query_string base_uri
    malloc_query_string
  generalize (librdf_query_virtuoso_init context factory_name query_string base_uri
    malloc_query_string).2.result_type = v at hp hv
  have hbits : v &&& VQUERY_RESULTS_SYNTAX = 0 ∧
      (v ||| VQUERY_RESULTS_BINDINGS) &&& VQUERY_RESULTS_SYNTAX = 0 := by
    simp only [List.mem_cons, List.mem_singleton, List.not_mem_nil, or_false] at hv
    rcases hv with hv | hv | hv | hv <;> subst hv <;> decide
  unfold librdf_query_virtuoso_results_is_syntax librdf_query_virtuoso_results_is_bindings
    librdf_query_virtuoso_results_is_boolean librdf_query_virtuoso_results_is_graph
  rcases hp with ⟨h1, h2⟩ | h1 | h1
  · simp [h1, h2]
  · rw [h1]
    refine ⟨?_, Or.inr hbits.1⟩
    split
    · rfl
    · simp [hbits.1]
  · rw [h1]
    refine ⟨?_, Or.inr hbits.2⟩
    split
    · rfl
    · simp [hbits.2]

/-- C30 on the example drivers: after an execution that the server rejects the shape
is SYNTAX with no column, after one that succeeds the shape is BINDINGS; the syntax
predicate returns 0 in both states. -/
theorem is_syntax_zero_after_first_execute_witness :
    librdf_query_virtuoso_results_is_syntax
        { example_query "SELECT ?s" with
          result_type := VQUERY_RESULTS_SYNTAX, failed := true, eof := true,
          limit := -1, offset := -1 } = 0 ∧
    librdf_query_virtuoso_results_is_syntax
        { example_query "SELECT ?s" with
          numCols := 1, colNames := some ["s"],
          colValues := some [some (librdf_node.resource "a"), none],
          eof := false, row_count := 1, limit := -1, offset := -1, results := some 7 } = 0 :=
  ⟨(is_syntax_zero_after_first_execute rejecting_driver
      { librdf_query_virtuoso_context.zeroed with vc := some 1, storage := some 1 } "vsparql"
      "SELECT ?s".toList none true none true true true (fun _ => true) (some 7) true 0
      (cursor_state.start ["s"] [some [cursor_cell.chars "a"]]) [] false _
      { cursor_state.start ["s"] [some [cursor_cell.chars "a"]] with
        close_calls := 1, error_reports := 1 }
      [Released.command] (by decide)).1,
   (is_syntax_zero_after_first_execute cursor_driver
      { librdf_query_virtuoso_context.zeroed with vc := some 1, storage := some 1 } "vsparql"
      "SELECT ?s".toList none true none true true true (fun _ => true) (some 7) true 0
      (cursor_state.start ["s"] [some [cursor_cell.chars "a"]]) [] true _
      { cursor_state.start ["s"] [] with
        current := [cursor_cell.chars "a"], fetch_calls := 1, close_calls := 1 }
      [Released.command] (by decide)).1⟩

end Librdf
